import Mathlib

/-!
# OpenStack cloud mocks of kops: block storage volumes and compute servers

A shallow embedding of `cloudmock/openstack/mockblockstorage` (`volumes.go`,
`types.go`) and `cloudmock/openstack/mockcompute` (`servers.go`), followed by
theorems about the request handlers, the stores and the list filters.

Conventions of the embedding.

* A Go `map[string]T` is the list of its entries, in the order in which a
  `range` loop visits them. Go leaves that order unspecified; every theorem
  below is stated for an arbitrary list, hence for every visiting order.
* A handler receives its `http.ResponseWriter` as a value and returns the
  writer it leaves behind, together with the new state and the panic message
  when it panicked.
* `json.Marshal` is kept abstract: the marshalled bytes are represented by the
  value that was handed to the encoder (`Document`).
-/

set_option autoImplicit false

namespace Kops

/-! ## Go maps -/

/-- A Go `map[string]T`: its entries in visiting order. -/
abbrev GoMap (α : Type) := List (String × α)

namespace GoMap

variable {α : Type}

/-- The comma-ok read `v, ok := m[k]`. -/
def lookup (m : GoMap α) (k : String) : Option α :=
  match m with
  | [] => none
  | (k', v) :: rest => if k' = k then some v else lookup rest k

/-- The plain read `m[k]`, which yields the zero value for an absent key. -/
def index (zero : α) (m : GoMap α) (k : String) : α :=
  (lookup m k).getD zero

/-- The assignment `m[k] = v`. -/
def insert (m : GoMap α) (k : String) (v : α) : GoMap α :=
  match m with
  | [] => [(k, v)]
  | (k', v') :: rest => if k' = k then (k, v) :: rest else (k', v') :: insert rest k v

/-- The builtin `delete(m, k)`. -/
def delete (m : GoMap α) (k : String) : GoMap α :=
  m.filter (fun e => decide (e.1 ≠ k))

end GoMap

/-! ## `time.Time` -/

/-- A `time.Time`, by the civil fields that `Format` prints, the nanoseconds and
the zone offset in seconds east of UTC. -/
structure Time where
  year : Int
  month : Nat
  day : Nat
  hour : Nat
  minute : Nat
  second : Nat
  nsec : Nat
  offset : Int
  deriving DecidableEq, Repr, Inhabited

/-- The zero `time.Time`: January 1 of year 1, 00:00:00 UTC. -/
def Time.zero : Time :=
  { year := 1, month := 1, day := 1, hour := 0, minute := 0, second := 0, nsec := 0, offset := 0 }

/-- Sample timestamp: the given day of January 2020, at noon UTC. -/
def sampleTime (day : Nat) : Time :=
  { year := 2020, month := 1, day := day, hour := 12, minute := 0, second := 0, nsec := 0,
    offset := 0 }

/-- The decimal digit `d` as a character. -/
def digitChar (d : Nat) : Char :=
  Char.ofNat (48 + d % 10)

/-- The `width` low-order decimal digits of `n`, most significant first. -/
def lastDigits : Nat → Nat → List Char
  | 0, _ => []
  | width + 1, n => lastDigits width (n / 10) ++ [digitChar (n % 10)]

/-- `appendInt` of package `time`: the decimal form of `x`, padded with zeros to
at least `width` digits, after a minus sign when `x` is negative. -/
def appendInt (x : Int) (width : Nat) : List Char :=
  let u := x.natAbs
  let digits := if u < 10 ^ width then lastDigits width u else Nat.toDigits 10 u
  if x < 0 then '-' :: digits else digits

/-- `t.Format("2006-01-02T15:04:05")`: year, month, day, hour, minute and second
of the time in its own location. -/
def Time.FormatRFC3339NoZ (t : Time) : List Char :=
  appendInt t.year 4 ++ ['-'] ++ appendInt t.month 2 ++ ['-'] ++ appendInt t.day 2 ++ ['T']
    ++ appendInt t.hour 2 ++ [':'] ++ appendInt t.minute 2 ++ [':'] ++ appendInt t.second 2

/-- The fields of a `time.Time` are those of a date and a time of day. -/
def Time.Valid (t : Time) : Prop :=
  1 ≤ t.month ∧ t.month ≤ 12 ∧ 1 ≤ t.day ∧ t.day ≤ 31 ∧ t.hour < 24 ∧ t.minute < 60
    ∧ t.second < 60 ∧ t.nsec < 1000000000

/-- The number a list of decimal digits writes. -/
def digitsValue (cs : List Char) : Nat :=
  cs.foldl (fun acc c => acc * 10 + (c.toNat - 48)) 0

/-! ## `net/url` and `strings` -/

/-- A `url.Values`: `map[string][]string`. -/
abbrev Values := GoMap (List String)

/-- `url.Values.Get`: the first value stored under the key, `""` when there is none. -/
def Values.Get (vals : Values) (key : String) : String :=
  match GoMap.lookup vals key with
  | some (v :: _) => v
  | _ => ""

/-- `url.Values.Del`: the values without the key. -/
def Values.Del (vals : Values) (key : String) : Values :=
  GoMap.delete vals key

/-- Scanning loop of `strings.ReplaceAll` for a non-empty `old`; `skip` counts the
characters of a match that are still to be passed over. -/
def replaceAllAux (old new : List Char) : List Char → Nat → List Char
  | [], _ => []
  | _ :: cs, skip + 1 => replaceAllAux old new cs skip
  | c :: cs, 0 =>
    if old.isPrefixOf (c :: cs) then new ++ replaceAllAux old new cs (old.length - 1)
    else c :: replaceAllAux old new cs 0

/-- `strings.ReplaceAll(s, old, new)` for a non-empty `old`. -/
def ReplaceAll (s old new : String) : String :=
  String.mk (replaceAllAux old.data new.data s.data 0)

/-- `strings.HasPrefix`. -/
def HasPrefix (s pre : String) : Bool :=
  pre.data.isPrefixOf s.data

/-- `strings.TrimLeft` on characters. -/
def trimLeft (cutset : List Char) : List Char → List Char
  | [] => []
  | c :: cs => if c ∈ cutset then trimLeft cutset cs else c :: cs

/-- `strings.Trim(s, cutset)`: all leading and trailing characters of the cutset removed. -/
def Trim (s cutset : String) : String :=
  String.mk (trimLeft cutset.data (trimLeft cutset.data s.data).reverse).reverse

/-! ## `encoding/json`: `json.Unmarshal` into a `map[string]string`

The decoder of the standard library, for the one target type the filter uses.
`Unmarshal` first checks that the whole input is well-formed JSON and stores
nothing when it is not; a well-formed input is then decoded, and a value of the
wrong JSON type is reported as an error while decoding goes on. -/

namespace JSON

/-- The double quote. -/
def dquote : Char := Char.ofNat 34

/-- The backslash. -/
def bslash : Char := Char.ofNat 92

/-- The opening brace. -/
def lcurly : Char := Char.ofNat 123

/-- The closing brace. -/
def rcurly : Char := Char.ofNat 125

/-- The lexical tokens of a JSON text. -/
inductive Token where
  | lbrace | rbrace | lbrack | rbrack | colon | comma
  | str (s : String)
  | num | true | false | null
  deriving DecidableEq, Repr

/-- Value of a hexadecimal digit. -/
def hexVal (c : Char) : Option Nat :=
  if '0' ≤ c ∧ c ≤ '9' then some (c.toNat - 48)
  else if 'a' ≤ c ∧ c ≤ 'f' then some (c.toNat - 87)
  else if 'A' ≤ c ∧ c ≤ 'F' then some (c.toNat - 55)
  else none

/-- The rune of four hexadecimal digits (`getu4`). -/
def getu4 (a b c d : Char) : Option Nat :=
  match hexVal a, hexVal b, hexVal c, hexVal d with
  | some x, some y, some z, some w => some (((x * 16 + y) * 16 + z) * 16 + w)
  | _, _, _, _ => none

/-- The character a one-letter escape stands for. -/
def escapeChar (e : Char) : Char :=
  if e = 'b' then Char.ofNat 8
  else if e = 'f' then Char.ofNat 12
  else if e = 'n' then Char.ofNat 10
  else if e = 'r' then Char.ofNat 13
  else if e = 't' then Char.ofNat 9
  else e

/-- The replacement character that stands for a lone surrogate. -/
def replacementChar : Char := Char.ofNat 65533

/-- The rune written by a `\u` escape, given the characters that follow the `u`,
and how many of them it takes: four, or ten when a second escape completes a
surrogate pair. A lone surrogate reads as the replacement character. -/
def decodeU : List Char → Char × Nat
  | a :: b :: c :: d :: rest =>
    let rr := (getu4 a b c d).getD 65533
    if 55296 ≤ rr ∧ rr < 57344 then
      match rest with
      | b1 :: u1 :: a1 :: b2 :: c1 :: d1 :: _ =>
        let rr1 := (getu4 a1 b2 c1 d1).getD 65533
        if b1 = bslash ∧ u1 = 'u' ∧ rr < 56320 ∧ 56320 ≤ rr1 ∧ rr1 < 57344 then
          (Char.ofNat ((rr - 55296) * 1024 + (rr1 - 56320) + 65536), 10)
        else (replacementChar, 4)
      | _ => (replacementChar, 4)
    else (Char.ofNat rr, 4)
  | _ => (replacementChar, 0)

/-- Loop of `unquote`; `skip` counts the characters of an escape that are still to
be passed over. -/
def unquoteAux : List Char → Nat → List Char
  | [], _ => []
  | _ :: cs, skip + 1 => unquoteAux cs skip
  | c :: cs, 0 =>
    if c ≠ bslash then c :: unquoteAux cs 0
    else
      match cs with
      | [] => []
      | e :: after =>
        if e ≠ 'u' then escapeChar e :: unquoteAux cs 1
        else (decodeU after).1 :: unquoteAux cs (1 + (decodeU after).2)

/-- `unquote`: the text of a string literal, given what stands between its quotes
(the lexer has already checked the escapes). -/
def unquote (raw : List Char) : List Char :=
  unquoteAux raw 0

/-- Where the lexer stands inside a string literal. -/
inductive StrPhase where
  | plain
  | esc
  | hex (left : Nat)
  deriving DecidableEq, Repr

/-- Where the lexer stands inside a number. -/
inductive NumPhase where
  | neg | zero | int | dot | frac | e | esign | exp
  deriving DecidableEq, Repr

/-- State of the lexer. -/
inductive LexState where
  | start
  | str (acc : List Char) (ph : StrPhase)
  | num (ph : NumPhase)
  | lit (rest : List Char) (tok : Token)
  deriving DecidableEq, Repr

/-- JSON white space. -/
def isSpace (c : Char) : Bool :=
  c = ' ' ∨ c = Char.ofNat 9 ∨ c = Char.ofNat 10 ∨ c = Char.ofNat 13

/-- A decimal digit. -/
def isDigit (c : Char) : Bool :=
  '0' ≤ c ∧ c ≤ '9'

/-- One character read between two tokens. -/
def startStep (c : Char) : Option (LexState × List Token) :=
  if isSpace c then some (.start, [])
  else if c = lcurly then some (.start, [.lbrace])
  else if c = rcurly then some (.start, [.rbrace])
  else if c = '[' then some (.start, [.lbrack])
  else if c = ']' then some (.start, [.rbrack])
  else if c = ':' then some (.start, [.colon])
  else if c = ',' then some (.start, [.comma])
  else if c = dquote then some (.str [] .plain, [])
  else if c = '-' then some (.num .neg, [])
  else if c = '0' then some (.num .zero, [])
  else if isDigit c then some (.num .int, [])
  else if c = 't' then some (.lit ['r', 'u', 'e'] .true, [])
  else if c = 'f' then some (.lit ['a', 'l', 's', 'e'] .false, [])
  else if c = 'n' then some (.lit ['u', 'l', 'l'] .null, [])
  else none

/-- The number read so far is complete: emit it and read `c` as the start of
what follows. -/
def endNumber (c : Char) : Option (LexState × List Token) :=
  match startStep c with
  | some (st, toks) => some (st, Token.num :: toks)
  | none => none

/-- One character read inside a number. -/
def numStep (ph : NumPhase) (c : Char) : Option (LexState × List Token) :=
  match ph with
  | .neg => if c = '0' then some (.num .zero, []) else if isDigit c then some (.num .int, []) else none
  | .zero =>
    if c = '.' then some (.num .dot, [])
    else if c = 'e' ∨ c = 'E' then some (.num .e, [])
    else endNumber c
  | .int =>
    if isDigit c then some (.num .int, [])
    else if c = '.' then some (.num .dot, [])
    else if c = 'e' ∨ c = 'E' then some (.num .e, [])
    else endNumber c
  | .dot => if isDigit c then some (.num .frac, []) else none
  | .frac =>
    if isDigit c then some (.num .frac, [])
    else if c = 'e' ∨ c = 'E' then some (.num .e, [])
    else endNumber c
  | .e =>
    if c = '+' ∨ c = '-' then some (.num .esign, [])
    else if isDigit c then some (.num .exp, [])
    else none
  | .esign => if isDigit c then some (.num .exp, []) else none
  | .exp => if isDigit c then some (.num .exp, []) else endNumber c

/-- One character read inside a string literal; `acc` holds the characters
between the quotes, last first. -/
def strStep (acc : List Char) (ph : StrPhase) (c : Char) : Option (LexState × List Token) :=
  match ph with
  | .plain =>
    if c = dquote then some (.start, [.str (String.mk (unquote acc.reverse))])
    else if c = bslash then some (.str (c :: acc) .esc, [])
    else if c.toNat < 32 then none
    else some (.str (c :: acc) .plain, [])
  | .esc =>
    if c = 'u' then some (.str (c :: acc) (.hex 4), [])
    else if c = dquote ∨ c = bslash ∨ c = '/' ∨ c = 'b' ∨ c = 'f' ∨ c = 'n' ∨ c = 'r' ∨ c = 't' then
      some (.str (c :: acc) .plain, [])
    else none
  | .hex left =>
    if (hexVal c).isSome then
      some (.str (c :: acc) (if left ≤ 1 then .plain else .hex (left - 1)), [])
    else none

/-- One step of the lexer. -/
def lexStep (st : LexState) (c : Char) : Option (LexState × List Token) :=
  match st with
  | .start => startStep c
  | .str acc ph => strStep acc ph c
  | .num ph => numStep ph c
  | .lit [] _ => none
  | .lit (x :: rest) tok =>
    if c = x then (if rest = [] then some (.start, [tok]) else some (.lit rest tok, []))
    else none

/-- The lexer: the tokens of the text, `none` when it is not made of JSON tokens. -/
def lexFrom : LexState → List Char → Option (List Token)
  | .start, [] => some []
  | .num ph, [] =>
    if ph = .zero ∨ ph = .int ∨ ph = .frac ∨ ph = .exp then some [Token.num] else none
  | _, [] => none
  | st, c :: cs =>
    match lexStep st c with
    | none => none
    | some (st', toks) =>
      match lexFrom st' cs with
      | none => none
      | some more => some (toks ++ more)

/-- The tokens of a JSON text. -/
def lex (data : String) : Option (List Token) :=
  lexFrom .start data.data

/-- What the grammar allows next. -/
inductive Expect where
  | value
  | valueOrClose
  | keyOrClose
  | key
  | colon
  | commaOrClose
  | done
  deriving DecidableEq, Repr

/-- The open containers, innermost first: `true` for an object, `false` for an array. -/
abbrev Stack := List Bool

/-- State reached once a value is complete. -/
def afterValue (stack : Stack) : Expect × Stack :=
  if stack = [] then (.done, stack) else (.commaOrClose, stack)

/-- The deepest nesting of containers the scanner accepts. -/
def maxNestingDepth : Nat := 10000

/-- A token that starts a value. Opening a container beyond `maxNestingDepth` is
an error. -/
def valueStep (stack : Stack) (tok : Token) : Option (Expect × Stack) :=
  match tok with
  | .lbrace => if stack.length < maxNestingDepth then some (.keyOrClose, true :: stack) else none
  | .lbrack => if stack.length < maxNestingDepth then some (.valueOrClose, false :: stack) else none
  | .str _ => some (afterValue stack)
  | .num => some (afterValue stack)
  | .true => some (afterValue stack)
  | .false => some (afterValue stack)
  | .null => some (afterValue stack)
  | _ => none

/-- One step of the grammar check. -/
def parseStep (st : Expect × Stack) (tok : Token) : Option (Expect × Stack) :=
  match st.1, st.2, tok with
  | .value, stack, t => valueStep stack t
  | .valueOrClose, false :: stack, .rbrack => some (afterValue stack)
  | .valueOrClose, stack, t => valueStep stack t
  | .keyOrClose, true :: stack, .rbrace => some (afterValue stack)
  | .keyOrClose, stack, .str _ => some (.colon, stack)
  | .key, stack, .str _ => some (.colon, stack)
  | .colon, stack, .colon => some (.value, stack)
  | .commaOrClose, false :: stack, .comma => some (.value, false :: stack)
  | .commaOrClose, false :: stack, .rbrack => some (afterValue stack)
  | .commaOrClose, true :: stack, .comma => some (.key, true :: stack)
  | .commaOrClose, true :: stack, .rbrace => some (afterValue stack)
  | _, _, _ => none

/-- The grammar check over the tokens. -/
def parseFrom : Expect × Stack → List Token → Bool
  | st, [] => decide (st.1 = .done)
  | st, t :: ts =>
    match parseStep st t with
    | none => false
    | some st' => parseFrom st' ts

/-- `checkValid`: the text is one well-formed JSON value. -/
def checkValid (data : String) : Bool :=
  match lex data with
  | none => false
  | some toks => parseFrom (.value, []) toks

/-- The errors of `Unmarshal`. -/
inductive Error where
  | SyntaxError
  | UnmarshalTypeError
  deriving DecidableEq, Repr

/-- Where the decoder stands inside the top-level object. -/
inductive DecState where
  | key
  | colon (k : String)
  | value (k : String)
  | skip (depth : Nat)
  | next
  | fin
  deriving DecidableEq, Repr

/-- The decoder while it walks the members of the top-level object: its position,
the map filled so far and the first type error met. -/
structure Decoder where
  st : DecState
  m : GoMap String
  err : Option Error
  deriving DecidableEq, Repr

/-- Record a type error, keeping the earliest one. -/
def saveError (err : Option Error) : Option Error :=
  match err with
  | none => some .UnmarshalTypeError
  | some e => some e

/-- One token of the top-level object. A string value is stored under its key; a
`null` leaves the element at its zero value; any other value is a type error, and
the element is stored at its zero value as well. -/
def decodeStep (d : Decoder) (tok : Token) : Decoder :=
  match d.st, tok with
  | .key, .str k => { d with st := .colon k }
  | .key, .rbrace => { d with st := .fin }
  | .colon k, .colon => { d with st := .value k }
  | .value k, .str s => { d with st := .next, m := d.m.insert k s }
  | .value k, .null => { d with st := .next, m := d.m.insert k "" }
  | .value k, .lbrace => { st := .skip 1, m := d.m.insert k "", err := saveError d.err }
  | .value k, .lbrack => { st := .skip 1, m := d.m.insert k "", err := saveError d.err }
  | .value k, _ => { st := .next, m := d.m.insert k "", err := saveError d.err }
  | .skip depth, .lbrace => { d with st := .skip (depth + 1) }
  | .skip depth, .lbrack => { d with st := .skip (depth + 1) }
  | .skip depth, .rbrace => { d with st := if depth ≤ 1 then .next else .skip (depth - 1) }
  | .skip depth, .rbrack => { d with st := if depth ≤ 1 then .next else .skip (depth - 1) }
  | .next, .comma => { d with st := .key }
  | .next, .rbrace => { d with st := .fin }
  | _, _ => d

/-- Decoding of a well-formed text into the map `m`. A top-level `null` stores
nothing; a top-level value that is not an object is a type error and stores
nothing. -/
def decode (toks : List Token) (m : GoMap String) : GoMap String × Option Error :=
  match toks with
  | .lbrace :: members =>
    let d := members.foldl decodeStep { st := .key, m := m, err := none }
    (d.m, d.err)
  | .null :: _ => (m, none)
  | _ => (m, some .UnmarshalTypeError)

/-- `json.Unmarshal(data, &m)` for `m` a `map[string]string`: the map afterwards
and the error returned. -/
def Unmarshal (data : String) (m : GoMap String) : GoMap String × Option Error :=
  if checkValid data then
    match lex data with
    | some toks => decode toks m
    | none => (m, some .SyntaxError)
  else (m, some .SyntaxError)

/-- The text is a well-formed JSON object: it is well-formed and its first token
is the opening brace. -/
def isObject (data : String) : Bool :=
  checkValid data &&
    (match lex data with
     | some (.lbrace :: _) => true
     | _ => false)

end JSON

/-! ## `regexp` and `net/http` -/

/-- Scanning loop of `regexp.ReplaceAllString(path, "")` for the pattern
`<prefix>/?`: every leftmost match of the prefix, with the slash after it when
there is one, is removed. `skip` counts the characters of a match that are still
to be passed over. -/
def stripAux (pre : List Char) : List Char → Nat → List Char
  | [], _ => []
  | _ :: cs, skip + 1 => stripAux pre cs skip
  | c :: cs, 0 =>
    if pre.isPrefixOf (c :: cs) then
      if ((c :: cs).drop pre.length).head? = some '/' then stripAux pre cs pre.length
      else stripAux pre cs (pre.length - 1)
    else c :: stripAux pre cs 0

/-- `regexp.MustCompile(pre + "/?").ReplaceAllString(path, "")` for a non-empty
literal `pre`. -/
def ReplaceAllString (pre path : String) : String :=
  String.mk (stripAux pre.data path.data 0)

/-- An `http.ResponseWriter`, by what has been sent through it: the header
fields, the status line once it is written, and the bodies written, in order. -/
structure ResponseWriter (β : Type) where
  header : List (String × String)
  status : Option Nat
  body : List β
  deriving DecidableEq, Repr

/-- The call `w.Header().Add`, `w.WriteHeader` or `w.Write` a handler makes on its
response writer. -/
inductive WriterCall (β : Type) where
  | HeaderAdd (key value : String)
  | WriteHeader (code : Nat)
  | Write (b : β)
  deriving DecidableEq, Repr

namespace ResponseWriter

variable {β : Type}

/-- A writer nothing has been sent through. -/
def fresh : ResponseWriter β :=
  { header := [], status := none, body := [] }

/-- The call `w.Header().Add(key, value)`. -/
def HeaderAdd (w : ResponseWriter β) (key value : String) : ResponseWriter β :=
  { w with header := w.header ++ [(key, value)] }

/-- The call `w.WriteHeader(code)`: the status line is sent once; a later call
changes nothing. -/
def WriteHeader (w : ResponseWriter β) (code : Nat) : ResponseWriter β :=
  match w.status with
  | none => { w with status := some code }
  | some _ => w

/-- The call `w.Write(b)`: sends status 200 first when no status line has been
sent yet. -/
def Write (w : ResponseWriter β) (b : β) : ResponseWriter β :=
  { w with status := some (w.status.getD 200), body := w.body ++ [b] }

/-- The writer after one call. -/
def call (w : ResponseWriter β) : WriterCall β → ResponseWriter β
  | .HeaderAdd key value => w.HeaderAdd key value
  | .WriteHeader code => w.WriteHeader code
  | .Write b => w.Write b

/-- The writer after a sequence of calls, made in order. -/
def replay (w : ResponseWriter β) (calls : List (WriterCall β)) : ResponseWriter β :=
  calls.foldl call w

end ResponseWriter

/-- What a call of a handler leaves behind: the state, the response writer, and
the panic message when the call panicked instead of returning. -/
structure Result (σ β : Type) where
  st : σ
  w : ResponseWriter β
  panicked : Option String
  deriving DecidableEq, Repr

/-- The request as a handler reads it: method, `r.URL.Path`, `r.Form` as
`r.ParseForm()` fills it, and the body. -/
structure Request (β : Type) where
  Method : String
  Path : String
  Form : Values
  Body : β
  deriving DecidableEq, Repr

/-- Number of `PUT` requests in a sequence of requests, each paired with the
identifier generated while it is served. -/
def putCount {β : Type} (reqs : List (Request β × String)) : Nat :=
  (reqs.filter (fun q => decide (q.1.Method = "PUT"))).length

/-! ## Package `mockblockstorage` -/

namespace mockblockstorage

/-- An attachment of a volume (`volumes.Attachment` of gophercloud). -/
structure Attachment where
  AttachmentID : String
  ServerID : String
  VolumeID : String
  Device : String
  deriving DecidableEq, Repr, Inhabited

/-- The volume resource (`volumes.Volume` of gophercloud). -/
structure Volume where
  ID : String
  Status : String
  Size : Int
  AvailabilityZone : String
  CreatedAt : Time
  UpdatedAt : Time
  Attachments : List Attachment
  Name : String
  Description : String
  VolumeType : String
  SnapshotID : String
  SourceVolID : String
  Metadata : GoMap String
  UserID : String
  Bootable : String
  Encrypted : Bool
  ReplicationStatus : String
  ConsistencyGroupID : String
  Multiattach : Bool
  deriving DecidableEq, Repr, Inhabited

/-- The zero value of `volumes.Volume`. -/
def Volume.zero : Volume :=
  { ID := "", Status := "", Size := 0, AvailabilityZone := "", CreatedAt := Time.zero,
    UpdatedAt := Time.zero, Attachments := [], Name := "", Description := "",
    VolumeType := "", SnapshotID := "", SourceVolID := "", Metadata := [], UserID := "",
    Bootable := "", Encrypted := false, ReplicationStatus := "", ConsistencyGroupID := "",
    Multiattach := false }

/-- Body of a create request (`volumes.CreateOpts` of gophercloud). -/
structure CreateOpts where
  Size : Int
  AvailabilityZone : String
  ConsistencyGroupID : String
  Description : String
  Metadata : GoMap String
  Name : String
  SnapshotID : String
  SourceVolID : String
  ImageID : String
  VolumeType : String
  deriving DecidableEq, Repr, Inhabited

/-- Body of an update request (`volumes.UpdateOpts` of gophercloud). -/
structure UpdateOpts where
  Name : Option String
  Description : Option String
  Metadata : GoMap String
  deriving DecidableEq, Repr, Inhabited

/-- Modelled from the spec: the declaration of `CreateMocks` is not part of the
sources at hand; these are the fields `createVolume` reads from the creation
bundle. -/
structure CreateMocks where
  CreatedAt : Time
  UpdatedAt : Time
  deriving DecidableEq, Repr, Inhabited

/-- Modelled from the spec: the declaration of `UpdateMocks` is not part of the
sources at hand; these are the fields `updateVolume` reads from an update
bundle. -/
structure UpdateMocks where
  UpdatedAt : Time
  VolumeType : String
  Size : Int
  deriving DecidableEq, Repr, Inhabited

/-- Modelled from the spec: the declaration of `ExtraMocks` is not part of the
sources at hand; `mockVolumes` reads one creation bundle and a slice of update
bundles from it. -/
structure ExtraMocks where
  Create : CreateMocks
  Update : List UpdateMocks
  deriving DecidableEq, Repr, Inhabited

/-- The volume type resource of `types.go`. -/
structure VolumeType where
  ID : String
  Name : String
  deriving DecidableEq, Repr, Inhabited

/-- The stores of the mock client that the handlers of this package use. -/
structure MockClient where
  volumes : GoMap Volume
  volumeTypes : GoMap VolumeType
  deriving DecidableEq, Repr, Inhabited

/-- A timestamp that marshals without a zone suffix. -/
structure JSONRFC3339MilliNoZ where
  t : Time
  deriving DecidableEq, Repr, Inhabited

/-- `(*JSONRFC3339MilliNoZ).MarshalJSON`: the bytes and the error returned. -/
def JSONRFC3339MilliNoZ.MarshalJSON (l : JSONRFC3339MilliNoZ) : Except String (List Char) :=
  let t := l.t
  let s := [Char.ofNat 34] ++ t.FormatRFC3339NoZ ++ [Char.ofNat 34]
  .ok s

/-- The volume with its two timestamps in the zone-less type. -/
structure ExtendedVolumeType where
  Volume : Volume
  CreatedAt : JSONRFC3339MilliNoZ
  UpdatedAt : JSONRFC3339MilliNoZ
  deriving DecidableEq, Repr, Inhabited

/-- Envelope of a list response. -/
structure volumeListResponse where
  Volumes : List ExtendedVolumeType
  deriving DecidableEq, Repr, Inhabited

/-- Envelope of a single volume. -/
structure volumeGetResponse where
  Volume : ExtendedVolumeType
  deriving DecidableEq, Repr, Inhabited

/-- Decoded create request. -/
structure volumeCreateRequest where
  Volume : CreateOpts
  deriving DecidableEq, Repr, Inhabited

/-- Decoded update request. -/
structure volumeUpdateRequest where
  Volume : UpdateOpts
  deriving DecidableEq, Repr, Inhabited

/-- The bytes `json.Marshal` returns, represented by the value that was encoded. -/
inductive Document where
  | volume (r : volumeGetResponse)
  | volumes (r : volumeListResponse)
  deriving DecidableEq, Repr

/-- The body of a request, by what `json.NewDecoder(r.Body).Decode` makes of it
for each of the two request types; `none` when decoding returns an error. -/
structure Body where
  create : Option volumeCreateRequest
  update : Option volumeUpdateRequest
  deriving DecidableEq, Repr, Inhabited

/-- Result of a handler of this package. -/
abbrev Res := Result MockClient Document

/-- `AddMocksReplaceVolumes`. -/
def AddMocksReplaceVolumes (r : Volume) : Except String ExtendedVolumeType :=
  .ok { Volume := r, CreatedAt := ⟨r.CreatedAt⟩, UpdatedAt := ⟨r.UpdatedAt⟩ }

/-- `MarshalVolume`. -/
def MarshalVolume (volume : Volume) : Except String Document :=
  match AddMocksReplaceVolumes volume with
  | .error err => .error err
  | .ok newVol => .ok (.volume { Volume := newVol })

/-- Loop of `MarshalVolumes`. -/
def marshalVolumesLoop : List Volume → List ExtendedVolumeType → Except String (List ExtendedVolumeType)
  | [], acc => .ok acc
  | v :: rest, acc =>
    match AddMocksReplaceVolumes v with
    | .error err => .error err
    | .ok newVolume => marshalVolumesLoop rest (acc ++ [newVolume])

/-- `MarshalVolumes`. -/
def MarshalVolumes (volumes : List Volume) : Except String Document :=
  match marshalVolumesLoop volumes [] with
  | .error err => .error err
  | .ok newVolumes => .ok (.volumes { Volumes := newVolumes })

/-- The metadata filter of `filterVolumes`: the `metadata` parameter with its
single quotes replaced by double quotes, unmarshalled into a fresh map; the
error of `json.Unmarshal` is dropped. -/
def parsedMetadata (vals : Values) : GoMap String :=
  (JSON.Unmarshal (ReplaceAll (vals.Get "metadata") "\x27" "\x22") []).1

/-- The inner loop of `filterVolumes` over the parsed filter: `match` stays true
until a key is found whose value differs from the volume's own (an absent key of
the volume reads as `""`). -/
def metadataMatch (volume : Volume) : GoMap String → Bool
  | [] => true
  | (k, v) :: rest =>
    if GoMap.index "" volume.Metadata k ≠ v then false else metadataMatch volume rest

/-- Body of the loop of `filterVolumes` for one volume. -/
def filterStep (vals : Values) (vols : List Volume) (volume : Volume) : List Volume :=
  let name := vals.Get "name"
  let parsed := parsedMetadata vals
  if name ≠ "" ∧ volume.Name ≠ name then vols
  else if ¬ metadataMatch volume parsed = true then vols
  else vols ++ [volume]

/-- `filterVolumes`. -/
def filterVolumes (allVolumes : GoMap Volume) (vals : Values) : List Volume :=
  allVolumes.foldl (fun vols e => filterStep vals vols e.2) []

/-- The test one pass of the loop of `filterVolumes` applies to a volume. -/
def keeps (vals : Values) (volume : Volume) : Bool :=
  !(decide (vals.Get "name" ≠ "" ∧ volume.Name ≠ vals.Get "name"))
    && metadataMatch volume (parsedMetadata vals)

/-- `listVolumes`. -/
def listVolumes (m : MockClient) (w : ResponseWriter Document) (vals : Values) : Res :=
  let w := w.WriteHeader 200
  let vols := filterVolumes m.volumes vals
  match MarshalVolumes vols with
  | .error _ => { st := m, w := w, panicked := some "failed to marshal" }
  | .ok respB => { st := m, w := w.Write respB, panicked := none }

/-- `getVolume`. -/
def getVolume (m : MockClient) (w : ResponseWriter Document) (volumeID : String) : Res :=
  match GoMap.lookup m.volumes volumeID with
  | some vol =>
    match MarshalVolume vol with
    | .error _ => { st := m, w := w, panicked := some "failed to marshal" }
    | .ok respB => { st := m, w := w.Write respB, panicked := none }
  | none => { st := m, w := w.WriteHeader 404, panicked := none }

/-- `updateVolume`. -/
def updateVolume (m : MockClient) (w : ResponseWriter Document) (body : Body)
    (volumeID : String) (mocks : UpdateMocks) : Res :=
  match GoMap.lookup m.volumes volumeID with
  | none => { st := m, w := w.WriteHeader 404, panicked := none }
  | some _ =>
    match body.update with
    | none => { st := m, w := w, panicked := some "error decoding update volume request" }
    | some update =>
      let vol := GoMap.index Volume.zero m.volumes volumeID
      let vol := { vol with Metadata := update.Volume.Metadata }
      let vol := { vol with UpdatedAt := mocks.UpdatedAt }
      let vol := { vol with VolumeType := mocks.VolumeType }
      let vol := { vol with Size := mocks.Size }
      let m := { m with volumes := GoMap.insert m.volumes volumeID vol }
      let w := w.WriteHeader 200
      match MarshalVolume vol with
      | .error _ => { st := m, w := w, panicked := some "failed to marshal" }
      | .ok respB => { st := m, w := w.Write respB, panicked := none }

/-- `deleteVolume`. -/
def deleteVolume (m : MockClient) (w : ResponseWriter Document) (volumeID : String) : Res :=
  match GoMap.lookup m.volumes volumeID with
  | some _ =>
    { st := { m with volumes := GoMap.delete m.volumes volumeID }, w := w.WriteHeader 200,
      panicked := none }
  | none => { st := m, w := w.WriteHeader 404, panicked := none }

/-- `createVolume`; `uuid` is the string `uuid.New().String()` yields in this call. -/
def createVolume (m : MockClient) (w : ResponseWriter Document) (body : Body)
    (mocks : CreateMocks) (uuid : String) : Res :=
  match body.create with
  | none => { st := m, w := w, panicked := some "error decoding create volume request" }
  | some create =>
    let w := w.WriteHeader 202
    let v : Volume :=
      { Volume.zero with
        ID := uuid,
        Name := create.Volume.Name,
        Size := create.Volume.Size,
        AvailabilityZone := create.Volume.AvailabilityZone,
        Metadata := create.Volume.Metadata,
        VolumeType := create.Volume.VolumeType,
        CreatedAt := mocks.CreatedAt,
        UpdatedAt := mocks.UpdatedAt }
    let m := { m with volumes := GoMap.insert m.volumes v.ID v }
    match MarshalVolume v with
    | .error _ => { st := m, w := w, panicked := some "failed to marshal" }
    | .ok respB => { st := m, w := w.Write respB, panicked := none }

/-- What the closure built by `mockVolumes` holds between two requests: the mock
client and the captured `updateCounter`. -/
structure HandlerState where
  m : MockClient
  updateCounter : Nat
  deriving DecidableEq, Repr, Inhabited

/-- The volume `createVolume` stores for a create request. -/
def createdVolume (create : volumeCreateRequest) (mocks : CreateMocks) (uuid : String) :
    Volume :=
  { Volume.zero with
    ID := uuid,
    Name := create.Volume.Name,
    Size := create.Volume.Size,
    AvailabilityZone := create.Volume.AvailabilityZone,
    Metadata := create.Volume.Metadata,
    VolumeType := create.Volume.VolumeType,
    CreatedAt := mocks.CreatedAt,
    UpdatedAt := mocks.UpdatedAt }

/-- The identifier the volumes handler reads from the path. -/
def volIDOf (path : String) : String :=
  ReplaceAllString "/volumes" path

/-- The handler that `mockVolumes` registers, with `updateCounter` starting at
`0`. The slice read `extraMocks.Update[updateCounter]` panics when the index is
out of range; `updateCounter++` runs once `updateVolume` has returned. -/
def mockVolumes (extraMocks : ExtraMocks) (s : HandlerState) (w : ResponseWriter Document)
    (r : Request Body) (uuid : String) : Result HandlerState Document :=
  let w := w.HeaderAdd "Content-Type" "application/json"
  let volID := volIDOf r.Path
  if r.Method = "GET" then
    if volID = "detail" then
      let res := listVolumes s.m w r.Form
      { st := { s with m := res.st }, w := res.w, panicked := res.panicked }
    else
      let res := getVolume s.m w volID
      { st := { s with m := res.st }, w := res.w, panicked := res.panicked }
  else if r.Method = "POST" then
    let res := createVolume s.m w r.Body extraMocks.Create uuid
    { st := { s with m := res.st }, w := res.w, panicked := res.panicked }
  else if r.Method = "PUT" then
    match extraMocks.Update.get? s.updateCounter with
    | none => { st := s, w := w, panicked := some "index out of range" }
    | some mocks =>
      let res := updateVolume s.m w r.Body volID mocks
      match res.panicked with
      | some msg => { st := { s with m := res.st }, w := res.w, panicked := some msg }
      | none =>
        { st := { m := res.st, updateCounter := s.updateCounter + 1 }, w := res.w,
          panicked := none }
  else if r.Method = "DELETE" then
    let res := deleteVolume s.m w volID
    { st := { s with m := res.st }, w := res.w, panicked := res.panicked }
  else
    { st := s, w := w.WriteHeader 400, panicked := none }

/-- One request served by the volumes handler on a fresh response writer. -/
def serve (extraMocks : ExtraMocks) (s : HandlerState) (r : Request Body) (uuid : String) :
    Result HandlerState Document :=
  mockVolumes extraMocks s ResponseWriter.fresh r uuid

/-- The requests served one after the other, each paired with the identifier
`uuid.New()` yields while it is served. A panic ends the run: `none`. -/
def serveAll (extraMocks : ExtraMocks) : HandlerState → List (Request Body × String) →
    Option HandlerState
  | s, [] => some s
  | s, (r, uuid) :: rest =>
    match (serve extraMocks s r uuid).panicked with
    | some _ => none
    | none => serveAll extraMocks (serve extraMocks s r uuid).st rest

/-- The requests served one after the other when the HTTP server recovers a
panic of the handler, as `net/http` does: the next request is served from the
state the panicking call left. -/
def serveEach (extraMocks : ExtraMocks) : HandlerState → List (Request Body × String) →
    HandlerState
  | s, [] => s
  | s, (r, uuid) :: rest => serveEach extraMocks (serve extraMocks s r uuid).st rest

/-- Number of `PUT` requests of such a run whose handling returned, that is, did
not panic. -/
def returnedPuts (extraMocks : ExtraMocks) : HandlerState → List (Request Body × String) → Nat
  | _, [] => 0
  | s, (r, uuid) :: rest =>
    (if r.Method = "PUT" ∧ (serve extraMocks s r uuid).panicked = none then 1 else 0)
      + returnedPuts extraMocks (serve extraMocks s r uuid).st rest

/-- Every entry of the volume store has as its key the `ID` of its volume. -/
def KeyIsID (volumes : GoMap Volume) : Prop :=
  ∀ e ∈ volumes, e.1 = e.2.ID

/-- The volume stored under an identifier carries the timestamps of the creation
bundle. -/
def StampedBy (em : ExtraMocks) (s : HandlerState) (id : String) : Prop :=
  ∃ v, GoMap.lookup s.m.volumes id = some v ∧ v.CreatedAt = em.Create.CreatedAt
    ∧ v.UpdatedAt = em.Create.UpdatedAt

/-! ### `types.go` -/

/-- Envelope of a list of volume types. -/
structure volumeTypeListResponse where
  VolumeTypes : List VolumeType
  deriving DecidableEq, Repr, Inhabited

/-- Envelope of a single volume type. -/
structure volumeTypeGetResponse where
  VolumeType : VolumeType
  deriving DecidableEq, Repr, Inhabited

/-- The bytes `json.Marshal` returns in the handlers of `types.go`, represented by
the value that was encoded. -/
inductive TypeDocument where
  | volumeType (r : volumeTypeGetResponse)
  | volumeTypes (r : volumeTypeListResponse)
  deriving DecidableEq, Repr

/-- The seeding step of `mockTypes`: the type `standard` is stored unless the key
is there already. -/
def seedTypes (m : MockClient) : MockClient :=
  match GoMap.lookup m.volumeTypes "standard" with
  | some _ => m
  | none =>
    { m with volumeTypes :=
        GoMap.insert m.volumeTypes "standard" { ID := "standard", Name := "standard" } }

/-- `listTypes`. -/
def listTypes (m : MockClient) (w : ResponseWriter TypeDocument) :
    Result MockClient TypeDocument :=
  let w := w.WriteHeader 200
  let list := m.volumeTypes.foldl (fun list e => list ++ [e.2]) []
  { st := m, w := w.Write (.volumeTypes { VolumeTypes := list }), panicked := none }

/-- `getType`. -/
def getType (m : MockClient) (w : ResponseWriter TypeDocument) (typeID : String) :
    Result MockClient TypeDocument :=
  match GoMap.lookup m.volumeTypes typeID with
  | some t => { st := m, w := w.Write (.volumeType { VolumeType := t }), panicked := none }
  | none => { st := m, w := w.WriteHeader 404, panicked := none }

/-- The identifier the volume-types handler reads from the path. -/
def typeIDOf (path : String) : String :=
  ReplaceAllString "/types" path

/-- The handler that `mockTypes` registers. -/
def typesHandler {β : Type} (m : MockClient) (w : ResponseWriter TypeDocument)
    (r : Request β) : Result MockClient TypeDocument :=
  let w := w.HeaderAdd "Content-Type" "application/json"
  let typeID := typeIDOf r.Path
  if r.Method = "GET" then
    if typeID = "" then listTypes m w
    else getType m w typeID
  else
    { st := m, w := w.WriteHeader 400, panicked := none }

/-- `mockTypes`: the client after the seeding step; the handler registered is
`typesHandler`. -/
def mockTypes (m : MockClient) : MockClient :=
  seedTypes m

/-! ### Sample values -/

/-- Sample volume with the given identifier, name and metadata. -/
def sampleVolume (id name : String) (metadata : GoMap String) : Volume :=
  { Volume.zero with ID := id, Name := name, Metadata := metadata }

/-- Sample store: three volumes named `a`, `b`, `a`. -/
def abaStore : GoMap Volume :=
  [("1", sampleVolume "1" "a" []), ("2", sampleVolume "2" "b" []), ("3", sampleVolume "3" "a" [])]

/-- Sample store: one volume without metadata. -/
def bareStore : GoMap Volume :=
  [("v1", sampleVolume "v1" "data" [])]

/-- Sample bundles: one creation bundle and two update bundles. -/
def sampleMocks : ExtraMocks :=
  { Create := { CreatedAt := sampleTime 1, UpdatedAt := sampleTime 1 },
    Update := [{ UpdatedAt := sampleTime 2, VolumeType := "ssd", Size := 20 },
               { UpdatedAt := sampleTime 3, VolumeType := "hdd", Size := 30 }] }

/-- Sample bundles with an empty slice of update bundles. -/
def noUpdateMocks : ExtraMocks :=
  { Create := { CreatedAt := sampleTime 1, UpdatedAt := sampleTime 1 }, Update := [] }

/-- Sample body: decodes as an update request that carries the given metadata and
as a create request for a volume `data` of size 10. -/
def sampleBody (metadata : GoMap String) : Body :=
  { create := some { Volume :=
      { Size := 10, AvailabilityZone := "nova", ConsistencyGroupID := "", Description := "",
        Metadata := metadata, Name := "data", SnapshotID := "", SourceVolID := "",
        ImageID := "", VolumeType := "standard" } },
    update := some { Volume := { Name := none, Description := none, Metadata := metadata } } }

/-- Sample request with the given method and path. -/
def sampleRequest (method path : String) : Request Body :=
  { Method := method, Path := path, Form := [], Body := sampleBody [("k", "v")] }

/-- Sample request whose body decodes neither as a create nor as an update
request. -/
def undecodableRequest (method path : String) : Request Body :=
  { Method := method, Path := path, Form := [], Body := { create := none, update := none } }

/-- Sample state: the store with the one volume `v1`, the counter at the given value. -/
def sampleState (counter : Nat) : HandlerState :=
  { m := { volumes := bareStore, volumeTypes := [] }, updateCounter := counter }

/-- Sample state: one volume stored under the key `detail`, the counter at zero. -/
def detailState : HandlerState :=
  { m := { volumes := [("detail", sampleVolume "detail" "data" [])], volumeTypes := [] },
    updateCounter := 0 }

/-- The zone-less form in which a volume is put into a response. -/
def extended (r : Volume) : ExtendedVolumeType :=
  { Volume := r, CreatedAt := ⟨r.CreatedAt⟩, UpdatedAt := ⟨r.UpdatedAt⟩ }

/-- Sample store: one volume that carries the role `master`. -/
def masterStore : GoMap Volume :=
  [("v1", sampleVolume "v1" "etcd" [("k8s.io/role", "master")])]

end mockblockstorage

/-! ## Package `mockcompute` -/

namespace mockcompute

/-- The values stored in the `map[string]any` fields of a server. -/
inductive Any where
  | str (s : String)
  | int (n : Int)
  | maps (ms : List (GoMap String))
  deriving DecidableEq, Repr

/-- The server resource (`servers.Server` of gophercloud). `Flavor` is `none` for
the nil map. -/
structure Server where
  ID : String
  TenantID : String
  UserID : String
  Name : String
  Updated : Time
  Created : Time
  HostID : String
  Status : String
  Progress : Int
  AccessIPv4 : String
  AccessIPv6 : String
  Flavor : Option (GoMap Any)
  Addresses : GoMap Any
  Metadata : GoMap String
  KeyName : String
  AdminPass : String
  SecurityGroups : List (GoMap Any)
  Tags : List String
  LaunchedAt : Time
  deriving DecidableEq, Repr

/-- The zero value of `servers.Server`. -/
def Server.zero : Server :=
  { ID := "", TenantID := "", UserID := "", Name := "", Updated := Time.zero, Created := Time.zero,
    HostID := "", Status := "", Progress := 0, AccessIPv4 := "", AccessIPv6 := "",
    Flavor := none, Addresses := [], Metadata := [], KeyName := "", AdminPass := "",
    SecurityGroups := [], Tags := [], LaunchedAt := Time.zero }

/-- The flavor resource (`flavors.Flavor` of gophercloud). -/
structure Flavor where
  ID : String
  Disk : Int
  RAM : Int
  Name : String
  VCPUs : Int
  Ephemeral : Int
  deriving DecidableEq, Repr, Inhabited

/-- The zero value of `flavors.Flavor`. -/
def Flavor.zero : Flavor :=
  { ID := "", Disk := 0, RAM := 0, Name := "", VCPUs := 0, Ephemeral := 0 }

/-- Body of an update request (`servers.UpdateOpts` of gophercloud). -/
structure UpdateOpts where
  Name : String
  AccessIPv4 : String
  AccessIPv6 : String
  deriving DecidableEq, Repr, Inhabited

/-- The `Networks` entry of a create request. -/
structure Networks where
  Port : String
  deriving DecidableEq, Repr, Inhabited

/-- The `Server` struct of `servers.go`: the creation parameters a create request
carries. -/
structure CreateServer where
  Name : String
  ImageRef : String
  ImageName : String
  FlavorRef : String
  FlavorName : String
  SecurityGroups : List String
  AvailabilityZone : String
  Networks : List Networks
  Metadata : GoMap String
  AdminPass : String
  AccessIPv4 : String
  AccessIPv6 : String
  Min : Int
  Max : Int
  Tags : List String
  deriving DecidableEq, Repr, Inhabited

/-- Modelled from the spec: the declaration of `CreateMocks` is not part of the
sources at hand; these are the fields `createServer` reads from the creation
bundle. -/
structure CreateMocks where
  Created : Time
  Updated : Time
  LaunchedAt : Time
  deriving DecidableEq, Repr, Inhabited

/-- Modelled from the spec: the declaration of `UpdateMocks` is not part of the
sources at hand; these are the fields `updateServer` reads from an update
bundle. -/
structure UpdateMocks where
  Updated : Time
  Flavor : Flavor
  deriving DecidableEq, Repr, Inhabited

/-- Modelled from the spec: the declaration of `ExtraMocks` is not part of the
sources at hand; `mockServers` reads one creation bundle and a slice of update
bundles from it. -/
structure ExtraMocks where
  Create : CreateMocks
  Update : List UpdateMocks
  deriving DecidableEq, Repr, Inhabited

/-- The stores of the mock client that the handlers of this package use. -/
structure MockClient where
  servers : GoMap Server
  flavors : GoMap Flavor
  deriving DecidableEq, Repr

/-- A timestamp that marshals without a zone suffix. -/
structure JSONRFC3339MilliNoZ where
  t : Time
  deriving DecidableEq, Repr, Inhabited

/-- `(*JSONRFC3339MilliNoZ).MarshalJSON`: the bytes and the error returned. -/
def JSONRFC3339MilliNoZ.MarshalJSON (l : JSONRFC3339MilliNoZ) : Except String (List Char) :=
  let t := l.t
  let s := [Char.ofNat 34] ++ t.FormatRFC3339NoZ ++ [Char.ofNat 34]
  .ok s

/-- The server with its three timestamps in the zone-less type. -/
structure ExtendedServerType where
  Server : Server
  Created : JSONRFC3339MilliNoZ
  Updated : JSONRFC3339MilliNoZ
  LaunchedAt : JSONRFC3339MilliNoZ
  deriving DecidableEq, Repr

/-- Envelope of a single server. -/
structure serverGetResponse where
  Server : ExtendedServerType
  deriving DecidableEq, Repr

/-- Envelope of a list response. -/
structure serverListResponse where
  Servers : List ExtendedServerType
  deriving DecidableEq, Repr

/-- Decoded create request. -/
structure serverCreateRequest where
  Server : CreateServer
  deriving DecidableEq, Repr, Inhabited

/-- Decoded update request. -/
structure serverUpdateRequest where
  Server : UpdateOpts
  deriving DecidableEq, Repr, Inhabited

/-- The bytes `json.Marshal` returns, represented by the value that was encoded. -/
inductive Document where
  | server (r : serverGetResponse)
  | servers (r : serverListResponse)
  deriving DecidableEq, Repr

/-- The body of a request, by what `json.NewDecoder(r.Body).Decode` makes of it
for each of the two request types; `none` when decoding returns an error. -/
structure Body where
  create : Option serverCreateRequest
  update : Option serverUpdateRequest
  deriving DecidableEq, Repr, Inhabited

/-- Result of a handler of this package. -/
abbrev Res := Result MockClient Document

/-- `AddMocksReplaceServers`. -/
def AddMocksReplaceServers (r : Server) : Except String ExtendedServerType :=
  .ok { Server := r, Created := ⟨r.Created⟩, Updated := ⟨r.Updated⟩, LaunchedAt := ⟨r.LaunchedAt⟩ }

/-- `MarshalServer`. -/
def MarshalServer (server : Server) : Except String Document :=
  match AddMocksReplaceServers server with
  | .error err => .error err
  | .ok newSrv => .ok (.server { Server := newSrv })

/-- Loop of `MarshalServers`. -/
def marshalServersLoop : List Server → List ExtendedServerType → Except String (List ExtendedServerType)
  | [], acc => .ok acc
  | v :: rest, acc =>
    match AddMocksReplaceServers v with
    | .error err => .error err
    | .ok newServer => marshalServersLoop rest (acc ++ [newServer])

/-- `MarshalServers`. -/
def MarshalServers (servers : List Server) : Except String Document :=
  match marshalServersLoop servers [] with
  | .error err => .error err
  | .ok newServers => .ok (.servers { Servers := newServers })

/-- `getServer`. -/
def getServer (m : MockClient) (w : ResponseWriter Document) (serverID : String) : Res :=
  match GoMap.lookup m.servers serverID with
  | some server =>
    match MarshalServer server with
    | .error _ => { st := m, w := w, panicked := some "failed to marshal" }
    | .ok resp8 => { st := m, w := w.Write resp8, panicked := none }
  | none => { st := m, w := w.WriteHeader 404, panicked := none }

/-- The servers `listServers` collects: those whose name starts with the trimmed
`name` parameter, in visiting order. -/
def matchedServers (servers : GoMap Server) (vals : Values) : List Server :=
  let serverName := Trim (vals.Get "name") "^$"
  servers.foldl
    (fun matched e => if HasPrefix e.2.Name serverName then matched ++ [e.2] else matched) []

/-- `listServers`. -/
def listServers (m : MockClient) (w : ResponseWriter Document) (vals : Values) : Res :=
  let matched := matchedServers m.servers vals
  match MarshalServers matched with
  | .error _ => { st := m, w := w, panicked := some "failed to marshal" }
  | .ok respB => { st := m, w := w.Write respB, panicked := none }

/-- The six assignments `server.Flavor[...] = ...` of `updateServer`. -/
def setFlavor (flavor : GoMap Any) (f : Flavor) : GoMap Any :=
  let flavor := GoMap.insert flavor "name" (.str f.Name)
  let flavor := GoMap.insert flavor "original_name" (.str f.Name)
  let flavor := GoMap.insert flavor "ram" (.int f.RAM)
  let flavor := GoMap.insert flavor "vcpus" (.int f.VCPUs)
  let flavor := GoMap.insert flavor "disk" (.int f.Disk)
  GoMap.insert flavor "ephemeral" (.int f.Ephemeral)

/-- `updateServer`. An assignment into the nil `Flavor` map panics. -/
def updateServer (m : MockClient) (w : ResponseWriter Document) (body : Body)
    (serverID : String) (mocks : UpdateMocks) : Res :=
  match GoMap.lookup m.servers serverID with
  | none => { st := m, w := w.WriteHeader 404, panicked := none }
  | some _ =>
    match body.update with
    | none => { st := m, w := w, panicked := some "error decoding update server request" }
    | some update =>
      let server := GoMap.index Server.zero m.servers serverID
      let server := { server with Name := update.Server.Name }
      let server := { server with Updated := mocks.Updated }
      match server.Flavor with
      | none => { st := m, w := w, panicked := some "assignment to entry in nil map" }
      | some flavor =>
        let server := { server with Flavor := some (setFlavor flavor mocks.Flavor) }
        let m := { m with servers := GoMap.insert m.servers serverID server }
        let w := w.WriteHeader 200
        match MarshalServer server with
        | .error _ => { st := m, w := w, panicked := some "failed to marshal" }
        | .ok respB => { st := m, w := w.Write respB, panicked := none }

/-- `deleteServer`. -/
def deleteServer (m : MockClient) (w : ResponseWriter Document) (serverID : String) : Res :=
  match GoMap.lookup m.servers serverID with
  | some _ =>
    { st := { m with servers := GoMap.delete m.servers serverID }, w := w.WriteHeader 204,
      panicked := none }
  | none => { st := m, w := w.WriteHeader 404, panicked := none }

/-- `createServer`; `uuid` is the string `uuid.New().String()` yields in this call.
The call `ports.Update` goes to the networking mock and its result is dropped; it
touches nothing of this package. -/
def createServer (m : MockClient) (w : ResponseWriter Document) (body : Body)
    (mocks : CreateMocks) (uuid : String) : Res :=
  match body.create with
  | none => { st := m, w := w, panicked := some "error decoding create server request" }
  | some create =>
    if create.Server.Networks.length = 0 then
      { st := m, w := w.WriteHeader 400, panicked := none }
    else
      let w := w.WriteHeader 202
      let flavorId := create.Server.FlavorRef
      let flavor := GoMap.index Flavor.zero m.flavors flavorId
      let server : Server :=
        { Server.zero with
          ID := uuid,
          Name := create.Server.Name,
          Metadata := create.Server.Metadata,
          Status := "ACTIVE",
          Flavor := some
            [("id", .str flavor.ID), ("name", .str flavor.Name),
             ("original_name", .str flavor.Name), ("ram", .int flavor.RAM),
             ("vcpus", .int flavor.VCPUs), ("disk", .int flavor.Disk),
             ("ephemeral", .int flavor.Ephemeral)],
          Created := mocks.Created,
          Updated := mocks.Updated,
          LaunchedAt := mocks.LaunchedAt }
      let securityGroups : List (GoMap Any) :=
        create.Server.SecurityGroups.map (fun groupName => [("name", Any.str groupName)])
      let server := { server with SecurityGroups := securityGroups }
      let priv : GoMap String := GoMap.insert (GoMap.insert [] "OS-EXT-IPS:type" "fixed") "addr" "192.168.1.1"
      let server := { server with Addresses := [("private", Any.maps [priv])] }
      let m := { m with servers := GoMap.insert m.servers server.ID server }
      match MarshalServer server with
      | .error _ => { st := m, w := w, panicked := some "failed to marshal" }
      | .ok respB => { st := m, w := w.Write respB, panicked := none }

/-- The server `createServer` stores for a create request that names a network. -/
def createdServer (m : MockClient) (create : serverCreateRequest) (mocks : CreateMocks)
    (uuid : String) : Server :=
  let flavor := GoMap.index Flavor.zero m.flavors create.Server.FlavorRef
  { Server.zero with
    ID := uuid,
    Name := create.Server.Name,
    Metadata := create.Server.Metadata,
    Status := "ACTIVE",
    Flavor := some
      [("id", .str flavor.ID), ("name", .str flavor.Name),
       ("original_name", .str flavor.Name), ("ram", .int flavor.RAM),
       ("vcpus", .int flavor.VCPUs), ("disk", .int flavor.Disk),
       ("ephemeral", .int flavor.Ephemeral)],
    Created := mocks.Created,
    Updated := mocks.Updated,
    LaunchedAt := mocks.LaunchedAt,
    SecurityGroups :=
      create.Server.SecurityGroups.map (fun groupName => [("name", Any.str groupName)]),
    Addresses :=
      [("private", Any.maps [[("OS-EXT-IPS:type", "fixed"), ("addr", "192.168.1.1")]])] }

/-- What the closure built by `mockServers` holds between two requests: the mock
client and the captured `updateCounter`. -/
structure HandlerState where
  m : MockClient
  updateCounter : Nat
  deriving DecidableEq, Repr

/-- The identifier the servers handler reads from the path. -/
def serverIDOf (path : String) : String :=
  ReplaceAllString "/servers" path

/-- The handler that `mockServers` registers, with `updateCounter` starting at
`0`. For `GET` with the identifier `detail`, `getServer` runs after `listServers`
has returned: the branch has no `else`. -/
def mockServers (extraMocks : ExtraMocks) (s : HandlerState) (w : ResponseWriter Document)
    (r : Request Body) (uuid : String) : Result HandlerState Document :=
  let w := w.HeaderAdd "Content-Type" "application/json"
  let serverID := serverIDOf r.Path
  if r.Method = "GET" then
    if serverID = "detail" then
      let res := listServers s.m w r.Form
      match res.panicked with
      | some msg => { st := { s with m := res.st }, w := res.w, panicked := some msg }
      | none =>
        let res2 := getServer res.st res.w serverID
        { st := { s with m := res2.st }, w := res2.w, panicked := res2.panicked }
    else
      let res := getServer s.m w serverID
      { st := { s with m := res.st }, w := res.w, panicked := res.panicked }
  else if r.Method = "POST" then
    let res := createServer s.m w r.Body extraMocks.Create uuid
    { st := { s with m := res.st }, w := res.w, panicked := res.panicked }
  else if r.Method = "PUT" then
    match extraMocks.Update.get? s.updateCounter with
    | none => { st := s, w := w, panicked := some "index out of range" }
    | some mocks =>
      let res := updateServer s.m w r.Body serverID mocks
      match res.panicked with
      | some msg => { st := { s with m := res.st }, w := res.w, panicked := some msg }
      | none =>
        { st := { m := res.st, updateCounter := s.updateCounter + 1 }, w := res.w,
          panicked := none }
  else if r.Method = "DELETE" then
    let res := deleteServer s.m w serverID
    { st := { s with m := res.st }, w := res.w, panicked := res.panicked }
  else
    { st := s, w := w.WriteHeader 400, panicked := none }

/-- One request served by the servers handler on a fresh response writer. -/
def serve (extraMocks : ExtraMocks) (s : HandlerState) (r : Request Body) (uuid : String) :
    Result HandlerState Document :=
  mockServers extraMocks s ResponseWriter.fresh r uuid

/-- The requests served one after the other, each paired with the identifier
`uuid.New()` yields while it is served. A panic ends the run: `none`. -/
def serveAll (extraMocks : ExtraMocks) : HandlerState → List (Request Body × String) →
    Option HandlerState
  | s, [] => some s
  | s, (r, uuid) :: rest =>
    match (serve extraMocks s r uuid).panicked with
    | some _ => none
    | none => serveAll extraMocks (serve extraMocks s r uuid).st rest

/-- The requests served one after the other when the HTTP server recovers a
panic of the handler, as `net/http` does: the next request is served from the
state the panicking call left. -/
def serveEach (extraMocks : ExtraMocks) : HandlerState → List (Request Body × String) →
    HandlerState
  | s, [] => s
  | s, (r, uuid) :: rest => serveEach extraMocks (serve extraMocks s r uuid).st rest

/-- Number of `PUT` requests of such a run whose handling returned, that is, did
not panic. -/
def returnedPuts (extraMocks : ExtraMocks) : HandlerState → List (Request Body × String) → Nat
  | _, [] => 0
  | s, (r, uuid) :: rest =>
    (if r.Method = "PUT" ∧ (serve extraMocks s r uuid).panicked = none then 1 else 0)
      + returnedPuts extraMocks (serve extraMocks s r uuid).st rest

/-- The calls `getServer` makes on the response writer. -/
def getServerCalls (m : MockClient) (serverID : String) : List (WriterCall Document) :=
  match GoMap.lookup m.servers serverID with
  | some server =>
    match MarshalServer server with
    | .error _ => []
    | .ok resp8 => [.Write resp8]
  | none => [.WriteHeader 404]

/-- The calls the handler of `mockServers` makes on the response writer while it
serves a `GET` request: the content type, then, for the identifier `detail`, the
calls of `listServers` followed by those of `getServer`, and for any other
identifier the calls of `getServer`. -/
def getCalls (s : HandlerState) (r : Request Body) : List (WriterCall Document) :=
  let serverID := serverIDOf r.Path
  .HeaderAdd "Content-Type" "application/json" ::
    (if serverID = "detail" then
      match MarshalServers (matchedServers s.m.servers r.Form) with
      | .error _ => []
      | .ok respB => .Write respB :: getServerCalls s.m serverID
    else getServerCalls s.m serverID)

/-- The zone-less form in which a server is put into a response. -/
def extended (r : Server) : ExtendedServerType :=
  { Server := r, Created := ⟨r.Created⟩, Updated := ⟨r.Updated⟩, LaunchedAt := ⟨r.LaunchedAt⟩ }

/-! ### Sample values -/

/-- Sample server with the given identifier and name. -/
def sampleServer (id name : String) : Server :=
  { Server.zero with ID := id, Name := name, Flavor := some [] }

/-- Sample bundles: one creation bundle and two update bundles. -/
def sampleMocks : ExtraMocks :=
  { Create := { Created := sampleTime 1, Updated := sampleTime 1, LaunchedAt := sampleTime 1 },
    Update := [{ Updated := sampleTime 2,
                 Flavor := { ID := "f2", Disk := 20, RAM := 2048, Name := "m1.small", VCPUs := 1,
                             Ephemeral := 0 } },
               { Updated := sampleTime 3,
                 Flavor := { ID := "f3", Disk := 40, RAM := 4096, Name := "m1.medium", VCPUs := 2,
                             Ephemeral := 0 } }] }

/-- Sample body: decodes as an update request that renames the server to `renamed`
and as a create request for a server `node-3` on one port. -/
def sampleBody : Body :=
  { create := some { Server :=
      { Name := "node-3", ImageRef := "img", ImageName := "", FlavorRef := "f2",
        FlavorName := "", SecurityGroups := [], AvailabilityZone := "nova",
        Networks := [{ Port := "p1" }], Metadata := [], AdminPass := "", AccessIPv4 := "",
        AccessIPv6 := "", Min := 0, Max := 0, Tags := [] } },
    update := some { Server := { Name := "renamed", AccessIPv4 := "", AccessIPv6 := "" } } }

/-- Sample request with the given method and path. -/
def sampleRequest (method path : String) : Request Body :=
  { Method := method, Path := path, Form := [], Body := sampleBody }

/-- Sample request whose body decodes neither as a create nor as an update
request. -/
def undecodableRequest (method path : String) : Request Body :=
  { Method := method, Path := path, Form := [], Body := { create := none, update := none } }

/-- Sample store: the servers `node-1`, `node-2` and `bastion`. -/
def nodeStore : GoMap Server :=
  [("s1", sampleServer "s1" "node-1"), ("s2", sampleServer "s2" "node-2"),
   ("s3", sampleServer "s3" "bastion")]

end mockcompute

/-! ## Lemmas on Go maps -/

namespace GoMap

variable {α : Type}

theorem lookup_cons (k1 : String) (v1 : α) (rest : GoMap α) (k : String) :
    lookup ((k1, v1) :: rest) k = if k1 = k then some v1 else lookup rest k := rfl

theorem insert_cons (k1 : String) (v1 : α) (rest : GoMap α) (k : String) (v : α) :
    insert ((k1, v1) :: rest) k v
      = if k1 = k then (k, v) :: rest else (k1, v1) :: insert rest k v := rfl

theorem delete_cons (k1 : String) (v1 : α) (rest : GoMap α) (k : String) :
    delete ((k1, v1) :: rest) k = if k1 = k then delete rest k else (k1, v1) :: delete rest k := by
  by_cases h : k1 = k <;> simp [delete, List.filter, h]

theorem lookup_insert_self (m : GoMap α) (k : String) (v : α) :
    lookup (insert m k v) k = some v := by
  induction m with
  | nil => simp [insert, lookup]
  | cons e rest ih =>
    obtain ⟨k', v'⟩ := e
    rw [insert_cons]
    split
    · simp [lookup_cons]
    · rename_i h
      simp [lookup_cons, h, ih]

theorem lookup_insert_ne (m : GoMap α) (k k' : String) (v : α) (h : k' ≠ k) :
    lookup (insert m k v) k' = lookup m k' := by
  induction m with
  | nil => simp [insert, lookup, Ne.symm h]
  | cons e rest ih =>
    obtain ⟨k1, v1⟩ := e
    rw [insert_cons]
    split
    · rename_i h1
      subst h1
      simp [lookup_cons, Ne.symm h]
    · simp [lookup_cons, ih]

theorem keys_insert_of_lookup (m : GoMap α) (k : String) (v v0 : α)
    (h : lookup m k = some v0) : (insert m k v).map Prod.fst = m.map Prod.fst := by
  induction m with
  | nil => simp [lookup] at h
  | cons e rest ih =>
    obtain ⟨k1, v1⟩ := e
    rw [insert_cons]
    rw [lookup_cons] at h
    split
    · rename_i h1
      simp [h1]
    · rename_i h1
      rw [if_neg h1] at h
      simp [ih h]

theorem lookup_delete_self (m : GoMap α) (k : String) : lookup (delete m k) k = none := by
  induction m with
  | nil => simp [delete, lookup]
  | cons e rest ih =>
    obtain ⟨k1, v1⟩ := e
    rw [delete_cons]
    split
    · exact ih
    · rename_i h1
      simp [lookup_cons, h1, ih]

theorem lookup_delete_ne (m : GoMap α) (k k' : String) (h : k' ≠ k) :
    lookup (delete m k) k' = lookup m k' := by
  induction m with
  | nil => simp [delete, lookup]
  | cons e rest ih =>
    obtain ⟨k1, v1⟩ := e
    rw [delete_cons]
    split
    · rename_i h1
      subst h1
      simp [lookup_cons, Ne.symm h, ih]
    · simp [lookup_cons, ih]

theorem lookup_of_mem_of_nodup (m : GoMap α) (k : String) (v : α)
    (hnd : (m.map Prod.fst).Nodup) (hmem : (k, v) ∈ m) : lookup m k = some v := by
  induction m with
  | nil => simp at hmem
  | cons e rest ih =>
    obtain ⟨k1, v1⟩ := e
    simp only [List.map_cons, List.nodup_cons] at hnd
    rcases List.mem_cons.mp hmem with h | h
    · cases h
      simp [lookup]
    · have hne : k1 ≠ k := by
        intro hk
        subst hk
        exact hnd.1 (List.mem_map.mpr ⟨(k1, v), h, rfl⟩)
      simp [lookup, hne, ih hnd.2 h]

theorem mem_of_lookup (m : GoMap α) (k : String) (v : α) (h : lookup m k = some v) :
    (k, v) ∈ m := by
  induction m with
  | nil => simp [lookup] at h
  | cons e rest ih =>
    obtain ⟨k1, v1⟩ := e
    by_cases h1 : k1 = k
    · simp [lookup, h1] at h
      simp [h1, h]
    · simp [lookup, h1] at h
      exact List.mem_cons_of_mem _ (ih h)

theorem mem_keys_insert (m : GoMap α) (k k' : String) (v : α) :
    k' ∈ (insert m k v).map Prod.fst ↔ k' = k ∨ k' ∈ m.map Prod.fst := by
  induction m with
  | nil => simp [insert]
  | cons e rest ih =>
    obtain ⟨k1, v1⟩ := e
    rw [insert_cons]
    split
    · rename_i h1
      subst h1
      simp
    · simp only [List.map_cons, List.mem_cons, ih]
      tauto

theorem nodup_keys_insert (m : GoMap α) (k : String) (v : α)
    (hnd : (m.map Prod.fst).Nodup) : ((insert m k v).map Prod.fst).Nodup := by
  induction m with
  | nil => simp [insert]
  | cons e rest ih =>
    obtain ⟨k1, v1⟩ := e
    simp only [List.map_cons, List.nodup_cons] at hnd
    rw [insert_cons]
    split
    · rename_i h1
      subst h1
      simpa using hnd
    · rename_i h1
      simp only [List.map_cons, List.nodup_cons]
      refine ⟨?_, ih hnd.2⟩
      intro hmem
      rcases (mem_keys_insert rest k k1 v).mp hmem with h | h
      · exact h1 h
      · exact hnd.1 h

end GoMap

/-! ## Lemmas on the JSON decoder -/

namespace JSON

theorem saveError_ne_syntax (err : Option Error) (h : err ≠ some Error.SyntaxError) :
    saveError err ≠ some Error.SyntaxError := by
  cases err with
  | none => simp [saveError]
  | some e => simpa [saveError] using h

theorem decodeStep_nodup (d : Decoder) (tok : Token) (h : (d.m.map Prod.fst).Nodup) :
    ((decodeStep d tok).m.map Prod.fst).Nodup := by
  unfold decodeStep
  split <;> first | exact h | exact GoMap.nodup_keys_insert _ _ _ h

theorem decodeStep_err (d : Decoder) (tok : Token) (h : d.err ≠ some Error.SyntaxError) :
    (decodeStep d tok).err ≠ some Error.SyntaxError := by
  unfold decodeStep
  split <;> first | exact h | exact saveError_ne_syntax _ h

theorem foldl_decodeStep_nodup (toks : List Token) (d : Decoder)
    (h : (d.m.map Prod.fst).Nodup) : ((toks.foldl decodeStep d).m.map Prod.fst).Nodup := by
  induction toks generalizing d with
  | nil => exact h
  | cons t rest ih => exact ih _ (decodeStep_nodup d t h)

theorem foldl_decodeStep_err (toks : List Token) (d : Decoder)
    (h : d.err ≠ some Error.SyntaxError) :
    (toks.foldl decodeStep d).err ≠ some Error.SyntaxError := by
  induction toks generalizing d with
  | nil => exact h
  | cons t rest ih => exact ih _ (decodeStep_err d t h)

theorem decode_nodup (toks : List Token) (m : GoMap String) (hnd : (m.map Prod.fst).Nodup) :
    ((decode toks m).1.map Prod.fst).Nodup := by
  unfold decode
  split
  · exact foldl_decodeStep_nodup _ _ hnd
  · exact hnd
  · exact hnd

theorem decode_err (toks : List Token) (m : GoMap String) :
    (decode toks m).2 ≠ some Error.SyntaxError := by
  unfold decode
  split
  · exact foldl_decodeStep_err _ _ (by simp)
  · simp
  · simp

theorem Unmarshal_nodup (data : String) :
    ((Unmarshal data []).1.map Prod.fst).Nodup := by
  unfold Unmarshal
  split
  · split
    · exact decode_nodup _ _ (by simp)
    · simp
  · simp

theorem Unmarshal_syntax_error (data : String) (m : GoMap String)
    (h : (Unmarshal data m).2 = some Error.SyntaxError) : (Unmarshal data m).1 = m := by
  unfold Unmarshal at h ⊢
  split
  · rename_i hv
    rw [if_pos hv] at h
    split
    · rename_i toks hl
      rw [hl] at h
      exact absurd h (decode_err toks m)
    · rfl
  · rfl

theorem Unmarshal_of_not_object (data : String) (m : GoMap String)
    (h : isObject data = false) : (Unmarshal data m).1 = m := by
  unfold Unmarshal
  split
  · rename_i hv
    split
    · rename_i toks hl
      unfold decode
      split
      · simp [isObject, hv, hl] at h
      · rfl
      · rfl
    · rfl
  · rfl

theorem isObject_of_syntax_error (data : String) (m : GoMap String)
    (h : (Unmarshal data m).2 = some Error.SyntaxError) : isObject data = false := by
  have hv : checkValid data = false := by
    by_contra hv
    have hv' : checkValid data = true := by simpa using hv
    unfold Unmarshal at h
    rw [if_pos hv'] at h
    unfold checkValid at hv'
    split at hv'
    · simp at hv'
    · rename_i toks hl
      rw [hl] at h
      exact decode_err toks m h
  simp [isObject, hv]

theorem Unmarshal_syntax_error_iff (data : String) (m : GoMap String) :
    (Unmarshal data m).2 = some Error.SyntaxError ↔ checkValid data = false := by
  constructor
  · intro h
    by_contra hv
    have hv' : checkValid data = true := by simpa using hv
    unfold Unmarshal at h
    rw [if_pos hv'] at h
    unfold checkValid at hv'
    split at hv'
    · simp at hv'
    · rename_i toks hl
      rw [hl] at h
      exact decode_err toks m h
  · intro h
    simp [Unmarshal, h]

end JSON

/-! ## Lemmas on `strings.Trim` -/

theorem trimLeft_spec (cutset : List Char) (l : List Char) :
    ∃ pre, l = pre ++ trimLeft cutset l ∧ (∀ c ∈ pre, c ∈ cutset)
      ∧ ∀ c, (trimLeft cutset l).head? = some c → c ∉ cutset := by
  induction l with
  | nil => exact ⟨[], by simp [trimLeft]⟩
  | cons a rest ih =>
    by_cases h : a ∈ cutset
    · obtain ⟨pre, h1, h2, h3⟩ := ih
      refine ⟨a :: pre, ?_, ?_, ?_⟩
      · simp only [trimLeft, h, if_true, List.cons_append]
        rw [← h1]
      · intro c hc
        rcases List.mem_cons.mp hc with rfl | hc
        · exact h
        · exact h2 c hc
      · simpa only [trimLeft, h, if_true] using h3
    · refine ⟨[], ?_, by simp, ?_⟩
      · simp [trimLeft, h]
      · intro c hc
        simp only [trimLeft, h, if_false, List.head?_cons, Option.some.injEq] at hc
        subst hc
        exact h

theorem Trim_spec (s cutset : String) :
    ∃ pre post, s.data = pre ++ (Trim s cutset).data ++ post
      ∧ (∀ c ∈ pre, c ∈ cutset.data) ∧ (∀ c ∈ post, c ∈ cutset.data)
      ∧ (∀ c, (Trim s cutset).data.head? = some c → c ∉ cutset.data)
      ∧ (∀ c, (Trim s cutset).data.getLast? = some c → c ∉ cutset.data) := by
  obtain ⟨pre, h1, h2, h3⟩ := trimLeft_spec cutset.data s.data
  obtain ⟨post, g1, g2, g3⟩ := trimLeft_spec cutset.data (trimLeft cutset.data s.data).reverse
  have ha : trimLeft cutset.data s.data
      = (trimLeft cutset.data (trimLeft cutset.data s.data).reverse).reverse ++ post.reverse := by
    have := congrArg List.reverse g1
    simpa using this
  refine ⟨pre, post.reverse, ?_, h2, ?_, ?_, ?_⟩
  · show s.data = pre ++ (trimLeft cutset.data (trimLeft cutset.data s.data).reverse).reverse
      ++ post.reverse
    rw [List.append_assoc, ← ha]
    exact h1
  · intro c hc
    exact g2 c (List.mem_reverse.mp hc)
  · intro c hc
    apply h3 c
    rw [ha]
    change (trimLeft cutset.data (trimLeft cutset.data s.data).reverse).reverse.head? = some c
      at hc
    rw [List.head?_append_of_ne_nil]
    · exact hc
    · intro hnil
      rw [hnil] at hc
      simp at hc
  · intro c hc
    apply g3 c
    change (trimLeft cutset.data (trimLeft cutset.data s.data).reverse).reverse.getLast? = some c
      at hc
    rwa [List.getLast?_reverse] at hc

/-! ## The volume filter -/

namespace mockblockstorage

theorem filterStep_eq (vals : Values) (vols : List Volume) (volume : Volume) :
    filterStep vals vols volume = if keeps vals volume then vols ++ [volume] else vols := by
  unfold filterStep keeps
  by_cases h1 : vals.Get "name" ≠ "" ∧ volume.Name ≠ vals.Get "name"
  · simp [h1]
  · by_cases h2 : metadataMatch volume (parsedMetadata vals) = true
    · simp [h1, h2]
    · simp [h1, h2]

theorem foldl_filterStep (vals : Values) (l : GoMap Volume) (acc : List Volume) :
    l.foldl (fun vols e => filterStep vals vols e.2) acc
      = acc ++ (l.filter (fun e => keeps vals e.2)).map Prod.snd := by
  induction l generalizing acc with
  | nil => simp
  | cons e rest ih =>
    rw [List.foldl_cons, ih, filterStep_eq]
    by_cases h : keeps vals e.2 = true
    · simp [h, List.filter]
    · simp [h, List.filter]

theorem filterVolumes_eq (allVolumes : GoMap Volume) (vals : Values) :
    filterVolumes allVolumes vals
      = (allVolumes.filter (fun e => keeps vals e.2)).map Prod.snd := by
  unfold filterVolumes
  rw [foldl_filterStep]
  simp

theorem metadataMatch_iff (volume : Volume) (parsed : GoMap String) :
    metadataMatch volume parsed = true
      ↔ ∀ k v, (k, v) ∈ parsed → GoMap.index "" volume.Metadata k = v := by
  induction parsed with
  | nil => simp [metadataMatch]
  | cons e rest ih =>
    obtain ⟨k1, v1⟩ := e
    unfold metadataMatch
    by_cases h : GoMap.index "" volume.Metadata k1 = v1
    · simp only [ne_eq, h, not_true_eq_false, if_false, ih, List.mem_cons, Prod.mk.injEq]
      constructor
      · intro hall k v hkv
        rcases hkv with ⟨rfl, rfl⟩ | hkv
        · exact h
        · exact hall k v hkv
      · intro hall k v hkv
        exact hall k v (Or.inr hkv)
    · simp only [ne_eq, h, not_false_eq_true, if_true, Bool.false_eq_true, false_iff]
      intro hall
      exact h (hall k1 v1 (List.mem_cons_self _ _))

theorem Get_of_lookup_none (vals : Values) (key : String)
    (h : GoMap.lookup vals key = none) : vals.Get key = "" := by
  simp [Values.Get, h]

theorem Get_Del_self (vals : Values) (key : String) : (vals.Del key).Get key = "" := by
  simp [Values.Get, Values.Del, GoMap.lookup_delete_self]

theorem Get_Del_ne (vals : Values) (key key' : String) (h : key' ≠ key) :
    (vals.Del key).Get key' = vals.Get key' := by
  simp [Values.Get, Values.Del, GoMap.lookup_delete_ne _ _ _ h]

theorem parsedMetadata_of_Get_empty (vals : Values) (h : vals.Get "metadata" = "") :
    parsedMetadata vals = [] := by
  unfold parsedMetadata
  rw [h]
  decide

/-- C1: with a non-empty `name` parameter and no `metadata` parameter,
`filterVolumes` returns exactly the stored volumes whose `Name` equals the
parameter: the result is the store's entries with that name, one per entry, so
a volume with another name never occurs in it and a volume with that name
occurs as often as it is stored. -/
theorem C1_filterVolumes_by_name (allVolumes : GoMap Volume) (vals : Values) (name : String)
    (hname : vals.Get "name" = name) (hne : name ≠ "")
    (hmeta : GoMap.lookup vals "metadata" = none) :
    filterVolumes allVolumes vals
        = (allVolumes.filter (fun e => decide (e.2.Name = name))).map Prod.snd
      ∧ ∀ v : Volume, (filterVolumes allVolumes vals).count v
          = if v.Name = name then (allVolumes.map Prod.snd).count v else 0 := by
  have hpm : parsedMetadata vals = [] :=
    parsedMetadata_of_Get_empty vals (Get_of_lookup_none vals "metadata" hmeta)
  have hkeep : ∀ e : String × Volume, keeps vals e.2 = decide (e.2.Name = name) := by
    intro e
    unfold keeps
    rw [hpm, hname]
    by_cases h : e.2.Name = name <;> simp [h, hne, metadataMatch]
  have heq : filterVolumes allVolumes vals
      = (allVolumes.filter (fun e => decide (e.2.Name = name))).map Prod.snd := by
    rw [filterVolumes_eq]
    congr 1
    exact List.filter_congr (fun e _ => hkeep e)
  refine ⟨heq, ?_⟩
  intro v
  rw [heq]
  have hmap : (allVolumes.filter (fun e => decide (e.2.Name = name))).map Prod.snd
      = (allVolumes.map Prod.snd).filter (fun x => decide (x.Name = name)) := by
    rw [List.filter_map]
    rfl
  rw [hmap]
  by_cases hv : v.Name = name
  · rw [if_pos hv]
    exact List.count_filter (by simpa using hv)
  · rw [if_neg hv]
    apply List.count_eq_zero_of_not_mem
    intro hm
    have := (List.mem_filter.mp hm).2
    exact hv (by simpa using this)

/-- C1, on the store with volumes named `a`, `b`, `a` and `name=a`: exactly the
two volumes named `a` are returned. -/
theorem C1_filterVolumes_by_name_witness :
    filterVolumes abaStore [("name", ["a"])]
        = [sampleVolume "1" "a" [], sampleVolume "3" "a" []] := by
  have h := (C1_filterVolumes_by_name abaStore [("name", ["a"])] "a"
    (by decide) (by decide) (by decide)).1
  rw [h]
  decide

/-- C2 fails as stated: the filter `{'a':''}` parses to the mapping with the one
key `a`, the volume has no key `a` in its metadata, and `filterVolumes` returns
the volume all the same. -/
theorem C2_counterexample :
    JSON.Unmarshal (ReplaceAll "\x7b'a':''\x7d" "\x27" "\x22") [] = ([("a", "")], none)
      ∧ GoMap.lookup (sampleVolume "v1" "data" []).Metadata "a" = none
      ∧ sampleVolume "v1" "data" [] ∈ filterVolumes bareStore [("metadata", ["\x7b'a':''\x7d"])] := by
  decide

/-- C2, amended: when the `metadata` parameter parses to the mapping `M` and no
`name` parameter is given, `filterVolumes` returns a stored volume if and only
if, for every key of `M`, the volume's metadata read at that key (an absent key
reads as the empty string) is the value `M` has for it. -/
theorem C2_filterVolumes_by_metadata (allVolumes : GoMap Volume) (vals : Values)
    (M : GoMap String) (volume : Volume)
    (hname : GoMap.lookup vals "name" = none)
    (hparse : JSON.Unmarshal (ReplaceAll (vals.Get "metadata") "\x27" "\x22") [] = (M, none)) :
    volume ∈ filterVolumes allVolumes vals
      ↔ (∃ key, (key, volume) ∈ allVolumes)
        ∧ ∀ k v, GoMap.lookup M k = some v → GoMap.index "" volume.Metadata k = v := by
  have hM : parsedMetadata vals = M := by
    unfold parsedMetadata
    rw [hparse]
  have hnd : (M.map Prod.fst).Nodup := by
    have := JSON.Unmarshal_nodup (ReplaceAll (vals.Get "metadata") "\x27" "\x22")
    rwa [hparse] at this
  have hkeep : ∀ x : Volume, keeps vals x = true
      ↔ ∀ k v, GoMap.lookup M k = some v → GoMap.index "" x.Metadata k = v := by
    intro x
    unfold keeps
    rw [hM, Get_of_lookup_none vals "name" hname]
    simp only [ne_eq, not_true_eq_false, false_and, decide_False, Bool.not_false,
      Bool.true_and, metadataMatch_iff]
    constructor
    · intro h k v hk
      exact h k v (GoMap.mem_of_lookup M k v hk)
    · intro h k v hk
      exact h k v (GoMap.lookup_of_mem_of_nodup M k v hnd hk)
  rw [filterVolumes_eq, List.mem_map]
  constructor
  · rintro ⟨e, he, rfl⟩
    obtain ⟨hmem, hk⟩ := List.mem_filter.mp he
    exact ⟨⟨e.1, hmem⟩, (hkeep e.2).mp hk⟩
  · rintro ⟨⟨key, hmem⟩, hall⟩
    exact ⟨(key, volume), List.mem_filter.mpr ⟨hmem, (hkeep volume).mpr hall⟩, rfl⟩

/-- C2, amended, on a volume with metadata `k8s.io/role = master` and the
single-quoted filter for that pair: the volume is returned. -/
theorem C2_filterVolumes_by_metadata_witness :
    sampleVolume "v1" "etcd" [("k8s.io/role", "master")]
      ∈ filterVolumes masterStore [("metadata", ["\x7b'k8s.io/role':'master'\x7d"])] :=
  (C2_filterVolumes_by_metadata masterStore [("metadata", ["\x7b'k8s.io/role':'master'\x7d"])]
    [("k8s.io/role", "master")] (sampleVolume "v1" "etcd" [("k8s.io/role", "master")])
    (by decide) (by decide)).mpr ⟨⟨"v1", by decide⟩, by
      intro k v h
      rw [GoMap.lookup_cons] at h
      split at h
      · rename_i hk
        subst hk
        cases h
        decide
      · simp [GoMap.lookup] at h⟩

/-- C3 fails as stated: decoding the filter `{'a':'b','c':1}` fails, on the
number that stands where a string is expected, and yet the pair `a`, `b` decoded
before it is applied: the volume without metadata is left out, while it is
returned when the `metadata` parameter is absent. -/
theorem C3_counterexample :
    (JSON.Unmarshal (ReplaceAll "\x7b'a':'b','c':1\x7d" "\x27" "\x22") []).2
        = some JSON.Error.UnmarshalTypeError
      ∧ filterVolumes bareStore [("metadata", ["\x7b'a':'b','c':1\x7d"])] = []
      ∧ filterVolumes bareStore (Values.Del [("metadata", ["\x7b'a':'b','c':1\x7d"])] "metadata")
          = [sampleVolume "v1" "data" []] := by
  decide

/-- C3, amended: when decoding the `metadata` parameter fails and the text,
single quotes replaced, is not a well-formed JSON object (it is not well-formed
JSON, or it is a well-formed text of another kind, such as an array, a number or
a string), `filterVolumes` returns what it returns without the `metadata`
parameter, whatever the store and the other parameters. -/
theorem C3_filterVolumes_malformed_metadata (allVolumes : GoMap Volume) (vals : Values)
    (hfail : (JSON.Unmarshal (ReplaceAll (vals.Get "metadata") "\x27" "\x22") []).2 ≠ none)
    (hobj : JSON.isObject (ReplaceAll (vals.Get "metadata") "\x27" "\x22") = false) :
    filterVolumes allVolumes vals = filterVolumes allVolumes (vals.Del "metadata") := by
  have hpm : parsedMetadata vals = [] := by
    unfold parsedMetadata
    exact JSON.Unmarshal_of_not_object _ _ hobj
  have hpm' : parsedMetadata (vals.Del "metadata") = [] :=
    parsedMetadata_of_Get_empty _ (Get_Del_self vals "metadata")
  have hn : (vals.Del "metadata").Get "name" = vals.Get "name" :=
    Get_Del_ne vals "metadata" "name" (by decide)
  rw [filterVolumes_eq, filterVolumes_eq]
  congr 1
  apply List.filter_congr
  intro e _
  unfold keeps
  rw [hpm, hpm', hn]

/-- C3, amended, on three filters whose decoding fails: the text of the comment
in `filterVolumes`, with its plus sign, and a text with unbalanced quotes, which
are not well-formed JSON, and an array, which is well-formed but not an object.
Each gives the result of the `name` parameter alone. -/
theorem C3_filterVolumes_malformed_metadata_witness :
    filterVolumes abaStore
        [("name", ["b"]),
         ("metadata", ["\x7b'k8s.io/etcd/main':'1/1',+'k8s.io/role/master':'1'\x7d"])]
        = filterVolumes abaStore (Values.Del
            [("name", ["b"]),
             ("metadata", ["\x7b'k8s.io/etcd/main':'1/1',+'k8s.io/role/master':'1'\x7d"])]
            "metadata")
      ∧ filterVolumes abaStore [("name", ["b"]), ("metadata", ["\x7b'a':'b\x7d"])]
        = filterVolumes abaStore
            (Values.Del [("name", ["b"]), ("metadata", ["\x7b'a':'b\x7d"])] "metadata")
      ∧ filterVolumes abaStore [("name", ["b"]), ("metadata", ["['a']"])]
        = filterVolumes abaStore
            (Values.Del [("name", ["b"]), ("metadata", ["['a']"])] "metadata") :=
  ⟨C3_filterVolumes_malformed_metadata abaStore
      [("name", ["b"]),
       ("metadata", ["\x7b'k8s.io/etcd/main':'1/1',+'k8s.io/role/master':'1'\x7d"])]
      (by decide) (by decide),
   C3_filterVolumes_malformed_metadata abaStore
      [("name", ["b"]), ("metadata", ["\x7b'a':'b\x7d"])] (by decide) (by decide),
   C3_filterVolumes_malformed_metadata abaStore
      [("name", ["b"]), ("metadata", ["['a']"])] (by decide) (by decide)⟩

end mockblockstorage

/-! ## The server list -/

namespace mockcompute

theorem foldl_matched (serverName : String) (l : GoMap Server) (acc : List Server) :
    l.foldl (fun matched e => if HasPrefix e.2.Name serverName then matched ++ [e.2] else matched)
        acc
      = acc ++ (l.filter (fun e => HasPrefix e.2.Name serverName)).map Prod.snd := by
  induction l generalizing acc with
  | nil => simp
  | cons e rest ih =>
    rw [List.foldl_cons, ih]
    by_cases h : HasPrefix e.2.Name serverName = true
    · simp [h, List.filter]
    · simp [h, List.filter]

theorem matchedServers_eq (servers : GoMap Server) (vals : Values) :
    matchedServers servers vals
      = (servers.filter (fun e => HasPrefix e.2.Name (Trim (vals.Get "name") "^$"))).map
          Prod.snd := by
  unfold matchedServers
  rw [foldl_matched]
  simp

theorem marshalServersLoop_eq (l : List Server) (acc : List ExtendedServerType) :
    marshalServersLoop l acc = .ok (acc ++ l.map extended) := by
  induction l generalizing acc with
  | nil => simp [marshalServersLoop]
  | cons v rest ih =>
    simp [marshalServersLoop, AddMocksReplaceServers, ih, extended]

theorem MarshalServers_eq (l : List Server) :
    MarshalServers l = .ok (.servers { Servers := l.map extended }) := by
  simp [MarshalServers, marshalServersLoop_eq]

theorem HasPrefix_iff (s pre : String) :
    HasPrefix s pre = true ↔ ∃ rest, s.data = pre.data ++ rest := by
  unfold HasPrefix
  rw [List.isPrefixOf_iff_prefix]
  constructor
  · rintro ⟨t, ht⟩
    exact ⟨t, ht.symm⟩
  · rintro ⟨t, ht⟩
    exact ⟨t, ht.symm⟩

/-- C4: the list `listServers` encodes is made of exactly the stored servers
whose `Name` starts with the trimmed `name` parameter, one per store entry; the
trimmed parameter is the parameter without the run of `^` and `$` characters at
its start and the run at its end; nothing but this list is written and the store
is untouched. -/
theorem C4_listServers_prefix (m : MockClient) (w : ResponseWriter Document) (vals : Values) :
    (listServers m w vals).w.body
        = w.body ++ [Document.servers
            { Servers := ((m.servers.filter
                (fun e => HasPrefix e.2.Name (Trim (vals.Get "name") "^$"))).map
                  (fun e => extended e.2)) }]
      ∧ (listServers m w vals).panicked = none
      ∧ (listServers m w vals).st = m
      ∧ (∀ name : String, HasPrefix name (Trim (vals.Get "name") "^$") = true
          ↔ ∃ rest, name.data = (Trim (vals.Get "name") "^$").data ++ rest)
      ∧ ∃ pre post, (vals.Get "name").data = pre ++ (Trim (vals.Get "name") "^$").data ++ post
          ∧ (∀ c ∈ pre, c = '^' ∨ c = '$') ∧ (∀ c ∈ post, c = '^' ∨ c = '$')
          ∧ (∀ c, (Trim (vals.Get "name") "^$").data.head? = some c → c ≠ '^' ∧ c ≠ '$')
          ∧ (∀ c, (Trim (vals.Get "name") "^$").data.getLast? = some c → c ≠ '^' ∧ c ≠ '$') := by
  have hcut : ∀ c : Char, c ∈ "^$".data ↔ c = '^' ∨ c = '$' := by
    intro c
    simp
  refine ⟨?_, ?_, ?_, fun name => HasPrefix_iff name _, ?_⟩
  · simp [listServers, MarshalServers_eq, matchedServers_eq, ResponseWriter.Write,
      List.map_map, Function.comp_def]
  · simp [listServers, MarshalServers_eq]
  · simp [listServers, MarshalServers_eq]
  · obtain ⟨pre, post, h1, h2, h3, h4, h5⟩ := Trim_spec (vals.Get "name") "^$"
    refine ⟨pre, post, h1, fun c hc => (hcut c).mp (h2 c hc), fun c hc => (hcut c).mp (h3 c hc),
      ?_, ?_⟩
    · intro c hc
      have := h4 c hc
      rw [hcut] at this
      exact not_or.mp this
    · intro c hc
      have := h5 c hc
      rw [hcut] at this
      exact not_or.mp this

/-- C4 on the servers `node-1`, `node-2`, `bastion` and the parameter `^node-$`:
the two nodes are listed. -/
theorem listServers_nodes :
    (listServers { servers := nodeStore, flavors := [] } ResponseWriter.fresh
        [("name", ["^node-$"])]).w.body
      = [Document.servers
          { Servers := [extended (sampleServer "s1" "node-1"),
                        extended (sampleServer "s2" "node-2")] }] := by
  decide

end mockcompute

/-! ## The update counter -/

theorem putCount_cons {β : Type} (q : Request β × String) (rest : List (Request β × String)) :
    putCount (q :: rest) = (if q.1.Method = "PUT" then 1 else 0) + putCount rest := by
  unfold putCount
  by_cases h : q.1.Method = "PUT"
  · simp [List.filter, h, Nat.add_comm]
  · simp [List.filter, h]

namespace mockblockstorage

theorem serve_put (em : ExtraMocks) (s : HandlerState) (r : Request Body) (uuid : String)
    (mocks : UpdateMocks) (hm : r.Method = "PUT")
    (hb : em.Update.get? s.updateCounter = some mocks) :
    (serve em s r uuid).w
        = (updateVolume s.m (ResponseWriter.fresh.HeaderAdd "Content-Type" "application/json")
            r.Body (volIDOf r.Path) mocks).w
      ∧ (serve em s r uuid).st.m
        = (updateVolume s.m (ResponseWriter.fresh.HeaderAdd "Content-Type" "application/json")
            r.Body (volIDOf r.Path) mocks).st
      ∧ (serve em s r uuid).panicked
        = (updateVolume s.m (ResponseWriter.fresh.HeaderAdd "Content-Type" "application/json")
            r.Body (volIDOf r.Path) mocks).panicked
      ∧ ((serve em s r uuid).panicked = none
          → (serve em s r uuid).st.updateCounter = s.updateCounter + 1) := by
  unfold serve mockVolumes
  simp only [hm, hb]
  simp only [show ("PUT" : String) ≠ "GET" by decide, show ("PUT" : String) ≠ "POST" by decide,
    if_false, if_true]
  cases hp : (updateVolume s.m (ResponseWriter.fresh.HeaderAdd "Content-Type" "application/json")
      r.Body (volIDOf r.Path) mocks).panicked with
  | none => simp
  | some msg => simp

theorem serve_not_put (em : ExtraMocks) (s : HandlerState) (r : Request Body) (uuid : String)
    (hm : r.Method ≠ "PUT") : (serve em s r uuid).st.updateCounter = s.updateCounter := by
  unfold serve mockVolumes
  simp only [hm, if_false]
  split
  · split <;> rfl
  · split
    · rfl
    · split <;> rfl

theorem serve_counter (em : ExtraMocks) (s : HandlerState) (r : Request Body) (uuid : String)
    (hp : (serve em s r uuid).panicked = none) :
    (serve em s r uuid).st.updateCounter
      = s.updateCounter + (if r.Method = "PUT" then 1 else 0) := by
  by_cases hm : r.Method = "PUT"
  · rw [if_pos hm]
    cases hb : em.Update.get? s.updateCounter with
    | none =>
      exfalso
      unfold serve mockVolumes at hp
      simp only [hm, hb] at hp
      simp only [show ("PUT" : String) ≠ "GET" by decide,
        show ("PUT" : String) ≠ "POST" by decide, if_false, if_true] at hp
      simp at hp
    | some mocks => exact (serve_put em s r uuid mocks hm hb).2.2.2 hp
  · rw [if_neg hm]
    exact serve_not_put em s r uuid hm

theorem serveAll_counter (em : ExtraMocks) (reqs : List (Request Body × String))
    (s s' : HandlerState) (h : serveAll em s reqs = some s') :
    s'.updateCounter = s.updateCounter + putCount reqs := by
  induction reqs generalizing s with
  | nil =>
    simp only [serveAll, Option.some.injEq] at h
    subst h
    simp [putCount]
  | cons q rest ih =>
    obtain ⟨r, uuid⟩ := q
    unfold serveAll at h
    cases hp : (serve em s r uuid).panicked with
    | some msg => simp [hp] at h
    | none =>
      simp only [hp] at h
      rw [ih _ h, serve_counter em s r uuid hp, putCount_cons, Nat.add_assoc]

theorem serve_put_panicked (em : ExtraMocks) (s : HandlerState) (r : Request Body)
    (uuid : String) (hm : r.Method = "PUT") (hp : (serve em s r uuid).panicked ≠ none) :
    (serve em s r uuid).st.updateCounter = s.updateCounter := by
  cases hb : em.Update.get? s.updateCounter with
  | none =>
    unfold serve mockVolumes
    simp only [hm, hb]
    simp only [show ("PUT" : String) ≠ "GET" by decide,
      show ("PUT" : String) ≠ "POST" by decide, if_false, if_true]
  | some mocks =>
    unfold serve mockVolumes at hp ⊢
    simp only [hm, hb] at hp ⊢
    simp only [show ("PUT" : String) ≠ "GET" by decide,
      show ("PUT" : String) ≠ "POST" by decide, if_false, if_true] at hp ⊢
    cases hres : (updateVolume s.m
        (ResponseWriter.fresh.HeaderAdd "Content-Type" "application/json")
        r.Body (volIDOf r.Path) mocks).panicked with
    | none => simp [hres] at hp
    | some msg => simp

theorem serve_step_counter (em : ExtraMocks) (s : HandlerState) (r : Request Body)
    (uuid : String) :
    (serve em s r uuid).st.updateCounter
      = s.updateCounter
        + (if r.Method = "PUT" ∧ (serve em s r uuid).panicked = none then 1 else 0) := by
  by_cases hm : r.Method = "PUT"
  · by_cases hp : (serve em s r uuid).panicked = none
    · rw [if_pos ⟨hm, hp⟩, serve_counter em s r uuid hp, if_pos hm]
    · rw [if_neg (fun h => hp h.2), serve_put_panicked em s r uuid hm hp]
      rfl
  · rw [if_neg (fun h => hm h.1), serve_not_put em s r uuid hm]
    rfl

theorem serveEach_counter (em : ExtraMocks) (reqs : List (Request Body × String))
    (s : HandlerState) :
    (serveEach em s reqs).updateCounter = s.updateCounter + returnedPuts em s reqs := by
  induction reqs generalizing s with
  | nil => rfl
  | cons q rest ih =>
    obtain ⟨r, uuid⟩ := q
    simp only [serveEach, returnedPuts]
    rw [ih, serve_step_counter em s r uuid, Nat.add_assoc]

theorem serveEach_of_serveAll (em : ExtraMocks) (reqs : List (Request Body × String))
    (s s' : HandlerState) (h : serveAll em s reqs = some s') :
    serveEach em s reqs = s' ∧ returnedPuts em s reqs = putCount reqs := by
  induction reqs generalizing s with
  | nil =>
    simp only [serveAll, Option.some.injEq] at h
    exact ⟨h, rfl⟩
  | cons q rest ih =>
    obtain ⟨r, uuid⟩ := q
    unfold serveAll at h
    cases hp : (serve em s r uuid).panicked with
    | some msg => simp [hp] at h
    | none =>
      simp only [hp] at h
      obtain ⟨h1, h2⟩ := ih _ h
      refine ⟨h1, ?_⟩
      simp only [returnedPuts, hp, and_true]
      rw [h2, putCount_cons]

end mockblockstorage

namespace mockcompute

theorem serveServers_put (em : ExtraMocks) (s : HandlerState) (r : Request Body) (uuid : String)
    (mocks : UpdateMocks) (hm : r.Method = "PUT")
    (hb : em.Update.get? s.updateCounter = some mocks) :
    (serve em s r uuid).w
        = (updateServer s.m (ResponseWriter.fresh.HeaderAdd "Content-Type" "application/json")
            r.Body (serverIDOf r.Path) mocks).w
      ∧ (serve em s r uuid).st.m
        = (updateServer s.m (ResponseWriter.fresh.HeaderAdd "Content-Type" "application/json")
            r.Body (serverIDOf r.Path) mocks).st
      ∧ (serve em s r uuid).panicked
        = (updateServer s.m (ResponseWriter.fresh.HeaderAdd "Content-Type" "application/json")
            r.Body (serverIDOf r.Path) mocks).panicked
      ∧ ((serve em s r uuid).panicked = none
          → (serve em s r uuid).st.updateCounter = s.updateCounter + 1) := by
  unfold serve mockServers
  simp only [hm, hb]
  simp only [show ("PUT" : String) ≠ "GET" by decide, show ("PUT" : String) ≠ "POST" by decide,
    if_false, if_true]
  cases hp : (updateServer s.m (ResponseWriter.fresh.HeaderAdd "Content-Type" "application/json")
      r.Body (serverIDOf r.Path) mocks).panicked with
  | none => simp
  | some msg => simp

theorem serveServers_not_put (em : ExtraMocks) (s : HandlerState) (r : Request Body) (uuid : String)
    (hm : r.Method ≠ "PUT") : (serve em s r uuid).st.updateCounter = s.updateCounter := by
  unfold serve mockServers
  simp only [hm, if_false]
  split
  · split
    · split <;> rfl
    · rfl
  · split
    · rfl
    · split <;> rfl

theorem serveServers_counter (em : ExtraMocks) (s : HandlerState) (r : Request Body) (uuid : String)
    (hp : (serve em s r uuid).panicked = none) :
    (serve em s r uuid).st.updateCounter
      = s.updateCounter + (if r.Method = "PUT" then 1 else 0) := by
  by_cases hm : r.Method = "PUT"
  · rw [if_pos hm]
    cases hb : em.Update.get? s.updateCounter with
    | none =>
      exfalso
      unfold serve mockServers at hp
      simp only [hm, hb] at hp
      simp only [show ("PUT" : String) ≠ "GET" by decide,
        show ("PUT" : String) ≠ "POST" by decide, if_false, if_true] at hp
      simp at hp
    | some mocks => exact (serveServers_put em s r uuid mocks hm hb).2.2.2 hp
  · rw [if_neg hm]
    exact serveServers_not_put em s r uuid hm

theorem serveAllServers_counter (em : ExtraMocks) (reqs : List (Request Body × String))
    (s s' : HandlerState) (h : serveAll em s reqs = some s') :
    s'.updateCounter = s.updateCounter + putCount reqs := by
  induction reqs generalizing s with
  | nil =>
    simp only [serveAll, Option.some.injEq] at h
    subst h
    simp [putCount]
  | cons q rest ih =>
    obtain ⟨r, uuid⟩ := q
    unfold serveAll at h
    cases hp : (serve em s r uuid).panicked with
    | some msg => simp [hp] at h
    | none =>
      simp only [hp] at h
      rw [ih _ h, serveServers_counter em s r uuid hp, putCount_cons, Nat.add_assoc]

theorem serveServers_put_panicked (em : ExtraMocks) (s : HandlerState) (r : Request Body)
    (uuid : String) (hm : r.Method = "PUT") (hp : (serve em s r uuid).panicked ≠ none) :
    (serve em s r uuid).st.updateCounter = s.updateCounter := by
  cases hb : em.Update.get? s.updateCounter with
  | none =>
    unfold serve mockServers
    simp only [hm, hb]
    simp only [show ("PUT" : String) ≠ "GET" by decide,
      show ("PUT" : String) ≠ "POST" by decide, if_false, if_true]
  | some mocks =>
    unfold serve mockServers at hp ⊢
    simp only [hm, hb] at hp ⊢
    simp only [show ("PUT" : String) ≠ "GET" by decide,
      show ("PUT" : String) ≠ "POST" by decide, if_false, if_true] at hp ⊢
    cases hres : (updateServer s.m
        (ResponseWriter.fresh.HeaderAdd "Content-Type" "application/json")
        r.Body (serverIDOf r.Path) mocks).panicked with
    | none => simp [hres] at hp
    | some msg => simp

theorem serveServers_step_counter (em : ExtraMocks) (s : HandlerState) (r : Request Body)
    (uuid : String) :
    (serve em s r uuid).st.updateCounter
      = s.updateCounter
        + (if r.Method = "PUT" ∧ (serve em s r uuid).panicked = none then 1 else 0) := by
  by_cases hm : r.Method = "PUT"
  · by_cases hp : (serve em s r uuid).panicked = none
    · rw [if_pos ⟨hm, hp⟩, serveServers_counter em s r uuid hp, if_pos hm]
    · rw [if_neg (fun h => hp h.2), serveServers_put_panicked em s r uuid hm hp]
      rfl
  · rw [if_neg (fun h => hm h.1), serveServers_not_put em s r uuid hm]
    rfl

theorem serveServersEach_counter (em : ExtraMocks) (reqs : List (Request Body × String))
    (s : HandlerState) :
    (serveEach em s reqs).updateCounter = s.updateCounter + returnedPuts em s reqs := by
  induction reqs generalizing s with
  | nil => rfl
  | cons q rest ih =>
    obtain ⟨r, uuid⟩ := q
    simp only [serveEach, returnedPuts]
    rw [ih, serveServers_step_counter em s r uuid, Nat.add_assoc]

theorem serveServersEach_of_serveAll (em : ExtraMocks) (reqs : List (Request Body × String))
    (s s' : HandlerState) (h : serveAll em s reqs = some s') :
    serveEach em s reqs = s' ∧ returnedPuts em s reqs = putCount reqs := by
  induction reqs generalizing s with
  | nil =>
    simp only [serveAll, Option.some.injEq] at h
    exact ⟨h, rfl⟩
  | cons q rest ih =>
    obtain ⟨r, uuid⟩ := q
    unfold serveAll at h
    cases hp : (serve em s r uuid).panicked with
    | some msg => simp [hp] at h
    | none =>
      simp only [hp] at h
      obtain ⟨h1, h2⟩ := ih _ h
      refine ⟨h1, ?_⟩
      simp only [returnedPuts, hp, and_true]
      rw [h2, putCount_cons]

end mockcompute

/-- C5 fails as stated. Two update bundles are supplied and two `PUT` requests
arrive for the stored volume `v1`. The first has a body that does not decode:
`updateVolume` panics and `updateCounter++` is not reached. The second, which is
`PUT` number one counting from zero, is then handled with bundle number zero: the
volume gets the time of update, the type and the size of the first bundle, not
those of the second. -/
theorem C5_counterexample :
    putCount [(mockblockstorage.undecodableRequest "PUT" "/volumes/v1", "g1"),
              (mockblockstorage.sampleRequest "PUT" "/volumes/v1", "g2")]
        ≤ mockblockstorage.sampleMocks.Update.length
      ∧ (mockblockstorage.serve mockblockstorage.sampleMocks (mockblockstorage.sampleState 0)
          (mockblockstorage.undecodableRequest "PUT" "/volumes/v1") "g1").panicked
          = some "error decoding update volume request"
      ∧ (GoMap.lookup (mockblockstorage.serveEach mockblockstorage.sampleMocks
            (mockblockstorage.sampleState 0)
            [(mockblockstorage.undecodableRequest "PUT" "/volumes/v1", "g1"),
             (mockblockstorage.sampleRequest "PUT" "/volumes/v1", "g2")]).m.volumes "v1").map
          (fun v => (v.UpdatedAt, v.VolumeType, v.Size))
          = some (sampleTime 2, "ssd", 20)
      ∧ mockblockstorage.sampleMocks.Update.get? 0
          = some { UpdatedAt := sampleTime 2, VolumeType := "ssd", Size := 20 }
      ∧ mockblockstorage.sampleMocks.Update.get? 1
          = some { UpdatedAt := sampleTime 3, VolumeType := "hdd", Size := 30 } := by
  decide

/-- C5, amended: let the volumes handler (and likewise the servers handler) serve
any sequence of requests, started with the counter at zero and going on after a
request that panics. The counter is then the number of `PUT` requests served so
far whose handling returned, whatever their target. A further `PUT`, the bundle
of that index existing, is handled by the update operation with exactly that
bundle; it moves the counter on by one when it returns and leaves it when it
panics. A request with another method leaves the counter as it is. When no
request of the sequence panicked, the counter is the number of its `PUT`
requests. -/
theorem C5_update_bundle_order
    (em : mockblockstorage.ExtraMocks) (m0 : mockblockstorage.MockClient)
    (pre : List (Request mockblockstorage.Body × String))
    (r : Request mockblockstorage.Body) (uuid : String)
    (em' : mockcompute.ExtraMocks) (m0' : mockcompute.MockClient)
    (pre' : List (Request mockcompute.Body × String))
    (r' : Request mockcompute.Body) (uuid' : String)
    (s : mockblockstorage.HandlerState) (s' : mockcompute.HandlerState)
    (hs : s = mockblockstorage.serveEach em { m := m0, updateCounter := 0 } pre)
    (hs' : s' = mockcompute.serveEach em' { m := m0', updateCounter := 0 } pre') :
    (s.updateCounter = mockblockstorage.returnedPuts em { m := m0, updateCounter := 0 } pre
      ∧ (r.Method = "PUT" → s.updateCounter < em.Update.length →
          ∃ mocks, em.Update.get? s.updateCounter = some mocks
            ∧ (mockblockstorage.serve em s r uuid).w
                = (mockblockstorage.updateVolume s.m
                    (ResponseWriter.fresh.HeaderAdd "Content-Type" "application/json")
                    r.Body (mockblockstorage.volIDOf r.Path) mocks).w
            ∧ (mockblockstorage.serve em s r uuid).st.m
                = (mockblockstorage.updateVolume s.m
                    (ResponseWriter.fresh.HeaderAdd "Content-Type" "application/json")
                    r.Body (mockblockstorage.volIDOf r.Path) mocks).st
            ∧ (mockblockstorage.serve em s r uuid).panicked
                = (mockblockstorage.updateVolume s.m
                    (ResponseWriter.fresh.HeaderAdd "Content-Type" "application/json")
                    r.Body (mockblockstorage.volIDOf r.Path) mocks).panicked
            ∧ ((mockblockstorage.serve em s r uuid).panicked = none
                → (mockblockstorage.serve em s r uuid).st.updateCounter = s.updateCounter + 1)
            ∧ ((mockblockstorage.serve em s r uuid).panicked ≠ none
                → (mockblockstorage.serve em s r uuid).st.updateCounter = s.updateCounter))
      ∧ (r.Method ≠ "PUT"
          → (mockblockstorage.serve em s r uuid).st.updateCounter = s.updateCounter)
      ∧ (∀ t, mockblockstorage.serveAll em { m := m0, updateCounter := 0 } pre = some t →
          t = s ∧ s.updateCounter = putCount pre))
    ∧ (s'.updateCounter = mockcompute.returnedPuts em' { m := m0', updateCounter := 0 } pre'
      ∧ (r'.Method = "PUT" → s'.updateCounter < em'.Update.length →
          ∃ mocks, em'.Update.get? s'.updateCounter = some mocks
            ∧ (mockcompute.serve em' s' r' uuid').w
                = (mockcompute.updateServer s'.m
                    (ResponseWriter.fresh.HeaderAdd "Content-Type" "application/json")
                    r'.Body (mockcompute.serverIDOf r'.Path) mocks).w
            ∧ (mockcompute.serve em' s' r' uuid').st.m
                = (mockcompute.updateServer s'.m
                    (ResponseWriter.fresh.HeaderAdd "Content-Type" "application/json")
                    r'.Body (mockcompute.serverIDOf r'.Path) mocks).st
            ∧ (mockcompute.serve em' s' r' uuid').panicked
                = (mockcompute.updateServer s'.m
                    (ResponseWriter.fresh.HeaderAdd "Content-Type" "application/json")
                    r'.Body (mockcompute.serverIDOf r'.Path) mocks).panicked
            ∧ ((mockcompute.serve em' s' r' uuid').panicked = none
                → (mockcompute.serve em' s' r' uuid').st.updateCounter = s'.updateCounter + 1)
            ∧ ((mockcompute.serve em' s' r' uuid').panicked ≠ none
                → (mockcompute.serve em' s' r' uuid').st.updateCounter = s'.updateCounter))
      ∧ (r'.Method ≠ "PUT"
          → (mockcompute.serve em' s' r' uuid').st.updateCounter = s'.updateCounter)
      ∧ (∀ t, mockcompute.serveAll em' { m := m0', updateCounter := 0 } pre' = some t →
          t = s' ∧ s'.updateCounter = putCount pre')) := by
  have hc : s.updateCounter
      = mockblockstorage.returnedPuts em { m := m0, updateCounter := 0 } pre := by
    rw [hs, mockblockstorage.serveEach_counter]
    simp
  have hc' : s'.updateCounter
      = mockcompute.returnedPuts em' { m := m0', updateCounter := 0 } pre' := by
    rw [hs', mockcompute.serveServersEach_counter]
    simp
  refine ⟨⟨hc, ?_, ?_, ?_⟩, ⟨hc', ?_, ?_, ?_⟩⟩
  · intro hm hlt
    have hb : em.Update.get? s.updateCounter = some (em.Update.get ⟨s.updateCounter, hlt⟩) :=
      List.get?_eq_get hlt
    obtain ⟨h1, h2, h3, h4⟩ := mockblockstorage.serve_put em s r uuid _ hm hb
    exact ⟨_, hb, h1, h2, h3, h4, mockblockstorage.serve_put_panicked em s r uuid hm⟩
  · intro hm
    exact mockblockstorage.serve_not_put em s r uuid hm
  · intro t ht
    obtain ⟨h1, h2⟩ := mockblockstorage.serveEach_of_serveAll em pre _ t ht
    exact ⟨by rw [hs, h1], by rw [hc, h2]⟩
  · intro hm hlt
    have hb : em'.Update.get? s'.updateCounter
        = some (em'.Update.get ⟨s'.updateCounter, hlt⟩) := List.get?_eq_get hlt
    obtain ⟨h1, h2, h3, h4⟩ := mockcompute.serveServers_put em' s' r' uuid' _ hm hb
    exact ⟨_, hb, h1, h2, h3, h4, mockcompute.serveServers_put_panicked em' s' r' uuid' hm⟩
  · intro hm
    exact mockcompute.serveServers_not_put em' s' r' uuid' hm
  · intro t ht
    obtain ⟨h1, h2⟩ := mockcompute.serveServersEach_of_serveAll em' pre' _ t ht
    exact ⟨by rw [hs', h1], by rw [hc', h2]⟩

/-- C5, amended, on two runs. Volumes: a `PUT` that panics on its body, a `PUT` on
the stored volume, a `GET` and a `PUT` on an absent volume leave the counter at
two, the number of `PUT` requests that returned. Servers: a `DELETE` and a `PUT`
on a stored server leave the counter at one. -/
theorem C5_update_bundle_order_witness :
    (mockblockstorage.serveEach mockblockstorage.sampleMocks
        { m := { volumes := mockblockstorage.bareStore, volumeTypes := [] }, updateCounter := 0 }
        [(mockblockstorage.undecodableRequest "PUT" "/volumes/v1", "u0"),
         (mockblockstorage.sampleRequest "PUT" "/volumes/v1", "u1"),
         (mockblockstorage.sampleRequest "GET" "/volumes/v1", "u2"),
         (mockblockstorage.sampleRequest "PUT" "/volumes/absent", "u3")]).updateCounter = 2
      ∧ (mockcompute.serveEach mockcompute.sampleMocks
        { m := { servers := mockcompute.nodeStore, flavors := [] }, updateCounter := 0 }
        [(mockcompute.sampleRequest "DELETE" "/servers/s3", "u1"),
         (mockcompute.sampleRequest "PUT" "/servers/s1", "u2")]).updateCounter = 1 := by
  have h := C5_update_bundle_order mockblockstorage.sampleMocks
    { volumes := mockblockstorage.bareStore, volumeTypes := [] }
    [(mockblockstorage.undecodableRequest "PUT" "/volumes/v1", "u0"),
     (mockblockstorage.sampleRequest "PUT" "/volumes/v1", "u1"),
     (mockblockstorage.sampleRequest "GET" "/volumes/v1", "u2"),
     (mockblockstorage.sampleRequest "PUT" "/volumes/absent", "u3")]
    (mockblockstorage.sampleRequest "GET" "/volumes/v1") "u4"
    mockcompute.sampleMocks { servers := mockcompute.nodeStore, flavors := [] }
    [(mockcompute.sampleRequest "DELETE" "/servers/s3", "u1"),
     (mockcompute.sampleRequest "PUT" "/servers/s1", "u2")]
    (mockcompute.sampleRequest "GET" "/servers/s1") "u5" _ _ rfl rfl
  refine ⟨?_, ?_⟩
  · rw [h.1.1]
    decide
  · rw [h.2.1]
    decide

namespace mockblockstorage

/-- C6: in a state whose counter has reached the number of update bundles, a
`PUT` request, whatever its path and body, panics on the read of the bundle:
`updateVolume` is not entered, nothing is written to the response beyond the
content type set on entry, no status line is sent, and the store and the counter
are as before. -/
theorem C6_update_exhausted_panics (em : ExtraMocks) (s : HandlerState)
    (w : ResponseWriter Document) (r : Request Body) (uuid : String)
    (hm : r.Method = "PUT") (hex : em.Update.length ≤ s.updateCounter) :
    (mockVolumes em s w r uuid).panicked = some "index out of range"
      ∧ (mockVolumes em s w r uuid).st = s
      ∧ (mockVolumes em s w r uuid).w.body = w.body
      ∧ (mockVolumes em s w r uuid).w.status = w.status := by
  have hb : em.Update.get? s.updateCounter = none := List.get?_eq_none.mpr hex
  unfold mockVolumes
  simp only [hm, hb]
  simp only [show ("PUT" : String) ≠ "GET" by decide, show ("PUT" : String) ≠ "POST" by decide,
    if_false, if_true]
  simp [ResponseWriter.HeaderAdd]

/-- C6 on the sample state with two update bundles and the counter at two: the
third `PUT` panics and leaves the state as it was. -/
theorem C6_update_exhausted_panics_witness :
    (mockVolumes sampleMocks (sampleState 2) ResponseWriter.fresh
        (sampleRequest "PUT" "/volumes/v1") "u1").panicked = some "index out of range"
      ∧ (mockVolumes sampleMocks (sampleState 2) ResponseWriter.fresh
        (sampleRequest "PUT" "/volumes/v1") "u1").st = sampleState 2
      ∧ (mockVolumes sampleMocks (sampleState 2) ResponseWriter.fresh
        (sampleRequest "PUT" "/volumes/v1") "u1").w.body = []
      ∧ (mockVolumes sampleMocks (sampleState 2) ResponseWriter.fresh
        (sampleRequest "PUT" "/volumes/v1") "u1").w.status = none :=
  C6_update_exhausted_panics sampleMocks (sampleState 2) ResponseWriter.fresh
    (sampleRequest "PUT" "/volumes/v1") "u1" (by decide) (by decide)

/-- C7: for a stored identifier and a decodable body, `updateVolume` returns
without a panic, and the volume stored under the identifier afterwards is the
prior one with `Metadata` taken from the request and `UpdatedAt`, `VolumeType`
and `Size` taken from the bundle, every other field as before; every other key
reads as before, the identifiers in the store are the same ones in the same
order, and the volume types are untouched. -/
theorem C7_updateVolume_frame (m : MockClient) (w : ResponseWriter Document) (body : Body)
    (volumeID : String) (mocks : UpdateMocks) (old : Volume) (update : volumeUpdateRequest)
    (hold : GoMap.lookup m.volumes volumeID = some old) (hbody : body.update = some update) :
    (updateVolume m w body volumeID mocks).panicked = none
      ∧ GoMap.lookup (updateVolume m w body volumeID mocks).st.volumes volumeID
          = some { old with Metadata := update.Volume.Metadata, UpdatedAt := mocks.UpdatedAt,
                            VolumeType := mocks.VolumeType, Size := mocks.Size }
      ∧ (∀ v', GoMap.lookup (updateVolume m w body volumeID mocks).st.volumes volumeID = some v' →
          v'.ID = old.ID ∧ v'.Name = old.Name ∧ v'.AvailabilityZone = old.AvailabilityZone
            ∧ v'.CreatedAt = old.CreatedAt ∧ v'.Status = old.Status
            ∧ v'.Description = old.Description ∧ v'.Attachments = old.Attachments
            ∧ v'.SnapshotID = old.SnapshotID ∧ v'.SourceVolID = old.SourceVolID
            ∧ v'.UserID = old.UserID ∧ v'.Bootable = old.Bootable
            ∧ v'.Encrypted = old.Encrypted ∧ v'.ReplicationStatus = old.ReplicationStatus
            ∧ v'.ConsistencyGroupID = old.ConsistencyGroupID
            ∧ v'.Multiattach = old.Multiattach)
      ∧ (∀ k, k ≠ volumeID →
          GoMap.lookup (updateVolume m w body volumeID mocks).st.volumes k
            = GoMap.lookup m.volumes k)
      ∧ (updateVolume m w body volumeID mocks).st.volumes.map Prod.fst
          = m.volumes.map Prod.fst
      ∧ (updateVolume m w body volumeID mocks).st.volumeTypes = m.volumeTypes := by
  have hidx : GoMap.index Volume.zero m.volumes volumeID = old := by
    simp [GoMap.index, hold]
  have hst : (updateVolume m w body volumeID mocks).st
      = { m with volumes := (GoMap.insert m.volumes volumeID
            { old with Metadata := update.Volume.Metadata, UpdatedAt := mocks.UpdatedAt,
                       VolumeType := mocks.VolumeType, Size := mocks.Size }) } := by
    simp [updateVolume, hold, hbody, hidx, MarshalVolume, AddMocksReplaceVolumes]
  have hlk : GoMap.lookup (updateVolume m w body volumeID mocks).st.volumes volumeID
      = some { old with Metadata := update.Volume.Metadata, UpdatedAt := mocks.UpdatedAt,
                        VolumeType := mocks.VolumeType, Size := mocks.Size } := by
    rw [hst]
    exact GoMap.lookup_insert_self _ _ _
  refine ⟨?_, hlk, ?_, ?_, ?_, ?_⟩
  · simp [updateVolume, hold, hbody, MarshalVolume, AddMocksReplaceVolumes]
  · intro v' hv'
    rw [hlk] at hv'
    cases hv'
    simp
  · intro k hk
    rw [hst]
    exact GoMap.lookup_insert_ne _ _ _ _ hk
  · rw [hst]
    exact GoMap.keys_insert_of_lookup _ _ _ _ hold
  · rw [hst]

/-- C7 on the sample store: updating `v1` with the first sample bundle changes
its metadata, time of update, type and size, and nothing else. -/
theorem C7_updateVolume_frame_witness :
    GoMap.lookup (updateVolume { volumes := bareStore, volumeTypes := [] } ResponseWriter.fresh
        (sampleBody [("k", "v")]) "v1"
        { UpdatedAt := sampleTime 2, VolumeType := "ssd", Size := 20 }).st.volumes "v1"
      = some { (sampleVolume "v1" "data" []) with
                Metadata := [("k", "v")], UpdatedAt := sampleTime 2, VolumeType := "ssd",
                Size := 20 } :=
  (C7_updateVolume_frame { volumes := bareStore, volumeTypes := [] } ResponseWriter.fresh
    (sampleBody [("k", "v")]) "v1" { UpdatedAt := sampleTime 2, VolumeType := "ssd", Size := 20 }
    (sampleVolume "v1" "data" [])
    { Volume := { Name := none, Description := none, Metadata := [("k", "v")] } }
    (by decide) (by decide)).2.1

theorem serve_delete (em : ExtraMocks) (s : HandlerState) (r : Request Body) (uuid : String)
    (hm : r.Method = "DELETE") :
    serve em s r uuid
      = { st := { s with m := (deleteVolume s.m
              (ResponseWriter.fresh.HeaderAdd "Content-Type" "application/json")
              (volIDOf r.Path)).st },
          w := (deleteVolume s.m
              (ResponseWriter.fresh.HeaderAdd "Content-Type" "application/json")
              (volIDOf r.Path)).w,
          panicked := (deleteVolume s.m
              (ResponseWriter.fresh.HeaderAdd "Content-Type" "application/json")
              (volIDOf r.Path)).panicked } := by
  unfold serve mockVolumes
  simp only [hm]
  simp only [show ("DELETE" : String) ≠ "GET" by decide,
    show ("DELETE" : String) ≠ "POST" by decide, show ("DELETE" : String) ≠ "PUT" by decide,
    if_false, if_true]

theorem serve_get (em : ExtraMocks) (s : HandlerState) (r : Request Body) (uuid : String)
    (hm : r.Method = "GET") (hid : volIDOf r.Path ≠ "detail") :
    serve em s r uuid
      = { st := { s with m := (getVolume s.m
              (ResponseWriter.fresh.HeaderAdd "Content-Type" "application/json")
              (volIDOf r.Path)).st },
          w := (getVolume s.m
              (ResponseWriter.fresh.HeaderAdd "Content-Type" "application/json")
              (volIDOf r.Path)).w,
          panicked := (getVolume s.m
              (ResponseWriter.fresh.HeaderAdd "Content-Type" "application/json")
              (volIDOf r.Path)).panicked } := by
  unfold serve mockVolumes
  simp only [hm, hid, if_false, if_true]

theorem serve_list (em : ExtraMocks) (s : HandlerState) (r : Request Body) (uuid : String)
    (hm : r.Method = "GET") (hid : volIDOf r.Path = "detail") :
    serve em s r uuid
      = { st := { s with m := (listVolumes s.m
              (ResponseWriter.fresh.HeaderAdd "Content-Type" "application/json") r.Form).st },
          w := (listVolumes s.m
              (ResponseWriter.fresh.HeaderAdd "Content-Type" "application/json") r.Form).w,
          panicked := (listVolumes s.m
              (ResponseWriter.fresh.HeaderAdd "Content-Type" "application/json")
              r.Form).panicked } := by
  unfold serve mockVolumes
  simp only [hm, hid, if_true]

theorem marshalVolumesLoop_eq (l : List Volume) (acc : List ExtendedVolumeType) :
    marshalVolumesLoop l acc = .ok (acc ++ l.map extended) := by
  induction l generalizing acc with
  | nil => simp [marshalVolumesLoop]
  | cons v rest ih =>
    simp [marshalVolumesLoop, AddMocksReplaceVolumes, ih, extended]

theorem MarshalVolumes_eq (l : List Volume) :
    MarshalVolumes l = .ok (.volumes { Volumes := l.map extended }) := by
  simp [MarshalVolumes, marshalVolumesLoop_eq]

theorem deleteVolume_status_ok (m : MockClient) (w : ResponseWriter Document) (id : String)
    (hw : w.status = none) (hok : (deleteVolume m w id).w.status = some 200) :
    (deleteVolume m w id).st.volumes = GoMap.delete m.volumes id := by
  unfold deleteVolume at hok ⊢
  cases h : GoMap.lookup m.volumes id with
  | some v => simp
  | none =>
    rw [h] at hok
    simp [ResponseWriter.WriteHeader, hw] at hok

/-- C8 fails as stated. With no update bundle supplied, the `DELETE` of the
stored volume `v1` responds 200 and the `PUT` on `v1` that follows panics on the
read of the bundle, without a status line. And when a volume is stored under the
key `detail`, its `DELETE` responds 200 and the `GET` that follows is the list
request, which responds 200. -/
theorem C8_counterexample :
    ((serve noUpdateMocks (sampleState 0) (sampleRequest "DELETE" "/volumes/v1") "u1").w.status
        = some 200
      ∧ (serve noUpdateMocks
          (serve noUpdateMocks (sampleState 0) (sampleRequest "DELETE" "/volumes/v1") "u1").st
          (sampleRequest "PUT" "/volumes/v1") "u2").panicked = some "index out of range"
      ∧ (serve noUpdateMocks
          (serve noUpdateMocks (sampleState 0) (sampleRequest "DELETE" "/volumes/v1") "u1").st
          (sampleRequest "PUT" "/volumes/v1") "u2").w.status = none)
    ∧ ((serve sampleMocks detailState (sampleRequest "DELETE" "/volumes/detail") "u1").w.status
        = some 200
      ∧ (serve sampleMocks
          (serve sampleMocks detailState (sampleRequest "DELETE" "/volumes/detail") "u1").st
          (sampleRequest "GET" "/volumes/detail") "u2").w.status = some 200) := by
  decide

/-- C8, amended: after a `DELETE` that responded 200, a request on a path with
the same identifier responds 404 when it is a `DELETE`, when it is a `GET` and
the identifier is not `detail`, and when it is a `PUT` and an update bundle is
left for it; none of them panics. -/
theorem C8_delete_is_final (em : ExtraMocks) (s : HandlerState) (r : Request Body)
    (uuid : String) (r2 : Request Body) (uuid2 : String)
    (hm : r.Method = "DELETE") (hok : (serve em s r uuid).w.status = some 200)
    (hid : volIDOf r2.Path = volIDOf r.Path) :
    (r2.Method = "DELETE" →
        (serve em (serve em s r uuid).st r2 uuid2).w.status = some 404
          ∧ (serve em (serve em s r uuid).st r2 uuid2).panicked = none)
      ∧ (r2.Method = "GET" → volIDOf r.Path ≠ "detail" →
        (serve em (serve em s r uuid).st r2 uuid2).w.status = some 404
          ∧ (serve em (serve em s r uuid).st r2 uuid2).panicked = none)
      ∧ (r2.Method = "PUT" → (serve em s r uuid).st.updateCounter < em.Update.length →
        (serve em (serve em s r uuid).st r2 uuid2).w.status = some 404
          ∧ (serve em (serve em s r uuid).st r2 uuid2).panicked = none) := by
  have hgone : GoMap.lookup (serve em s r uuid).st.m.volumes (volIDOf r.Path) = none := by
    rw [serve_delete em s r uuid hm] at hok ⊢
    have := deleteVolume_status_ok s.m
      (ResponseWriter.fresh.HeaderAdd "Content-Type" "application/json") (volIDOf r.Path)
      rfl hok
    simp only [this]
    exact GoMap.lookup_delete_self _ _
  refine ⟨?_, ?_, ?_⟩
  · intro hm2
    rw [serve_delete em _ r2 uuid2 hm2, hid]
    simp [deleteVolume, hgone, ResponseWriter.WriteHeader, ResponseWriter.HeaderAdd,
      ResponseWriter.fresh]
  · intro hm2 hnd
    rw [serve_get em _ r2 uuid2 hm2 (by rw [hid]; exact hnd), hid]
    simp [getVolume, hgone, ResponseWriter.WriteHeader, ResponseWriter.HeaderAdd,
      ResponseWriter.fresh]
  · intro hm2 hlt
    obtain ⟨h1, _, h3, _⟩ := serve_put em (serve em s r uuid).st r2 uuid2
      (em.Update.get ⟨_, hlt⟩) hm2 (List.get?_eq_get hlt)
    rw [h1, h3, hid]
    simp [updateVolume, hgone, ResponseWriter.WriteHeader, ResponseWriter.HeaderAdd,
      ResponseWriter.fresh]

/-- C8, amended, on the sample state: after the `DELETE` of `v1`, a second
`DELETE`, a `GET` and a `PUT` on `v1` respond 404. -/
theorem C8_delete_is_final_witness :
    (serve sampleMocks (serve sampleMocks (sampleState 0)
        (sampleRequest "DELETE" "/volumes/v1") "u1").st
        (sampleRequest "DELETE" "/volumes/v1") "u2").w.status = some 404
      ∧ (serve sampleMocks (serve sampleMocks (sampleState 0)
        (sampleRequest "DELETE" "/volumes/v1") "u1").st
        (sampleRequest "GET" "/volumes/v1") "u2").w.status = some 404
      ∧ (serve sampleMocks (serve sampleMocks (sampleState 0)
        (sampleRequest "DELETE" "/volumes/v1") "u1").st
        (sampleRequest "PUT" "/volumes/v1") "u2").w.status = some 404 :=
  ⟨((C8_delete_is_final sampleMocks (sampleState 0) (sampleRequest "DELETE" "/volumes/v1") "u1"
      (sampleRequest "DELETE" "/volumes/v1") "u2" (by decide) (by decide) (by decide)).1
      (by decide)).1,
   ((C8_delete_is_final sampleMocks (sampleState 0) (sampleRequest "DELETE" "/volumes/v1") "u1"
      (sampleRequest "GET" "/volumes/v1") "u2" (by decide) (by decide) (by decide)).2.1
      (by decide) (by decide)).1,
   ((C8_delete_is_final sampleMocks (sampleState 0) (sampleRequest "DELETE" "/volumes/v1") "u1"
      (sampleRequest "PUT" "/volumes/v1") "u2" (by decide) (by decide) (by decide)).2.2
      (by decide) (by decide)).1⟩

/-- C9: for a decodable create request, `createVolume` returns without a panic
and stores under the generated identifier `g` a volume whose `ID` is `g`, whose
`Name`, `Size`, `AvailabilityZone`, `Metadata` and `VolumeType` are those of the
request and whose `CreatedAt` and `UpdatedAt` are those of the creation bundle;
`getVolume` for `g` then responds 200 with that volume, and the create response,
sent with status 202, carries the same volume. -/
theorem C9_create_then_get (m : MockClient) (body : Body) (mocks : CreateMocks) (g : String)
    (create : volumeCreateRequest) (hbody : body.create = some create) :
    (createVolume m ResponseWriter.fresh body mocks g).panicked = none
      ∧ ∃ v : Volume,
          GoMap.lookup (createVolume m ResponseWriter.fresh body mocks g).st.volumes g = some v
          ∧ v.ID = g
          ∧ v.Name = create.Volume.Name
          ∧ v.Size = create.Volume.Size
          ∧ v.AvailabilityZone = create.Volume.AvailabilityZone
          ∧ v.Metadata = create.Volume.Metadata
          ∧ v.VolumeType = create.Volume.VolumeType
          ∧ v.CreatedAt = mocks.CreatedAt
          ∧ v.UpdatedAt = mocks.UpdatedAt
          ∧ (getVolume (createVolume m ResponseWriter.fresh body mocks g).st
                ResponseWriter.fresh g).w.body = [Document.volume { Volume := extended v }]
          ∧ (getVolume (createVolume m ResponseWriter.fresh body mocks g).st
                ResponseWriter.fresh g).w.status = some 200
          ∧ (getVolume (createVolume m ResponseWriter.fresh body mocks g).st
                ResponseWriter.fresh g).panicked = none
          ∧ (createVolume m ResponseWriter.fresh body mocks g).w.body
              = [Document.volume { Volume := extended v }]
          ∧ (createVolume m ResponseWriter.fresh body mocks g).w.status = some 202 := by
  have hst : (createVolume m ResponseWriter.fresh body mocks g).st
      = { m with volumes := (GoMap.insert m.volumes g
            { Volume.zero with
              ID := g, Name := create.Volume.Name, Size := create.Volume.Size,
              AvailabilityZone := create.Volume.AvailabilityZone,
              Metadata := create.Volume.Metadata, VolumeType := create.Volume.VolumeType,
              CreatedAt := mocks.CreatedAt, UpdatedAt := mocks.UpdatedAt }) } := by
    simp [createVolume, hbody, MarshalVolume, AddMocksReplaceVolumes]
  have hlk : GoMap.lookup (createVolume m ResponseWriter.fresh body mocks g).st.volumes g
      = some { Volume.zero with
              ID := g, Name := create.Volume.Name, Size := create.Volume.Size,
              AvailabilityZone := create.Volume.AvailabilityZone,
              Metadata := create.Volume.Metadata, VolumeType := create.Volume.VolumeType,
              CreatedAt := mocks.CreatedAt, UpdatedAt := mocks.UpdatedAt } := by
    rw [hst]
    exact GoMap.lookup_insert_self _ _ _
  refine ⟨?_, _, hlk, rfl, rfl, rfl, rfl, rfl, rfl, rfl, rfl, ?_, ?_, ?_, ?_, ?_⟩
  · simp [createVolume, hbody, MarshalVolume, AddMocksReplaceVolumes]
  · unfold getVolume
    rw [hlk]
    simp [MarshalVolume, AddMocksReplaceVolumes, ResponseWriter.Write, ResponseWriter.fresh,
      extended]
  · unfold getVolume
    rw [hlk]
    simp [MarshalVolume, AddMocksReplaceVolumes, ResponseWriter.Write, ResponseWriter.fresh]
  · unfold getVolume
    rw [hlk]
    simp [MarshalVolume, AddMocksReplaceVolumes]
  · simp [createVolume, hbody, MarshalVolume, AddMocksReplaceVolumes, ResponseWriter.Write,
      ResponseWriter.WriteHeader, ResponseWriter.fresh, extended]
  · simp [createVolume, hbody, MarshalVolume, AddMocksReplaceVolumes, ResponseWriter.Write,
      ResponseWriter.WriteHeader, ResponseWriter.fresh]

/-- C9 on the sample store: the volume created under the identifier `u1` is read
back by `getVolume` with the name, size, zone, metadata and type of the request. -/
theorem C9_create_then_get_witness :
    ∃ v : Volume,
      GoMap.lookup (createVolume { volumes := bareStore, volumeTypes := [] } ResponseWriter.fresh
          (sampleBody [("k", "v")]) sampleMocks.Create "u1").st.volumes "u1" = some v
      ∧ v.ID = "u1" ∧ v.Name = "data" ∧ v.Size = 10 ∧ v.AvailabilityZone = "nova"
      ∧ v.Metadata = [("k", "v")] ∧ v.VolumeType = "standard"
      ∧ (getVolume (createVolume { volumes := bareStore, volumeTypes := [] } ResponseWriter.fresh
          (sampleBody [("k", "v")]) sampleMocks.Create "u1").st
            ResponseWriter.fresh "u1").w.body = [Document.volume { Volume := extended v }] := by
  obtain ⟨_, v, h1, h2, h3, h4, h5, h6, h7, _, _, h10, _⟩ :=
    C9_create_then_get { volumes := bareStore, volumeTypes := [] } (sampleBody [("k", "v")])
      sampleMocks.Create "u1" _ rfl
  exact ⟨v, h1, h2, h3, h4, h5, h6, h7, h10⟩

theorem body_WriteHeader {β : Type} (w : ResponseWriter β) (code : Nat) :
    (w.WriteHeader code).body = w.body := by
  unfold ResponseWriter.WriteHeader
  split <;> rfl

theorem getVolume_writes_no_list (m : MockClient) (w : ResponseWriter Document) (id : String)
    (hw : ∀ l, Document.volumes l ∉ w.body) :
    ∀ l, Document.volumes l ∉ (getVolume m w id).w.body := by
  intro l
  unfold getVolume
  split
  · simp [MarshalVolume, AddMocksReplaceVolumes, ResponseWriter.Write, hw l]
  · rw [body_WriteHeader]
    exact hw l

theorem createVolume_writes_no_list (m : MockClient) (w : ResponseWriter Document)
    (body : Body) (mocks : CreateMocks) (uuid : String)
    (hw : ∀ l, Document.volumes l ∉ w.body) :
    ∀ l, Document.volumes l ∉ (createVolume m w body mocks uuid).w.body := by
  intro l
  unfold createVolume
  split
  · exact hw l
  · simp [MarshalVolume, AddMocksReplaceVolumes, ResponseWriter.Write, body_WriteHeader, hw l]

theorem updateVolume_writes_no_list (m : MockClient) (w : ResponseWriter Document)
    (body : Body) (id : String) (mocks : UpdateMocks)
    (hw : ∀ l, Document.volumes l ∉ w.body) :
    ∀ l, Document.volumes l ∉ (updateVolume m w body id mocks).w.body := by
  intro l
  unfold updateVolume
  split
  · rw [body_WriteHeader]
    exact hw l
  · split
    · exact hw l
    · simp [MarshalVolume, AddMocksReplaceVolumes, ResponseWriter.Write, body_WriteHeader, hw l]

theorem deleteVolume_writes_no_list (m : MockClient) (w : ResponseWriter Document)
    (id : String) (hw : ∀ l, Document.volumes l ∉ w.body) :
    ∀ l, Document.volumes l ∉ (deleteVolume m w id).w.body := by
  intro l
  unfold deleteVolume
  split
  · rw [body_WriteHeader]
    exact hw l
  · rw [body_WriteHeader]
    exact hw l

theorem serve_list_only (em : ExtraMocks) (s : HandlerState) (r : Request Body) (uuid : String)
    (l : volumeListResponse) (h : Document.volumes l ∈ (serve em s r uuid).w.body) :
    r.Method = "GET" ∧ volIDOf r.Path = "detail" := by
  have hfresh : ∀ l, Document.volumes l ∉
      (ResponseWriter.fresh.HeaderAdd "Content-Type" "application/json" :
        ResponseWriter Document).body := by
    intro l
    simp [ResponseWriter.HeaderAdd, ResponseWriter.fresh]
  by_contra hnot
  apply absurd h
  unfold serve mockVolumes
  simp only
  split
  · rename_i hget
    split
    · rename_i hdet
      exact absurd ⟨hget, hdet⟩ hnot
    · exact getVolume_writes_no_list _ _ _ hfresh l
  · split
    · exact createVolume_writes_no_list _ _ _ _ _ hfresh l
    · split
      · split
        · exact hfresh l
        · split
          · exact updateVolume_writes_no_list _ _ _ _ _ hfresh l
          · exact updateVolume_writes_no_list _ _ _ _ _ hfresh l
      · split
        · exact deleteVolume_writes_no_list _ _ _ hfresh l
        · rw [body_WriteHeader]
          exact hfresh l

/-- C10 fails as stated: on the store that holds the volume `v1`, a `GET` on
`/volumes` and a `GET` on `/volumes/` respond 404 and write no body. -/
theorem C10_counterexample :
    (serve sampleMocks (sampleState 0) (sampleRequest "GET" "/volumes") "u1").w.status = some 404
      ∧ (serve sampleMocks (sampleState 0) (sampleRequest "GET" "/volumes") "u1").w.body = []
      ∧ (serve sampleMocks (sampleState 0) (sampleRequest "GET" "/volumes/") "u1").w.status
          = some 404
      ∧ (serve sampleMocks (sampleState 0) (sampleRequest "GET" "/volumes/") "u1").w.body
          = [] := by
  decide

/-- C10, amended: a `GET` whose path leaves the empty identifier is a lookup of
the empty identifier; when no volume is stored under it the response is 404
without a body, and the state is unchanged. The paths `/volumes` and `/volumes/`
leave the empty identifier. A `GET` whose path leaves `detail` responds 200 with
the list `filterVolumes` makes of the store and the query, and no other request
is answered with a list of volumes: a response that carries one belongs to a
`GET` whose path leaves `detail`. -/
theorem C10_get_empty_suffix (em : ExtraMocks) (s : HandlerState) (r : Request Body)
    (uuid : String) (hm : r.Method = "GET") (hid : volIDOf r.Path = "")
    (habs : GoMap.lookup s.m.volumes "" = none) :
    ((serve em s r uuid).w.status = some 404
        ∧ (serve em s r uuid).w.body = []
        ∧ (serve em s r uuid).st = s
        ∧ (serve em s r uuid).panicked = none)
      ∧ (volIDOf "/volumes" = "" ∧ volIDOf "/volumes/" = "")
      ∧ (∀ (r2 : Request Body) (uuid2 : String), r2.Method = "GET" → volIDOf r2.Path = "detail" →
          (serve em s r2 uuid2).w.status = some 200
            ∧ (serve em s r2 uuid2).w.body
                = [Document.volumes
                    { Volumes := (filterVolumes s.m.volumes r2.Form).map extended }]
            ∧ (serve em s r2 uuid2).st = s)
      ∧ ∀ (r3 : Request Body) (uuid3 : String) (l : volumeListResponse),
          Document.volumes l ∈ (serve em s r3 uuid3).w.body →
            r3.Method = "GET" ∧ volIDOf r3.Path = "detail" := by
  refine ⟨?_, ⟨by decide, by decide⟩, ?_, fun r3 uuid3 l h => serve_list_only em s r3 uuid3 l h⟩
  · rw [serve_get em s r uuid hm (by rw [hid]; decide), hid]
    simp [getVolume, habs, ResponseWriter.WriteHeader, ResponseWriter.HeaderAdd,
      ResponseWriter.fresh]
  · intro r2 uuid2 hm2 hid2
    rw [serve_list em s r2 uuid2 hm2 hid2]
    simp [listVolumes, MarshalVolumes_eq, ResponseWriter.WriteHeader, ResponseWriter.HeaderAdd,
      ResponseWriter.fresh, ResponseWriter.Write]

/-- C10, amended, on the sample state and the path `/volumes`: status 404, no
body. -/
theorem C10_get_empty_suffix_witness :
    (serve sampleMocks (sampleState 0) (sampleRequest "GET" "/volumes") "u1").w.status = some 404
      ∧ (serve sampleMocks (sampleState 0) (sampleRequest "GET" "/volumes") "u1").w.body = []
      ∧ (serve sampleMocks (sampleState 0) (sampleRequest "GET" "/volumes") "u1").st
          = sampleState 0
      ∧ (serve sampleMocks (sampleState 0) (sampleRequest "GET" "/volumes") "u1").panicked
          = none :=
  (C10_get_empty_suffix sampleMocks (sampleState 0) (sampleRequest "GET" "/volumes") "u1"
    (by decide) (by decide) (by decide)).1

end mockblockstorage

/-! ## The identifier read from the path -/

theorem stripAux_skip (pre : List Char) (l : List Char) (k : Nat) :
    stripAux pre l k = stripAux pre (l.drop k) 0 := by
  induction l generalizing k with
  | nil => simp [stripAux]
  | cons c cs ih =>
    cases k with
    | zero => rfl
    | succ k =>
      rw [List.drop_succ_cons, ← ih k]
      rfl

theorem stripAux_cons_zero (pre : List Char) (c : Char) (cs : List Char) :
    stripAux pre (c :: cs) 0
      = if pre.isPrefixOf (c :: cs) then
          if ((c :: cs).drop pre.length).head? = some '/' then stripAux pre cs pre.length
          else stripAux pre cs (pre.length - 1)
        else c :: stripAux pre cs 0 := by
  rw [stripAux]

theorem stripAux_of_absent (pre : List Char) (l : List Char) (hno : ¬ pre <:+: l) :
    stripAux pre l 0 = l := by
  induction l with
  | nil => rfl
  | cons c cs ih =>
    have hpre : pre.isPrefixOf (c :: cs) = false := by
      cases h : pre.isPrefixOf (c :: cs) with
      | false => rfl
      | true => exact absurd (List.isPrefixOf_iff_prefix.mp h).isInfix hno
    have hcs : ¬ pre <:+: cs := fun h => hno (h.trans (List.suffix_cons c cs).isInfix)
    rw [stripAux_cons_zero, hpre, if_neg (by simp), ih hcs]

theorem stripAux_leading (pre r : List Char) (hpre : pre ≠ []) :
    stripAux pre (pre ++ r) 0
      = if r.head? = some '/' then stripAux pre (r.drop 1) 0 else stripAux pre r 0 := by
  cases pre with
  | nil => exact absurd rfl hpre
  | cons c cs =>
    have hp : (c :: cs).isPrefixOf (c :: (cs ++ r)) = true :=
      List.isPrefixOf_iff_prefix.mpr ⟨r, rfl⟩
    have hd : (c :: (cs ++ r)).drop (c :: cs).length = r := by
      simp
    rw [List.cons_append, stripAux_cons_zero, if_pos hp, hd]
    split
    · rw [stripAux_skip]
      congr 1
      simp [List.drop_append]
    · rw [stripAux_skip]
      simp

namespace mockblockstorage

/-- C11 fails as stated: from the path `/volumes/a/volumes/b` the handler reads
`ab`; the second occurrence of `/volumes/` is removed as well, while the claim
gives `a/volumes/b`. -/
theorem C11_counterexample :
    volIDOf "/volumes/a/volumes/b" = "ab" ∧ volIDOf "/volumes/a/volumes/b" ≠ "a/volumes/b" := by
  decide

/-- C11, amended: for a path made of `/volumes` and a remainder in which
`/volumes` does not occur again, the identifier is the remainder without the
slash it may start with; so `/volumes` and `/volumes/` give the empty string, and
`/volumes/<id>` gives `<id>` for every `<id>` in which `/volumes` does not
occur. -/
theorem C11_volID_of_path (rest : String) (hno : ¬ "/volumes".data <:+: rest.data) :
    (volIDOf ("/volumes" ++ rest)
        = if rest.data.head? = some '/' then String.mk (rest.data.drop 1) else rest)
      ∧ volIDOf ("/volumes/" ++ rest) = rest
      ∧ volIDOf "/volumes" = "" ∧ volIDOf "/volumes/" = "" := by
  refine ⟨?_, ?_, by decide, by decide⟩
  · unfold volIDOf ReplaceAllString
    rw [String.data_append, stripAux_leading _ _ (by decide)]
    split
    · rw [stripAux_of_absent]
      intro h
      exact hno (h.trans (List.drop_suffix 1 rest.data).isInfix)
    · rw [stripAux_of_absent _ _ hno]
  · unfold volIDOf ReplaceAllString
    have hd : ("/volumes/" ++ rest).data = "/volumes".data ++ ('/' :: rest.data) := by
      rw [String.data_append]
      rfl
    rw [hd, stripAux_leading _ _ (by decide)]
    simp only [List.head?_cons, if_true, List.drop_succ_cons, List.drop_zero]
    rw [stripAux_of_absent _ _ hno]

/-- C11, amended, on the identifier `detail`: the path `/volumes/detail` gives
`detail`. -/
theorem C11_volID_of_path_witness :
    volIDOf ("/volumes/" ++ "detail") = "detail" :=
  (C11_volID_of_path "detail" (by decide)).2.1

/-- C12: with neither a `name` nor a `metadata` parameter, `filterVolumes` returns
the volume of every store entry, one per entry and in visiting order, so the
result is as long as the store. -/
theorem C12_filterVolumes_no_params (allVolumes : GoMap Volume) (vals : Values)
    (hname : GoMap.lookup vals "name" = none) (hmeta : GoMap.lookup vals "metadata" = none) :
    filterVolumes allVolumes vals = allVolumes.map Prod.snd
      ∧ (filterVolumes allVolumes vals).length = allVolumes.length := by
  have hpm : parsedMetadata vals = [] :=
    parsedMetadata_of_Get_empty vals (Get_of_lookup_none vals "metadata" hmeta)
  have hkeep : ∀ e : String × Volume, keeps vals e.2 = true := by
    intro e
    unfold keeps
    rw [hpm, Get_of_lookup_none vals "name" hname]
    simp [metadataMatch]
  have heq : filterVolumes allVolumes vals = allVolumes.map Prod.snd := by
    rw [filterVolumes_eq]
    congr 1
    exact List.filter_eq_self.mpr (fun e _ => hkeep e)
  exact ⟨heq, by rw [heq, List.length_map]⟩

/-- C12 on the store with volumes named `a`, `b`, `a` and an empty query: the
three volumes are returned. -/
theorem C12_filterVolumes_no_params_witness :
    filterVolumes abaStore []
        = [sampleVolume "1" "a" [], sampleVolume "2" "b" [], sampleVolume "3" "a" []]
      ∧ (filterVolumes abaStore []).length = 3 :=
  C12_filterVolumes_no_params abaStore [] (by decide) (by decide)

end mockblockstorage

/-! ## Deletion -/

theorem GoMap.delete_of_not_mem {α : Type} (m : GoMap α) (k : String)
    (h : k ∉ m.map Prod.fst) : GoMap.delete m k = m := by
  induction m with
  | nil => rfl
  | cons e rest ih =>
    obtain ⟨k1, v1⟩ := e
    simp only [List.map_cons, List.mem_cons, not_or] at h
    rw [GoMap.delete_cons, if_neg (Ne.symm h.1), ih h.2]

theorem GoMap.length_delete {α : Type} (m : GoMap α) (k : String) (v : α)
    (hnd : (m.map Prod.fst).Nodup) (h : GoMap.lookup m k = some v) :
    (GoMap.delete m k).length + 1 = m.length := by
  induction m with
  | nil => simp [GoMap.lookup] at h
  | cons e rest ih =>
    obtain ⟨k1, v1⟩ := e
    simp only [List.map_cons, List.nodup_cons] at hnd
    rw [GoMap.delete_cons]
    rw [GoMap.lookup_cons] at h
    split
    · rename_i hk
      subst hk
      rw [GoMap.delete_of_not_mem rest k1 hnd.1]
      rfl
    · rename_i hk
      rw [if_neg hk] at h
      simp only [List.length_cons]
      rw [ih hnd.2 h]

/-- C13: `deleteVolume` on a stored identifier sends status 200 and leaves the
store without the entries of that key, all other keys reading as before (one
entry fewer when the keys of the store are distinct, as they are in a map); on an
identifier that is not stored it sends 404 and leaves the store as it was.
`deleteServer` does the same with status 204. Neither writes a body nor panics. -/
theorem C13_delete_entry (m : mockblockstorage.MockClient)
    (w : ResponseWriter mockblockstorage.Document) (id : String)
    (m' : mockcompute.MockClient) (w' : ResponseWriter mockcompute.Document) (id' : String)
    (hw : w.status = none) (hw' : w'.status = none) :
    ((∀ v, GoMap.lookup m.volumes id = some v →
        (mockblockstorage.deleteVolume m w id).w.status = some 200
          ∧ (mockblockstorage.deleteVolume m w id).st.volumes
              = m.volumes.filter (fun e => decide (e.1 ≠ id))
          ∧ GoMap.lookup (mockblockstorage.deleteVolume m w id).st.volumes id = none
          ∧ (∀ k, k ≠ id → GoMap.lookup (mockblockstorage.deleteVolume m w id).st.volumes k
              = GoMap.lookup m.volumes k)
          ∧ ((m.volumes.map Prod.fst).Nodup →
              (mockblockstorage.deleteVolume m w id).st.volumes.length + 1 = m.volumes.length)
          ∧ (mockblockstorage.deleteVolume m w id).st.volumeTypes = m.volumeTypes)
      ∧ (GoMap.lookup m.volumes id = none →
        (mockblockstorage.deleteVolume m w id).w.status = some 404
          ∧ (mockblockstorage.deleteVolume m w id).st = m)
      ∧ (mockblockstorage.deleteVolume m w id).w.body = w.body
      ∧ (mockblockstorage.deleteVolume m w id).panicked = none)
    ∧ ((∀ v, GoMap.lookup m'.servers id' = some v →
        (mockcompute.deleteServer m' w' id').w.status = some 204
          ∧ (mockcompute.deleteServer m' w' id').st.servers
              = m'.servers.filter (fun e => decide (e.1 ≠ id'))
          ∧ GoMap.lookup (mockcompute.deleteServer m' w' id').st.servers id' = none
          ∧ (∀ k, k ≠ id' → GoMap.lookup (mockcompute.deleteServer m' w' id').st.servers k
              = GoMap.lookup m'.servers k)
          ∧ ((m'.servers.map Prod.fst).Nodup →
              (mockcompute.deleteServer m' w' id').st.servers.length + 1 = m'.servers.length)
          ∧ (mockcompute.deleteServer m' w' id').st.flavors = m'.flavors)
      ∧ (GoMap.lookup m'.servers id' = none →
        (mockcompute.deleteServer m' w' id').w.status = some 404
          ∧ (mockcompute.deleteServer m' w' id').st = m')
      ∧ (mockcompute.deleteServer m' w' id').w.body = w'.body
      ∧ (mockcompute.deleteServer m' w' id').panicked = none) := by
  refine ⟨⟨?_, ?_, ?_, ?_⟩, ⟨?_, ?_, ?_, ?_⟩⟩
  · intro v hv
    have hst : (mockblockstorage.deleteVolume m w id).st.volumes = GoMap.delete m.volumes id := by
      simp [mockblockstorage.deleteVolume, hv]
    refine ⟨?_, ?_, ?_, ?_, ?_, ?_⟩
    · simp [mockblockstorage.deleteVolume, hv, ResponseWriter.WriteHeader, hw]
    · rw [hst]
      rfl
    · rw [hst]
      exact GoMap.lookup_delete_self _ _
    · intro k hk
      rw [hst]
      exact GoMap.lookup_delete_ne _ _ _ hk
    · intro hnd
      rw [hst]
      exact GoMap.length_delete _ _ v hnd hv
    · simp [mockblockstorage.deleteVolume, hv]
  · intro hv
    simp [mockblockstorage.deleteVolume, hv, ResponseWriter.WriteHeader, hw]
  · unfold mockblockstorage.deleteVolume
    split <;> simp [ResponseWriter.WriteHeader, hw]
  · unfold mockblockstorage.deleteVolume
    split <;> rfl
  · intro v hv
    have hst : (mockcompute.deleteServer m' w' id').st.servers = GoMap.delete m'.servers id' := by
      simp [mockcompute.deleteServer, hv]
    refine ⟨?_, ?_, ?_, ?_, ?_, ?_⟩
    · simp [mockcompute.deleteServer, hv, ResponseWriter.WriteHeader, hw']
    · rw [hst]
      rfl
    · rw [hst]
      exact GoMap.lookup_delete_self _ _
    · intro k hk
      rw [hst]
      exact GoMap.lookup_delete_ne _ _ _ hk
    · intro hnd
      rw [hst]
      exact GoMap.length_delete _ _ v hnd hv
    · simp [mockcompute.deleteServer, hv]
  · intro hv
    simp [mockcompute.deleteServer, hv, ResponseWriter.WriteHeader, hw']
  · unfold mockcompute.deleteServer
    split <;> simp [ResponseWriter.WriteHeader, hw']
  · unfold mockcompute.deleteServer
    split <;> rfl

/-- C13 on the sample stores: deleting the volume `v1` sends 200 and empties the
store, deleting an absent volume sends 404; deleting the server `s3` sends 204
and leaves the two nodes. -/
theorem C13_delete_entry_witness :
    (mockblockstorage.deleteVolume { volumes := mockblockstorage.bareStore, volumeTypes := [] }
        ResponseWriter.fresh "v1").w.status = some 200
      ∧ (mockblockstorage.deleteVolume { volumes := mockblockstorage.bareStore, volumeTypes := [] }
        ResponseWriter.fresh "v1").st.volumes = []
      ∧ (mockcompute.deleteServer { servers := mockcompute.nodeStore, flavors := [] }
        ResponseWriter.fresh "s3").w.status = some 204
      ∧ (mockcompute.deleteServer { servers := mockcompute.nodeStore, flavors := [] }
        ResponseWriter.fresh "s3").st.servers
          = [("s1", mockcompute.sampleServer "s1" "node-1"),
             ("s2", mockcompute.sampleServer "s2" "node-2")] := by
  have h := C13_delete_entry { volumes := mockblockstorage.bareStore, volumeTypes := [] }
    ResponseWriter.fresh "v1" { servers := mockcompute.nodeStore, flavors := [] }
    ResponseWriter.fresh "s3" rfl rfl
  obtain ⟨hv1, hv2, _⟩ := h.1.1 (mockblockstorage.sampleVolume "v1" "data" []) (by decide)
  obtain ⟨hs1, hs2, _⟩ := h.2.1 (mockcompute.sampleServer "s3" "bastion") (by decide)
  refine ⟨hv1, ?_, hs1, ?_⟩
  · rw [hv2]
    decide
  · rw [hs2]
    decide

/-! ## Methods without a handler -/

/-- C14: a request whose method is none of `GET`, `POST`, `PUT` and `DELETE`,
whatever its path, is answered 400 by the volumes handler and by the servers
handler, with no body and no panic, and leaves store and counter as they were;
the volume-types handler does so for every method other than `GET`. -/
theorem C14_unknown_method (em : mockblockstorage.ExtraMocks)
    (s : mockblockstorage.HandlerState) (r : Request mockblockstorage.Body) (uuid : String)
    (em' : mockcompute.ExtraMocks) (s' : mockcompute.HandlerState)
    (r' : Request mockcompute.Body) (uuid' : String)
    (m : mockblockstorage.MockClient) (rt : Request mockblockstorage.Body)
    (h : r.Method ≠ "GET" ∧ r.Method ≠ "POST" ∧ r.Method ≠ "PUT" ∧ r.Method ≠ "DELETE")
    (h' : r'.Method ≠ "GET" ∧ r'.Method ≠ "POST" ∧ r'.Method ≠ "PUT" ∧ r'.Method ≠ "DELETE")
    (ht : rt.Method ≠ "GET") :
    ((mockblockstorage.serve em s r uuid).w.status = some 400
        ∧ (mockblockstorage.serve em s r uuid).w.body = []
        ∧ (mockblockstorage.serve em s r uuid).st = s
        ∧ (mockblockstorage.serve em s r uuid).panicked = none)
      ∧ ((mockcompute.serve em' s' r' uuid').w.status = some 400
        ∧ (mockcompute.serve em' s' r' uuid').w.body = []
        ∧ (mockcompute.serve em' s' r' uuid').st = s'
        ∧ (mockcompute.serve em' s' r' uuid').panicked = none)
      ∧ ((mockblockstorage.typesHandler m ResponseWriter.fresh rt).w.status = some 400
        ∧ (mockblockstorage.typesHandler m ResponseWriter.fresh rt).w.body = []
        ∧ (mockblockstorage.typesHandler m ResponseWriter.fresh rt).st = m
        ∧ (mockblockstorage.typesHandler m ResponseWriter.fresh rt).panicked = none) := by
  obtain ⟨h1, h2, h3, h4⟩ := h
  obtain ⟨h1', h2', h3', h4'⟩ := h'
  refine ⟨?_, ?_, ?_⟩
  · simp [mockblockstorage.serve, mockblockstorage.mockVolumes, h1, h2, h3, h4,
      ResponseWriter.WriteHeader, ResponseWriter.HeaderAdd, ResponseWriter.fresh]
  · simp [mockcompute.serve, mockcompute.mockServers, h1', h2', h3', h4',
      ResponseWriter.WriteHeader, ResponseWriter.HeaderAdd, ResponseWriter.fresh]
  · simp [mockblockstorage.typesHandler, ht,
      ResponseWriter.WriteHeader, ResponseWriter.HeaderAdd, ResponseWriter.fresh]

/-- C14 on `PATCH` requests and the sample states: each handler answers 400. -/
theorem C14_unknown_method_witness :
    (mockblockstorage.serve mockblockstorage.sampleMocks (mockblockstorage.sampleState 0)
        (mockblockstorage.sampleRequest "PATCH" "/volumes/v1") "u1").w.status = some 400
      ∧ (mockcompute.serve mockcompute.sampleMocks
        { m := { servers := mockcompute.nodeStore, flavors := [] }, updateCounter := 0 }
        (mockcompute.sampleRequest "PATCH" "/servers/s1") "u1").w.status = some 400
      ∧ (mockblockstorage.typesHandler { volumes := [], volumeTypes := [] } ResponseWriter.fresh
        (mockblockstorage.sampleRequest "POST" "/types")).w.status = some 400 := by
  have h := C14_unknown_method mockblockstorage.sampleMocks (mockblockstorage.sampleState 0)
    (mockblockstorage.sampleRequest "PATCH" "/volumes/v1") "u1" mockcompute.sampleMocks
    { m := { servers := mockcompute.nodeStore, flavors := [] }, updateCounter := 0 }
    (mockcompute.sampleRequest "PATCH" "/servers/s1") "u1"
    { volumes := [], volumeTypes := [] } (mockblockstorage.sampleRequest "POST" "/types")
    (by decide) (by decide) (by decide)
  exact ⟨h.1.1, h.2.1.1, h.2.2.1⟩

/-! ## The seeded volume type -/

namespace mockblockstorage

/-- C17: after the seeding step of `mockTypes` the key `standard` is stored; an
entry already stored under it is left as it was, and the whole client with it;
otherwise the key holds the type with `ID` and `Name` `standard`; every other
key reads as before and the volumes are untouched; a second seeding step changes
nothing. -/
theorem C17_seed_standard (m : MockClient) :
    (GoMap.lookup (mockTypes m).volumeTypes "standard").isSome = true
      ∧ (∀ t, GoMap.lookup m.volumeTypes "standard" = some t →
          mockTypes m = m ∧ GoMap.lookup (mockTypes m).volumeTypes "standard" = some t)
      ∧ (GoMap.lookup m.volumeTypes "standard" = none →
          GoMap.lookup (mockTypes m).volumeTypes "standard"
            = some { ID := "standard", Name := "standard" })
      ∧ (∀ k, k ≠ "standard" →
          GoMap.lookup (mockTypes m).volumeTypes k = GoMap.lookup m.volumeTypes k)
      ∧ (mockTypes m).volumes = m.volumes
      ∧ mockTypes (mockTypes m) = mockTypes m := by
  have hsome : ∀ (x : MockClient) (t : VolumeType),
      GoMap.lookup x.volumeTypes "standard" = some t → mockTypes x = x := by
    intro x t ht
    simp [mockTypes, seedTypes, ht]
  have hnone : GoMap.lookup m.volumeTypes "standard" = none →
      mockTypes m
        = { m with
            volumeTypes := (GoMap.insert m.volumeTypes "standard"
              { ID := "standard", Name := "standard" }) } := by
    intro hn
    simp [mockTypes, seedTypes, hn]
  have hstd : ∀ x : MockClient, GoMap.lookup x.volumeTypes "standard" = none →
      GoMap.lookup (mockTypes x).volumeTypes "standard"
        = some { ID := "standard", Name := "standard" } := by
    intro x hx
    simp only [mockTypes, seedTypes, hx]
    exact GoMap.lookup_insert_self _ _ _
  cases hl : GoMap.lookup m.volumeTypes "standard" with
  | some t =>
    have hm := hsome m t hl
    refine ⟨by rw [hm, hl]; rfl, ?_, ?_, ?_, ?_, ?_⟩
    · intro t' ht'
      exact ⟨hm, by rw [hm, hl]; exact ht'⟩
    · intro hn
      cases hn
    · intro k _
      rw [hm]
    · rw [hm]
    · rw [hm, hm]
  | none =>
    have hlk := hstd m hl
    refine ⟨by rw [hlk]; rfl, ?_, ?_, ?_, ?_, ?_⟩
    · intro t ht
      cases ht
    · intro _
      exact hlk
    · intro k hk
      rw [hnone hl]
      exact GoMap.lookup_insert_ne _ _ _ _ hk
    · rw [hnone hl]
    · exact hsome _ _ hlk

/-- C17 on a client without volume types and on one that holds its own
`standard`: the first gains the default entry, the second is left as it was. -/
theorem C17_seed_standard_witness :
    GoMap.lookup (mockTypes { volumes := [], volumeTypes := [] }).volumeTypes "standard"
        = some { ID := "standard", Name := "standard" }
      ∧ mockTypes { volumes := [], volumeTypes := [("standard", { ID := "s", Name := "fast" })] }
        = { volumes := [], volumeTypes := [("standard", { ID := "s", Name := "fast" })] } :=
  ⟨(C17_seed_standard { volumes := [], volumeTypes := [] }).2.2.1 (by decide),
   ((C17_seed_standard
      { volumes := [], volumeTypes := [("standard", { ID := "s", Name := "fast" })] }).2.1
      { ID := "s", Name := "fast" } (by decide)).1⟩

end mockblockstorage

/-! ## The servers handler -/

namespace GoMap

theorem insert_of_lookup_none {α : Type} (m : GoMap α) (k : String) (v : α)
    (h : lookup m k = none) : insert m k v = m ++ [(k, v)] := by
  induction m with
  | nil => rfl
  | cons e rest ih =>
    obtain ⟨k1, v1⟩ := e
    rw [lookup_cons] at h
    by_cases hk : k1 = k
    · rw [if_pos hk] at h
      cases h
    · rw [if_neg hk] at h
      rw [insert_cons, if_neg hk, ih h]
      rfl

end GoMap

namespace mockcompute

theorem serve_detail (em : ExtraMocks) (s : HandlerState) (r : Request Body) (uuid : String)
    (hm : r.Method = "GET") (hid : serverIDOf r.Path = "detail") :
    (serve em s r uuid).w
      = (getServer s.m
          (listServers s.m (ResponseWriter.fresh.HeaderAdd "Content-Type" "application/json")
            r.Form).w "detail").w := by
  unfold serve mockServers
  simp only [hm, hid, if_true]
  simp [listServers, MarshalServers_eq]

theorem serve_get_calls (em : ExtraMocks) (s : HandlerState) (r : Request Body)
    (uuid : String) (hm : r.Method = "GET") :
    (serve em s r uuid).w = ResponseWriter.fresh.replay (getCalls s r) := by
  unfold serve mockServers getCalls
  simp only [hm, if_true, MarshalServers_eq, listServers]
  split
  · simp only [getServer, getServerCalls, MarshalServer, AddMocksReplaceServers]
    split <;> rfl
  · simp only [getServer, getServerCalls, MarshalServer, AddMocksReplaceServers]
    split <;> rfl

/-- C15, the code at the failing input: on the store with the servers `node-1`,
`node-2` and `bastion`, the handler serving `GET /servers/detail` sets the content
type, writes the list and then, `getServer` having looked the identifier `detail`
up and not found it, calls `WriteHeader(404)`. These calls are the handler's (the
writer they leave is the one the handler returns); the status line is already
sent when the last one is made, so the response keeps status 200 and the list as
its body. -/
theorem C15_detail_runs_getServer :
    getCalls { m := { servers := nodeStore, flavors := [] }, updateCounter := 0 }
        (sampleRequest "GET" "/servers/detail")
      = [WriterCall.HeaderAdd "Content-Type" "application/json",
         WriterCall.Write (Document.servers
           { Servers := [extended (sampleServer "s1" "node-1"),
                         extended (sampleServer "s2" "node-2"),
                         extended (sampleServer "s3" "bastion")] }),
         WriterCall.WriteHeader 404]
      ∧ (serve sampleMocks { m := { servers := nodeStore, flavors := [] }, updateCounter := 0 }
          (sampleRequest "GET" "/servers/detail") "u1").w
        = ResponseWriter.fresh.replay
            (getCalls { m := { servers := nodeStore, flavors := [] }, updateCounter := 0 }
              (sampleRequest "GET" "/servers/detail"))
      ∧ getServerCalls { servers := nodeStore, flavors := [] } "detail"
        = [WriterCall.WriteHeader 404]
      ∧ (serve sampleMocks { m := { servers := nodeStore, flavors := [] }, updateCounter := 0 }
          (sampleRequest "GET" "/servers/detail") "u1").w.status = some 200
      ∧ (serve sampleMocks { m := { servers := nodeStore, flavors := [] }, updateCounter := 0 }
          (sampleRequest "GET" "/servers/detail") "u1").w.body
        = [Document.servers
            { Servers := [extended (sampleServer "s1" "node-1"),
                          extended (sampleServer "s2" "node-2"),
                          extended (sampleServer "s3" "bastion")] }] := by
  decide

/-- C16: for a stored identifier and a decodable body, whatever `updateServer`
does, the server stored under the identifier afterwards has the `ID`,
`Metadata`, `Status`, `Addresses`, `SecurityGroups`, `Created`, `LaunchedAt` and
the remaining fields other than `Name`, `Updated` and `Flavor` of the prior one;
every other key reads as before, the identifiers in the store are the same ones
in the same order, and the flavors of the client are untouched. When the prior
server has a flavor map, the call returns and the stored server is the prior one
with the name of the request, the time of update of the bundle and the flavor
map overwritten from the bundle; when its flavor map is nil, the call panics on
the first assignment into it and the store is as before. -/
theorem C16_updateServer_frame (m : MockClient) (w : ResponseWriter Document) (body : Body)
    (serverID : String) (mocks : UpdateMocks) (old : Server) (update : serverUpdateRequest)
    (hold : GoMap.lookup m.servers serverID = some old) (hbody : body.update = some update) :
    (∀ v', GoMap.lookup (updateServer m w body serverID mocks).st.servers serverID = some v' →
        v'.ID = old.ID ∧ v'.Metadata = old.Metadata ∧ v'.Status = old.Status
          ∧ v'.Addresses = old.Addresses ∧ v'.SecurityGroups = old.SecurityGroups
          ∧ v'.Created = old.Created ∧ v'.LaunchedAt = old.LaunchedAt
          ∧ v'.TenantID = old.TenantID ∧ v'.UserID = old.UserID ∧ v'.HostID = old.HostID
          ∧ v'.Progress = old.Progress ∧ v'.AccessIPv4 = old.AccessIPv4
          ∧ v'.AccessIPv6 = old.AccessIPv6 ∧ v'.KeyName = old.KeyName
          ∧ v'.AdminPass = old.AdminPass ∧ v'.Tags = old.Tags)
      ∧ (∀ k, k ≠ serverID →
          GoMap.lookup (updateServer m w body serverID mocks).st.servers k
            = GoMap.lookup m.servers k)
      ∧ (updateServer m w body serverID mocks).st.servers.map Prod.fst
          = m.servers.map Prod.fst
      ∧ (updateServer m w body serverID mocks).st.flavors = m.flavors
      ∧ (∀ flavor, old.Flavor = some flavor →
          (updateServer m w body serverID mocks).panicked = none
            ∧ GoMap.lookup (updateServer m w body serverID mocks).st.servers serverID
                = some { old with Name := update.Server.Name, Updated := mocks.Updated,
                                  Flavor := some (setFlavor flavor mocks.Flavor) })
      ∧ (old.Flavor = none →
          (updateServer m w body serverID mocks).panicked = some "assignment to entry in nil map"
            ∧ (updateServer m w body serverID mocks).st = m) := by
  have hidx : GoMap.index Server.zero m.servers serverID = old := by
    simp [GoMap.index, hold]
  cases hf : old.Flavor with
  | none =>
    have hst : (updateServer m w body serverID mocks).st = m := by
      simp [updateServer, hold, hbody, hidx, hf]
    refine ⟨?_, ?_, ?_, ?_, ?_, ?_⟩
    · intro v' hv'
      rw [hst, hold] at hv'
      cases hv'
      simp
    · intro k _
      rw [hst]
    · rw [hst]
    · rw [hst]
    · intro flavor hfl
      cases hfl
    · intro _
      exact ⟨by simp [updateServer, hold, hbody, hidx, hf], hst⟩
  | some flavor =>
    have hst : (updateServer m w body serverID mocks).st
        = { m with servers := (GoMap.insert m.servers serverID
              { old with Name := update.Server.Name, Updated := mocks.Updated,
                         Flavor := some (setFlavor flavor mocks.Flavor) }) } := by
      simp [updateServer, hold, hbody, hidx, hf, MarshalServer, AddMocksReplaceServers]
    have hlk : GoMap.lookup (updateServer m w body serverID mocks).st.servers serverID
        = some { old with Name := update.Server.Name, Updated := mocks.Updated,
                          Flavor := some (setFlavor flavor mocks.Flavor) } := by
      rw [hst]
      exact GoMap.lookup_insert_self _ _ _
    refine ⟨?_, ?_, ?_, ?_, ?_, ?_⟩
    · intro v' hv'
      rw [hlk] at hv'
      cases hv'
      simp
    · intro k hk
      rw [hst]
      exact GoMap.lookup_insert_ne _ _ _ _ hk
    · rw [hst]
      exact GoMap.keys_insert_of_lookup _ _ _ _ hold
    · rw [hst]
    · intro flavor' hfl
      cases hfl
      exact ⟨by simp [updateServer, hold, hbody, hidx, hf, MarshalServer,
        AddMocksReplaceServers], hlk⟩
    · intro hn
      cases hn

/-- C16 on the sample store: updating `s1` with the first sample bundle leaves
its identifier and status as they were, and the server `s2` as it was. -/
theorem C16_updateServer_frame_witness :
    (∀ v', GoMap.lookup (updateServer { servers := nodeStore, flavors := [] }
          ResponseWriter.fresh sampleBody "s1"
          { Updated := sampleTime 2, Flavor := Flavor.zero }).st.servers "s1" = some v' →
        v'.ID = "s1" ∧ v'.Status = "")
      ∧ GoMap.lookup (updateServer { servers := nodeStore, flavors := [] }
          ResponseWriter.fresh sampleBody "s1"
          { Updated := sampleTime 2, Flavor := Flavor.zero }).st.servers "s2"
        = some (sampleServer "s2" "node-2") := by
  have h := C16_updateServer_frame { servers := nodeStore, flavors := [] } ResponseWriter.fresh
    sampleBody "s1" { Updated := sampleTime 2, Flavor := Flavor.zero }
    (sampleServer "s1" "node-1")
    { Server := { Name := "renamed", AccessIPv4 := "", AccessIPv6 := "" } }
    (by decide) (by decide)
  refine ⟨?_, ?_⟩
  · intro v' hv'
    obtain ⟨h1, _, h3, _⟩ := h.1 v' hv'
    exact ⟨h1, h3⟩
  · rw [h.2.1 "s2" (by decide)]
    decide

theorem createServer_of_networks (m : MockClient) (w : ResponseWriter Document) (body : Body)
    (mocks : CreateMocks) (uuid : String) (create : serverCreateRequest)
    (hbody : body.create = some create) (hnet : create.Server.Networks ≠ []) :
    (createServer m w body mocks uuid).st
        = { m with servers := GoMap.insert m.servers uuid (createdServer m create mocks uuid) }
      ∧ (createServer m w body mocks uuid).w
          = (w.WriteHeader 202).Write
              (Document.server { Server := extended (createdServer m create mocks uuid) })
      ∧ (createServer m w body mocks uuid).panicked = none := by
  have hlen : ¬ create.Server.Networks.length = 0 := by
    intro h
    exact hnet (List.length_eq_zero.mp h)
  refine ⟨?_, ?_, ?_⟩
  · simp only [createServer, hbody, hlen, if_false, MarshalServer, AddMocksReplaceServers]
    rfl
  · simp only [createServer, hbody, hlen, if_false, MarshalServer, AddMocksReplaceServers,
      extended]
    rfl
  · simp only [createServer, hbody, hlen, if_false, MarshalServer, AddMocksReplaceServers]

/-- C20: for a decodable create request without networks, `createServer` sends
status 400, writes no body, leaves the client as it was and does not depend on
the identifier that would be generated; for one with at least one network it
sends 202 and stores under the generated identifier a server whose `Status` is
`ACTIVE`, every other key reading as before: the store is the prior one with that
one entry added, the generated identifier being new to the store. -/
theorem C20_createServer_networks (m : MockClient) (w : ResponseWriter Document) (body : Body)
    (mocks : CreateMocks) (uuid : String) (create : serverCreateRequest)
    (hw : w.status = none) (hbody : body.create = some create) :
    (create.Server.Networks = [] →
        (createServer m w body mocks uuid).w.status = some 400
          ∧ (createServer m w body mocks uuid).w.body = w.body
          ∧ (createServer m w body mocks uuid).st = m
          ∧ (createServer m w body mocks uuid).panicked = none
          ∧ ∀ uuid', createServer m w body mocks uuid' = createServer m w body mocks uuid)
      ∧ (create.Server.Networks ≠ [] →
        (createServer m w body mocks uuid).w.status = some 202
          ∧ (createServer m w body mocks uuid).panicked = none
          ∧ (createServer m w body mocks uuid).st.flavors = m.flavors
          ∧ ∃ v : Server,
              GoMap.lookup (createServer m w body mocks uuid).st.servers uuid = some v
              ∧ v.Status = "ACTIVE" ∧ v.ID = uuid
              ∧ (∀ k, k ≠ uuid →
                  GoMap.lookup (createServer m w body mocks uuid).st.servers k
                    = GoMap.lookup m.servers k)
              ∧ (GoMap.lookup m.servers uuid = none →
                  (createServer m w body mocks uuid).st.servers = m.servers ++ [(uuid, v)]
                    ∧ (createServer m w body mocks uuid).st.servers.length
                        = m.servers.length + 1)) := by
  refine ⟨?_, ?_⟩
  · intro hnet
    have hlen : create.Server.Networks.length = 0 := by rw [hnet]; rfl
    refine ⟨?_, ?_, ?_, ?_, ?_⟩
    · simp [createServer, hbody, hlen, ResponseWriter.WriteHeader, hw]
    · simp [createServer, hbody, hlen, ResponseWriter.WriteHeader, hw]
    · simp [createServer, hbody, hlen]
    · simp [createServer, hbody, hlen]
    · intro uuid'
      simp [createServer, hbody, hlen]
  · intro hnet
    obtain ⟨hst, hwr, hp⟩ := createServer_of_networks m w body mocks uuid create hbody hnet
    refine ⟨?_, hp, by rw [hst], createdServer m create mocks uuid, ?_, rfl, rfl, ?_, ?_⟩
    · rw [hwr]
      simp [ResponseWriter.WriteHeader, ResponseWriter.Write, hw]
    · rw [hst]
      exact GoMap.lookup_insert_self _ _ _
    · intro k hk
      rw [hst]
      exact GoMap.lookup_insert_ne _ _ _ _ hk
    · intro hfresh
      rw [hst]
      rw [GoMap.insert_of_lookup_none _ _ _ hfresh]
      exact ⟨rfl, List.length_append _ _⟩

/-- C20 on the sample store: a create request without networks is answered 400
and leaves the three servers; the sample create request, which names one port,
is answered 202 and a fourth server is stored. -/
theorem C20_createServer_networks_witness :
    ((createServer { servers := nodeStore, flavors := [] } ResponseWriter.fresh
        { create := some { Server := { (default : CreateServer) with Networks := [] } },
          update := none }
        sampleMocks.Create "u1").w.status = some 400
      ∧ (createServer { servers := nodeStore, flavors := [] } ResponseWriter.fresh
        { create := some { Server := { (default : CreateServer) with Networks := [] } },
          update := none }
        sampleMocks.Create "u1").st = { servers := nodeStore, flavors := [] })
    ∧ ((createServer { servers := nodeStore, flavors := [] } ResponseWriter.fresh sampleBody
        sampleMocks.Create "u1").w.status = some 202
      ∧ (createServer { servers := nodeStore, flavors := [] } ResponseWriter.fresh sampleBody
        sampleMocks.Create "u1").st.servers.length = 4) := by
  have h0 := (C20_createServer_networks { servers := nodeStore, flavors := [] }
    ResponseWriter.fresh
    { create := some { Server := { (default : CreateServer) with Networks := [] } },
      update := none }
    sampleMocks.Create "u1" _ rfl rfl).1 rfl
  have h1 := (C20_createServer_networks { servers := nodeStore, flavors := [] }
    ResponseWriter.fresh sampleBody sampleMocks.Create "u1" _ rfl rfl).2 (by decide)
  obtain ⟨hs, _, _, v, _, _, _, _, hadd⟩ := h1
  exact ⟨⟨h0.1, h0.2.2.1⟩, hs, (hadd (by decide)).2⟩

end mockcompute

/-! ## The creation bundle -/

namespace mockblockstorage

theorem serve_post (em : ExtraMocks) (s : HandlerState) (r : Request Body) (uuid : String)
    (create : volumeCreateRequest) (hm : r.Method = "POST")
    (hbody : r.Body.create = some create) :
    (serve em s r uuid).panicked = none
      ∧ (serve em s r uuid).st.updateCounter = s.updateCounter
      ∧ StampedBy em (serve em s r uuid).st uuid
      ∧ ∀ k, k ≠ uuid → GoMap.lookup (serve em s r uuid).st.m.volumes k
          = GoMap.lookup s.m.volumes k := by
  have hst : (serve em s r uuid).st
      = { s with m := (createVolume s.m
            (ResponseWriter.fresh.HeaderAdd "Content-Type" "application/json") r.Body em.Create
            uuid).st } := by
    unfold serve mockVolumes
    simp only [hm]
    simp only [show ("POST" : String) ≠ "GET" by decide, if_false, if_true]
  have hp : (serve em s r uuid).panicked = none := by
    unfold serve mockVolumes
    simp only [hm]
    simp only [show ("POST" : String) ≠ "GET" by decide, if_false, if_true]
    simp [createVolume, hbody, MarshalVolume, AddMocksReplaceVolumes]
  have hvol : (createVolume s.m
      (ResponseWriter.fresh.HeaderAdd "Content-Type" "application/json") r.Body em.Create
      uuid).st.volumes
      = GoMap.insert s.m.volumes uuid (createdVolume create em.Create uuid) := by
    simp [createVolume, hbody, MarshalVolume, AddMocksReplaceVolumes, createdVolume]
  refine ⟨hp, by rw [hst], ?_, ?_⟩
  · refine ⟨createdVolume create em.Create uuid, ?_, rfl, rfl⟩
    rw [hst]
    simp only [hvol]
    exact GoMap.lookup_insert_self _ _ _
  · intro k hk
    rw [hst]
    simp only [hvol]
    exact GoMap.lookup_insert_ne _ _ _ _ hk

theorem serveAll_creates (em : ExtraMocks) (reqs : List (Request Body × String))
    (hreqs : ∀ q ∈ reqs, q.1.Method = "POST" ∧ q.1.Body.create.isSome = true)
    (s : HandlerState) :
    ∃ s', serveAll em s reqs = some s'
      ∧ (∀ q ∈ reqs, StampedBy em s' q.2)
      ∧ (∀ id, StampedBy em s id → StampedBy em s' id) := by
  induction reqs generalizing s with
  | nil => exact ⟨s, rfl, by simp, fun _ h => h⟩
  | cons q rest ih =>
    obtain ⟨r, uuid⟩ := q
    obtain ⟨hm, hb⟩ := hreqs (r, uuid) (List.mem_cons_self _ _)
    obtain ⟨create, hcreate⟩ := Option.isSome_iff_exists.mp hb
    obtain ⟨hp, _, hnew, hother⟩ := serve_post em s r uuid create hm hcreate
    obtain ⟨s', hrun, hall, hkeep⟩ :=
      ih (fun q hq => hreqs q (List.mem_cons_of_mem _ hq)) (serve em s r uuid).st
    refine ⟨s', ?_, ?_, ?_⟩
    · simp only [serveAll, hp]
      exact hrun
    · intro q hq
      rcases List.mem_cons.mp hq with rfl | hq
      · exact hkeep _ hnew
      · exact hall q hq
    · intro id hid
      apply hkeep
      by_cases hk : id = uuid
      · rw [hk]
        exact hnew
      · obtain ⟨v, hv, h1, h2⟩ := hid
        exact ⟨v, by rw [hother id hk]; exact hv, h1, h2⟩

/-- C18 fails as stated: two create requests served one after the other store
two volumes with the same `CreatedAt` and `UpdatedAt`, those of the one creation
bundle the handler holds; the second request finds no second bundle. -/
theorem C18_counterexample :
    (serveAll sampleMocks (sampleState 0)
        [(sampleRequest "POST" "/volumes", "u1"), (sampleRequest "POST" "/volumes", "u2")]).map
      (fun s => ((GoMap.lookup s.m.volumes "u1").map (fun v => (v.CreatedAt, v.UpdatedAt)),
                 (GoMap.lookup s.m.volumes "u2").map (fun v => (v.CreatedAt, v.UpdatedAt))))
      = some (some (sampleMocks.Create.CreatedAt, sampleMocks.Create.UpdatedAt),
              some (sampleMocks.Create.CreatedAt, sampleMocks.Create.UpdatedAt)) := by
  decide

/-- C18, amended: the volumes handler holds one creation bundle, which no request
consumes: every sequence of decodable create requests, from any state, is served
to its end, and afterwards the volume stored under each generated identifier has
the `CreatedAt` and `UpdatedAt` of that one bundle. -/
theorem C18_one_creation_bundle (em : ExtraMocks) (s : HandlerState)
    (reqs : List (Request Body × String))
    (hreqs : ∀ q ∈ reqs, q.1.Method = "POST" ∧ q.1.Body.create.isSome = true) :
    ∃ s', serveAll em s reqs = some s'
      ∧ ∀ q ∈ reqs, ∃ v, GoMap.lookup s'.m.volumes q.2 = some v
          ∧ v.CreatedAt = em.Create.CreatedAt ∧ v.UpdatedAt = em.Create.UpdatedAt := by
  obtain ⟨s', hrun, hall, _⟩ := serveAll_creates em reqs hreqs s
  exact ⟨s', hrun, hall⟩

/-- C18, amended, on two create requests and the sample bundles: both volumes are
stamped with the first day of January 2020. -/
theorem C18_one_creation_bundle_witness :
    ∃ s', serveAll sampleMocks (sampleState 0)
        [(sampleRequest "POST" "/volumes", "u1"), (sampleRequest "POST" "/volumes", "u2")]
          = some s'
      ∧ ∀ q ∈ [(sampleRequest "POST" "/volumes", "u1"), (sampleRequest "POST" "/volumes", "u2")],
          ∃ v, GoMap.lookup s'.m.volumes q.2 = some v
            ∧ v.CreatedAt = sampleTime 1 ∧ v.UpdatedAt = sampleTime 1 :=
  C18_one_creation_bundle sampleMocks (sampleState 0)
    [(sampleRequest "POST" "/volumes", "u1"), (sampleRequest "POST" "/volumes", "u2")]
    (by decide)

end mockblockstorage

/-! ## Timestamps -/

theorem length_lastDigits (width n : Nat) : (lastDigits width n).length = width := by
  induction width generalizing n with
  | zero => rfl
  | succ w ih => simp [lastDigits, ih]

theorem digitChar_toNat (d : Nat) : (digitChar d).toNat - 48 = d % 10 := by
  have h : d % 10 < 10 := Nat.mod_lt _ (by decide)
  unfold digitChar
  generalize d % 10 = x at h
  interval_cases x <;> rfl

theorem digitChar_isDigit (d : Nat) : '0' ≤ digitChar d ∧ digitChar d ≤ '9' := by
  have h : d % 10 < 10 := Nat.mod_lt _ (by decide)
  unfold digitChar
  generalize d % 10 = x at h
  interval_cases x <;> decide

theorem lastDigits_isDigit (width n : Nat) :
    ∀ c ∈ lastDigits width n, '0' ≤ c ∧ c ≤ '9' := by
  induction width generalizing n with
  | zero => simp [lastDigits]
  | succ w ih =>
    intro c hc
    simp only [lastDigits, List.mem_append, List.mem_singleton] at hc
    rcases hc with hc | rfl
    · exact ih _ c hc
    · exact digitChar_isDigit _

theorem digitsValue_append (cs : List Char) (c : Char) :
    digitsValue (cs ++ [c]) = digitsValue cs * 10 + (c.toNat - 48) := by
  simp [digitsValue, List.foldl_append]

theorem digitsValue_lastDigits (width n : Nat) :
    digitsValue (lastDigits width n) = n % 10 ^ width := by
  induction width generalizing n with
  | zero => simp [lastDigits, digitsValue, Nat.mod_one]
  | succ w ih =>
    rw [lastDigits, digitsValue_append, ih, digitChar_toNat, Nat.mod_mod, Nat.pow_succ,
      Nat.mul_comm (10 ^ w) 10, Nat.mod_mul]
    omega

theorem appendInt_natCast (n width : Nat) (h : n < 10 ^ width) :
    appendInt (n : Int) width = lastDigits width n := by
  unfold appendInt
  simp [h]

theorem appendInt_year (y : Int) (h0 : 0 ≤ y) (h1 : y ≤ 9999) :
    appendInt y 4 = lastDigits 4 y.toNat := by
  obtain ⟨n, rfl⟩ := Int.eq_ofNat_of_zero_le h0
  have hn : n < 10 ^ 4 := by
    have : (n : Int) ≤ 9999 := h1
    omega
  rw [appendInt_natCast n 4 hn]
  rfl

/-- C19: for a timestamp with a year from 0 to 9999, `MarshalJSON` of
`JSONRFC3339MilliNoZ`, in either package, returns no error and the text made of
a double quote, the four digits of the year, `-`, the two digits of the month,
`-`, the two digits of the day, `T`, the two digits of the hour, `:`, the two
digits of the minute, `:`, the two digits of the second and a double quote:
nineteen characters between the quotes, each digit group writing the field it
stands for, with nothing after the seconds. The nanoseconds and the zone offset
do not enter the text. -/
theorem C19_MarshalJSON_fixed_form (t : Time) (hv : t.Valid)
    (hy : 0 ≤ t.year ∧ t.year ≤ 9999) :
    mockblockstorage.JSONRFC3339MilliNoZ.MarshalJSON ⟨t⟩
        = .ok ([Char.ofNat 34] ++ lastDigits 4 t.year.toNat ++ ['-'] ++ lastDigits 2 t.month
            ++ ['-'] ++ lastDigits 2 t.day ++ ['T'] ++ lastDigits 2 t.hour ++ [':']
            ++ lastDigits 2 t.minute ++ [':'] ++ lastDigits 2 t.second ++ [Char.ofNat 34])
      ∧ mockcompute.JSONRFC3339MilliNoZ.MarshalJSON ⟨t⟩
        = mockblockstorage.JSONRFC3339MilliNoZ.MarshalJSON ⟨t⟩
      ∧ t.FormatRFC3339NoZ.length = 19
      ∧ (∀ c ∈ lastDigits 4 t.year.toNat ++ lastDigits 2 t.month ++ lastDigits 2 t.day
            ++ lastDigits 2 t.hour ++ lastDigits 2 t.minute ++ lastDigits 2 t.second,
          '0' ≤ c ∧ c ≤ '9')
      ∧ (digitsValue (lastDigits 4 t.year.toNat) : Int) = t.year
      ∧ digitsValue (lastDigits 2 t.month) = t.month
      ∧ digitsValue (lastDigits 2 t.day) = t.day
      ∧ digitsValue (lastDigits 2 t.hour) = t.hour
      ∧ digitsValue (lastDigits 2 t.minute) = t.minute
      ∧ digitsValue (lastDigits 2 t.second) = t.second
      ∧ ∀ nsec offset,
          mockblockstorage.JSONRFC3339MilliNoZ.MarshalJSON ⟨{ t with nsec := nsec, offset := offset }⟩
            = mockblockstorage.JSONRFC3339MilliNoZ.MarshalJSON ⟨t⟩ := by
  obtain ⟨_, hmo, _, hd, hh, hmi, hs, _⟩ := hv
  have hfmt : t.FormatRFC3339NoZ
      = lastDigits 4 t.year.toNat ++ ['-'] ++ lastDigits 2 t.month ++ ['-']
          ++ lastDigits 2 t.day ++ ['T'] ++ lastDigits 2 t.hour ++ [':']
          ++ lastDigits 2 t.minute ++ [':'] ++ lastDigits 2 t.second := by
    unfold Time.FormatRFC3339NoZ
    rw [appendInt_year t.year hy.1 hy.2, appendInt_natCast t.month 2 (by omega),
      appendInt_natCast t.day 2 (by omega), appendInt_natCast t.hour 2 (by omega),
      appendInt_natCast t.minute 2 (by omega), appendInt_natCast t.second 2 (by omega)]
  have hyear : (t.year.toNat : Int) = t.year := Int.toNat_of_nonneg hy.1
  refine ⟨?_, rfl, ?_, ?_, ?_, ?_, ?_, ?_, ?_, ?_, ?_⟩
  · unfold mockblockstorage.JSONRFC3339MilliNoZ.MarshalJSON
    simp only [hfmt, List.append_assoc]
  · rw [hfmt]
    simp [length_lastDigits]
  · intro c hc
    simp only [List.mem_append] at hc
    rcases hc with ((((hc | hc) | hc) | hc) | hc) | hc <;> exact lastDigits_isDigit _ _ c hc
  · rw [digitsValue_lastDigits, Nat.mod_eq_of_lt (by omega), hyear]
  · rw [digitsValue_lastDigits, Nat.mod_eq_of_lt (by omega)]
  · rw [digitsValue_lastDigits, Nat.mod_eq_of_lt (by omega)]
  · rw [digitsValue_lastDigits, Nat.mod_eq_of_lt (by omega)]
  · rw [digitsValue_lastDigits, Nat.mod_eq_of_lt (by omega)]
  · rw [digitsValue_lastDigits, Nat.mod_eq_of_lt (by omega)]
  · intro nsec offset
    rfl

/-- C19 on the second day of January 2020, noon: the text is
`"2020-01-02T12:00:00"`. -/
theorem C19_MarshalJSON_fixed_form_witness :
    mockblockstorage.JSONRFC3339MilliNoZ.MarshalJSON ⟨sampleTime 2⟩
      = .ok "\x222020-01-02T12:00:00\x22".data :=
  (C19_MarshalJSON_fixed_form (sampleTime 2) (by simp [Time.Valid, sampleTime])
    (by simp [sampleTime])).1.trans rfl

/-! ## Keys and identifiers -/

namespace GoMap

theorem mem_insert {α : Type} (m : GoMap α) (k : String) (v : α) (e : String × α)
    (h : e ∈ insert m k v) : e = (k, v) ∨ e ∈ m := by
  induction m with
  | nil =>
    simp only [insert, List.mem_singleton] at h
    exact Or.inl h
  | cons e1 rest ih =>
    obtain ⟨k1, v1⟩ := e1
    rw [insert_cons] at h
    split at h
    · rcases List.mem_cons.mp h with h | h
      · exact Or.inl h
      · exact Or.inr (List.mem_cons_of_mem _ h)
    · rcases List.mem_cons.mp h with h | h
      · exact Or.inr (by rw [h]; exact List.mem_cons_self _ _)
      · rcases ih h with h | h
        · exact Or.inl h
        · exact Or.inr (List.mem_cons_of_mem _ h)

theorem mem_of_mem_delete {α : Type} (m : GoMap α) (k : String) (e : String × α)
    (h : e ∈ delete m k) : e ∈ m :=
  (List.mem_filter.mp h).1

end GoMap

namespace mockblockstorage

theorem KeyIsID_insert (volumes : GoMap Volume) (k : String) (v : Volume)
    (hinv : KeyIsID volumes) (hk : k = v.ID) : KeyIsID (GoMap.insert volumes k v) := by
  intro e he
  rcases GoMap.mem_insert volumes k v e he with rfl | he
  · exact hk
  · exact hinv e he

theorem KeyIsID_createVolume (m : MockClient) (w : ResponseWriter Document) (body : Body)
    (mocks : CreateMocks) (uuid : String) (hinv : KeyIsID m.volumes) :
    KeyIsID (createVolume m w body mocks uuid).st.volumes := by
  unfold createVolume
  cases hb : body.create with
  | none => exact hinv
  | some create =>
    simp only [MarshalVolume, AddMocksReplaceVolumes]
    exact KeyIsID_insert _ _ _ hinv rfl

theorem KeyIsID_updateVolume (m : MockClient) (w : ResponseWriter Document) (body : Body)
    (volumeID : String) (mocks : UpdateMocks) (hinv : KeyIsID m.volumes) :
    KeyIsID (updateVolume m w body volumeID mocks).st.volumes := by
  unfold updateVolume
  cases hl : GoMap.lookup m.volumes volumeID with
  | none => exact hinv
  | some old =>
    cases hb : body.update with
    | none => exact hinv
    | some update =>
      have hidx : GoMap.index Volume.zero m.volumes volumeID = old := by
        simp [GoMap.index, hl]
      have hid : volumeID = old.ID := hinv (volumeID, old) (GoMap.mem_of_lookup _ _ _ hl)
      simp only [MarshalVolume, AddMocksReplaceVolumes, hidx]
      exact KeyIsID_insert _ _ _ hinv hid

theorem KeyIsID_deleteVolume (m : MockClient) (w : ResponseWriter Document)
    (volumeID : String) (hinv : KeyIsID m.volumes) :
    KeyIsID (deleteVolume m w volumeID).st.volumes := by
  unfold deleteVolume
  cases hl : GoMap.lookup m.volumes volumeID with
  | none => exact hinv
  | some old =>
    intro e he
    exact hinv e (GoMap.mem_of_mem_delete _ _ _ he)

theorem KeyIsID_listVolumes (m : MockClient) (w : ResponseWriter Document) (vals : Values)
    (hinv : KeyIsID m.volumes) : KeyIsID (listVolumes m w vals).st.volumes := by
  unfold listVolumes
  simp only [MarshalVolumes_eq]
  exact hinv

theorem KeyIsID_getVolume (m : MockClient) (w : ResponseWriter Document) (volumeID : String)
    (hinv : KeyIsID m.volumes) : KeyIsID (getVolume m w volumeID).st.volumes := by
  unfold getVolume
  cases hl : GoMap.lookup m.volumes volumeID with
  | none => exact hinv
  | some vol =>
    simp only [MarshalVolume, AddMocksReplaceVolumes]
    exact hinv

theorem KeyIsID_serve (em : ExtraMocks) (s : HandlerState) (r : Request Body) (uuid : String)
    (hinv : KeyIsID s.m.volumes) : KeyIsID (serve em s r uuid).st.m.volumes := by
  unfold serve mockVolumes
  simp only
  split
  · split
    · exact KeyIsID_listVolumes _ _ _ hinv
    · exact KeyIsID_getVolume _ _ _ hinv
  · split
    · exact KeyIsID_createVolume _ _ _ _ _ hinv
    · split
      · split
        · exact hinv
        · split
          · exact KeyIsID_updateVolume _ _ _ _ _ hinv
          · exact KeyIsID_updateVolume _ _ _ _ _ hinv
      · split
        · exact KeyIsID_deleteVolume _ _ _ hinv
        · exact hinv

theorem KeyIsID_serveAll (em : ExtraMocks) (reqs : List (Request Body × String))
    (s s' : HandlerState) (hinv : KeyIsID s.m.volumes) (hrun : serveAll em s reqs = some s') :
    KeyIsID s'.m.volumes := by
  induction reqs generalizing s with
  | nil =>
    simp only [serveAll, Option.some.injEq] at hrun
    rw [← hrun]
    exact hinv
  | cons q rest ih =>
    obtain ⟨r, uuid⟩ := q
    unfold serveAll at hrun
    cases hp : (serve em s r uuid).panicked with
    | some msg => simp [hp] at hrun
    | none =>
      simp only [hp] at hrun
      exact ih _ (KeyIsID_serve em s r uuid hinv) hrun

/-- C21: in every state the volumes handler reaches from an empty volume store by
serving any sequence of requests, every store entry has as its key the `ID` of
the volume stored under it, and this still holds in the state a further request
leaves, also when that request panics; `createVolume`, `updateVolume` and
`deleteVolume` each take a store with this property to a store with it. -/
theorem C21_key_is_ID (em : ExtraMocks) (types : GoMap VolumeType)
    (reqs : List (Request Body × String)) (s : HandlerState)
    (m : MockClient) (w : ResponseWriter Document) (body : Body) (volumeID : String)
    (create : CreateMocks) (update : UpdateMocks) (uuid : String)
    (hrun : serveAll em { m := { volumes := [], volumeTypes := types }, updateCounter := 0 } reqs
      = some s)
    (hinv : KeyIsID m.volumes) :
    KeyIsID s.m.volumes
      ∧ (∀ k v, GoMap.lookup s.m.volumes k = some v → v.ID = k)
      ∧ (∀ (r : Request Body) (g : String), KeyIsID (serve em s r g).st.m.volumes)
      ∧ KeyIsID (createVolume m w body create uuid).st.volumes
      ∧ KeyIsID (updateVolume m w body volumeID update).st.volumes
      ∧ KeyIsID (deleteVolume m w volumeID).st.volumes := by
  have hs : KeyIsID s.m.volumes :=
    KeyIsID_serveAll em reqs _ s (by intro e he; cases he) hrun
  refine ⟨hs, ?_, fun r g => KeyIsID_serve em s r g hs, KeyIsID_createVolume _ _ _ _ _ hinv,
    KeyIsID_updateVolume _ _ _ _ _ hinv, KeyIsID_deleteVolume _ _ _ hinv⟩
  intro k v hk
  exact (hs (k, v) (GoMap.mem_of_lookup _ _ _ hk)).symm

/-- C21 on a run from the empty store: two volumes are created, the first is
updated and then deleted, and the list is read; the run ends without a panic and
the volume left is stored under its own `ID`. -/
theorem C21_key_is_ID_witness :
    (serveAll sampleMocks { m := { volumes := [], volumeTypes := [] }, updateCounter := 0 }
        [(sampleRequest "POST" "/volumes", "u1"), (sampleRequest "PUT" "/volumes/u1", "g1"),
         (sampleRequest "POST" "/volumes", "u2"), (sampleRequest "DELETE" "/volumes/u1", "g2"),
         (sampleRequest "GET" "/volumes/detail", "g3")]).isSome = true
      ∧ ∀ s, serveAll sampleMocks
          { m := { volumes := [], volumeTypes := [] }, updateCounter := 0 }
          [(sampleRequest "POST" "/volumes", "u1"), (sampleRequest "PUT" "/volumes/u1", "g1"),
           (sampleRequest "POST" "/volumes", "u2"), (sampleRequest "DELETE" "/volumes/u1", "g2"),
           (sampleRequest "GET" "/volumes/detail", "g3")] = some s →
          KeyIsID s.m.volumes ∧ GoMap.lookup s.m.volumes "u2" ≠ none := by
  refine ⟨by decide, ?_⟩
  intro s hs
  refine ⟨(C21_key_is_ID sampleMocks [] _ s { volumes := bareStore, volumeTypes := [] }
    ResponseWriter.fresh (sampleBody []) "v1" sampleMocks.Create
    { UpdatedAt := sampleTime 2, VolumeType := "ssd", Size := 20 } "u9" hs
    (by intro e he; simp only [bareStore, List.mem_singleton] at he; rw [he]; rfl)).1, ?_⟩
  have hval : serveAll sampleMocks
      { m := { volumes := [], volumeTypes := [] }, updateCounter := 0 }
      [(sampleRequest "POST" "/volumes", "u1"), (sampleRequest "PUT" "/volumes/u1", "g1"),
       (sampleRequest "POST" "/volumes", "u2"), (sampleRequest "DELETE" "/volumes/u1", "g2"),
       (sampleRequest "GET" "/volumes/detail", "g3")]
      = some { m := { volumes := [("u2", createdVolume
                  { Volume := { Size := 10, AvailabilityZone := "nova", ConsistencyGroupID := "",
                                Description := "", Metadata := [("k", "v")], Name := "data",
                                SnapshotID := "", SourceVolID := "", ImageID := "",
                                VolumeType := "standard" } }
                  sampleMocks.Create "u2")], volumeTypes := [] },
               updateCounter := 1 } := by
    decide
  rw [hval] at hs
  cases hs
  decide

end mockblockstorage

end Kops